import Mathlib

/-!
# uC/CAN low-level drivers: STM32F4XX and LPC22XX

Shallow embedding of `Drivers/STM32F4XX/drv_can.c` and `Drivers/LPC22XX/drv_can.c`.

Conventions of the embedding

* machine words are `Nat`; a 32-bit result that can overflow is reduced `% 2 ^ 32`,
  `x & ~m` on a 32-bit register is `x &&& (0xFFFFFFFF - m)`;
* `CPU_INT16S` values (handles, results) are `Int`;
* a C array is a function from the index, a register block is reached through the
  address stored in `Base`: memory is a function from the base address to the block,
  so that the code is total exactly as the C code is (no bounds are checked);
* `CPU_CRITICAL_ENTER` / `CPU_CRITICAL_EXIT` increment / decrement `IntNest`;
* both drivers are embedded with argument checking compiled in
  (`STM32F4XX_CAN_ARG_CHK_CFG = 1`, `LPC22XX_CAN_ARG_CHK_CFG = 1`);
* a busy-wait on the hardware acknowledge bit `INAK` ends when the controller has
  driven that bit to the awaited value; the state after the loop has exactly that bit
  changed.
-/

/-- Array or memory update at one index. -/
def upd {α : Type} (f : Nat → α) (i : Nat) (v : α) : Nat → α :=
  fun j => if j = i then v else f j

/-- Bitwise `x & ~m` on a 32-bit register. -/
def clr32 (x m : Nat) : Nat := x &&& (0xFFFFFFFF - m)

/-- Store of a `CPU_INT08U` through a byte pointer. -/
def write8 (b : Nat → Nat) (off v : Nat) : Nat → Nat := upd b off (v % 256)

/-- Store of a `CPU_INT16U` (little endian). -/
def write16 (b : Nat → Nat) (off v : Nat) : Nat → Nat :=
  upd (upd b off (v % 256)) (off + 1) (v / 256 % 256)

/-- Store of a `CPU_INT32U` (little endian). -/
def write32 (b : Nat → Nat) (off v : Nat) : Nat → Nat :=
  upd (upd (upd (upd b off (v % 256)) (off + 1) (v / 256 % 256))
    (off + 2) (v / 65536 % 256)) (off + 3) (v / 16777216 % 256)

/-- Load of a `CPU_INT32U` (little endian). -/
def read32 (b : Nat → Nat) (off : Nat) : Nat :=
  b off % 256 + 256 * (b (off + 1) % 256) + 65536 * (b (off + 2) % 256)
    + 16777216 * (b (off + 3) % 256)

/-- The loop `for (i = lo; i < hi; i++) body`. -/
def forLoop {α : Type} (lo hi : Nat) (body : Nat → α → α) (a : α) : α :=
  (List.range' lo (hi - lo)).foldl (fun acc i => body i acc) a

/-- Outcome of a dispatcher `switch`, given as result, state and argument memory, where
`err` reads the last error of a state: the result is -1, or it is 0 and the last error
is still `e`. -/
def switchOutcome {σ : Type} (err : σ → Nat) (e : Nat) (r : Int × σ × (Nat → Nat)) : Prop :=
  r.1 = -1 ∨ (r.1 = 0 ∧ err r.2.1 = e)

/-- Outcome of an entry point with result `r` and last error `e` on return, the last
error before the call being `e0`: the result is -1 and the last error is not `NO_ERR` (0),
or the result is not negative and the last error is still `e0`. -/
def entryOutcome (e0 : Nat) (r : Int) (e : Nat) : Prop :=
  (r = -1 ∧ e ≠ 0) ∨ (0 ≤ r ∧ e = e0)

/-- The outcome `entryOutcome` of an entry point that returns result and state; `err`
reads the last error of a state. -/
def pairOutcome {σ : Type} (err : σ → Nat) (e0 : Nat) (r : Int × σ) : Prop :=
  entryOutcome e0 r.1 (err r.2)

/-- The outcome `entryOutcome` of an entry point that returns result, state and the
memory behind its pointer argument; `err` reads the last error of a state. -/
def tripleOutcome {σ β : Type} (err : σ → Nat) (e0 : Nat) (r : Int × σ × β) : Prop :=
  entryOutcome e0 r.1 (err r.2.1)

/-- The state of a two-component result satisfies `P`. -/
def pairSat {σ : Type} (P : σ → Prop) (r : Int × σ) : Prop := P r.2

/-- The state of a three-component result satisfies `P`. -/
def tripleSat {σ β : Type} (P : σ → Prop) (r : Int × σ × β) : Prop := P r.2.1

/-- Modelled from the spec: `drv_def.h` is not among the sources; `DEV_RW` is the
mode value for read-write access, the only mode the drivers accept. -/
def DEV_RW : Nat := 3

namespace STM32F4XX

/-! ## Constants of `drv_can.h` / `drv_can_reg.h` (STM32F4XX)

The STM32F4XX headers are not among the sources; the enumerations are those of the
sibling header `Drivers/STM32F10X/drv_can.h`, the register bits those of the bxCAN
register map. -/

def STM32F4XX_CAN_BUS_0 : Nat := 0
def STM32F4XX_CAN_BUS_1 : Nat := 1
def STM32F4XX_CAN_N_DEV : Nat := 2

def STM32F4XX_CAN_NO_ERR : Nat := 0
def STM32F4XX_CAN_BUS_ERR : Nat := 1
def STM32F4XX_CAN_BUSY_ERR : Nat := 2
def STM32F4XX_CAN_INIT_ERR : Nat := 3
def STM32F4XX_CAN_MODE_ERR : Nat := 4
def STM32F4XX_CAN_OPEN_ERR : Nat := 5
def STM32F4XX_CAN_CLOSE_ERR : Nat := 6
def STM32F4XX_CAN_FUNC_ERR : Nat := 7
def STM32F4XX_CAN_ARG_ERR : Nat := 8
def STM32F4XX_CAN_NO_DATA_ERR : Nat := 9

def IO_STM32F4XX_CAN_GET_IDENT : Nat := 0x0
def IO_STM32F4XX_CAN_GET_ERRNO : Nat := 0x1
def IO_STM32F4XX_CAN_GET_DRVNAME : Nat := 0x2
def IO_STM32F4XX_CAN_SET_BAUDRATE : Nat := 0x10
def IO_STM32F4XX_CAN_START : Nat := 0x11
def IO_STM32F4XX_CAN_STOP : Nat := 0x12
def IO_STM32F4XX_CAN_RX_STANDARD : Nat := 0x13
def IO_STM32F4XX_CAN_RX_EXTENDED : Nat := 0x14
def IO_STM32F4XX_CAN_TX_READY : Nat := 0x15
def IO_STM32F4XX_CAN_GET_NODE_STATUS : Nat := 0x16
def IO_STM32F4XX_CAN_SET_RX_FILTER_1 : Nat := 0x17
def IO_STM32F4XX_CAN_SET_RX_FILTER_2 : Nat := 0x18

def STM32F4XX_DEF_SP : Nat := 750
def STM32F4XX_DEF_RJW : Nat := 125
def STM32F4XX_DEF_BAUDRATE : Nat := 1000000

def STM32F4XX_FF_FRAME_BIT : Nat := 0x20000000
def STM32F4XX_RTR_FRAME_BIT : Nat := 0x40000000

def STM32F4XX_CAN1_BASE : Nat := 0x40006400
def STM32F4XX_CAN2_BASE : Nat := 0x40006800

def STM32F4XX_CAN_MCR_INRQ : Nat := 0x00000001
def STM32F4XX_CAN_MCR_SLEEP : Nat := 0x00000002
def STM32F4XX_CAN_MSR_INAK : Nat := 0x00000001
def STM32F4XX_CAN_FMR_FINIT : Nat := 0x00000001
def STM32F4XX_CAN_TSR_TME0 : Nat := 0x04000000
def STM32F4XX_CAN_TSR_TME1 : Nat := 0x08000000
def STM32F4XX_CAN_TSR_TME2 : Nat := 0x10000000
def STM32F4XX_CAN_TIxR_TXRQ : Nat := 0x00000001

/-- Value of `sizeof(STM32F4XX_CANFRM)`: 4 + 8 + 1 + 3 bytes. -/
def sizeof_CANFRM : Nat := 16

def DrvIdent : Nat := 0x243F1501

/-! ## Data model (STM32F4XX) -/

/-- Device runtime data `STM32F4XX_CAN_DATA`. -/
structure STM32F4XX_CAN_DATA where
  Use : Nat
  Baudrate : Nat
  Base : Nat
  SamplePoint : Nat
  ResynchJumpWith : Nat
  PRESDIV : Nat
  RJW : Nat
  PROPSEG : Nat
  PSEG1 : Nat
  PSEG2 : Nat
  FilterIdx : Nat
deriving DecidableEq

/-- The frame `STM32F4XX_CANFRM`. -/
structure STM32F4XX_CANFRM where
  Identifier : Nat
  Data : Nat → Nat
  DLC : Nat
  Spare : Nat → Nat

/-- One transmit mailbox of the register block. -/
structure TxMailBox_t where
  TIR : Nat
  TDTR : Nat
  TDLR : Nat
  TDHR : Nat
deriving DecidableEq

/-- One receive FIFO mailbox of the register block. -/
structure FIFOMailBox_t where
  RIR : Nat
  RDTR : Nat
  RDLR : Nat
  RDHR : Nat
deriving DecidableEq

/-- One filter bank entry. -/
structure FilterRegister_t where
  FR1 : Nat
  FR2 : Nat
deriving DecidableEq

/-- The register block `STM32F4XX_CAN_t` (the registers the driver accesses). -/
structure STM32F4XX_CAN_t where
  MCR : Nat
  MSR : Nat
  TSR : Nat
  RF0R : Nat
  RF1R : Nat
  ESR : Nat
  BTR : Nat
  TxMailBox : Nat → TxMailBox_t
  FIFOMailBox : Nat → FIFOMailBox_t
  FMR : Nat
  FM1R : Nat
  FS1R : Nat
  FFA1R : Nat
  FA1R : Nat
  FilterRegister : Nat → FilterRegister_t

/-- Module state and hardware of the STM32F4XX driver. `mem` maps a base address to
the register block found there, `board` stands for the hardware the board support
functions program (pins, interrupt controller). -/
structure State where
  DrvError : Nat
  DevData : Nat → STM32F4XX_CAN_DATA
  mem : Nat → STM32F4XX_CAN_t
  RCC_APB1ENR : Nat
  board : Nat
  IntNest : Int

/-- Board support functions and link-time values the driver uses and that live outside
`drv_can.c`. -/
structure Env where
  /-- Board function `STM32F4XXCAN_CalcTimingReg(dev)`: result code and the device record it leaves. -/
  CalcTimingReg : STM32F4XX_CAN_DATA → Int × STM32F4XX_CAN_DATA
  /-- Board function `STM32F4XXCAN_PinCfg(arg)`. -/
  PinCfg : Nat → Nat → Nat
  /-- Board function `STM32F4XXCAN_EnableIrqs(arg)`. -/
  EnableIrqs : Nat → Nat → Nat
  /-- Board function `STM32F4XXCAN_SetDevIds(devId, devName)`. -/
  SetDevIds : Int → Nat → Nat → Nat
  /-- Some `STM32F4XX_CANx_yy_INTERRUPT_EN` is greater than 0. -/
  INTERRUPT_EN : Bool
  /-- Address of the string literal `STM32F4XX_CAN_NAME`. -/
  STM32F4XX_CAN_NAME : Nat

def CPU_CRITICAL_ENTER (s : State) : State := { s with IntNest := s.IntNest + 1 }

def CPU_CRITICAL_EXIT (s : State) : State := { s with IntNest := s.IntNest - 1 }

/-- Store through `dev = &DevData[i]`. -/
def setDev (s : State) (i : Nat) (d : STM32F4XX_CAN_DATA) : State :=
  { s with DevData := upd s.DevData i d }

/-- Store into the register block at base address `base`. -/
def setCan (s : State) (base : Nat) (c : STM32F4XX_CAN_t) : State :=
  { s with mem := upd s.mem base c }

/-- The loop `while ((can->MSR & INAK) == 0) {}`: left when the controller has set
the acknowledge bit. -/
def waitInitMode (c : STM32F4XX_CAN_t) : STM32F4XX_CAN_t :=
  { c with MSR := c.MSR ||| STM32F4XX_CAN_MSR_INAK }

/-- The loop `while ((can->MSR & INAK) == 1) {}`: left when the controller has
cleared the acknowledge bit. -/
def waitNormalMode (c : STM32F4XX_CAN_t) : STM32F4XX_CAN_t :=
  { c with MSR := clr32 c.MSR STM32F4XX_CAN_MSR_INAK }

/-- Entry point `STM32F4XXCANOpen (devId, devName, mode)`. -/
def STM32F4XXCANOpen (env : Env) (s : State) (devId : Int) (devName mode : Nat) :
    Int × State :=
  if devName ≥ STM32F4XX_CAN_N_DEV then
    (-1, { s with DrvError := STM32F4XX_CAN_BUS_ERR })
  else if mode ≠ DEV_RW then
    (-1, { s with DrvError := STM32F4XX_CAN_MODE_ERR })
  else
    let s := CPU_CRITICAL_ENTER s
    if (s.DevData devName).Use = 0 then
      let s := setDev s devName { s.DevData devName with Use := 1 }
      let s := if env.INTERRUPT_EN then
          { s with board := env.SetDevIds devId devName s.board } else s
      (Int.ofNat devName, CPU_CRITICAL_EXIT s)
    else
      (-1, CPU_CRITICAL_EXIT { s with DrvError := STM32F4XX_CAN_OPEN_ERR })

/-- Entry point `STM32F4XXCANClose (paraId)`. -/
def STM32F4XXCANClose (s : State) (paraId : Int) : Int × State :=
  if paraId ≥ STM32F4XX_CAN_N_DEV ∨ paraId < 0 then
    (-1, { s with DrvError := STM32F4XX_CAN_BUS_ERR })
  else
    let i := paraId.toNat
    let s := CPU_CRITICAL_ENTER s
    if (s.DevData i).Use ≠ 0 then
      let s := setDev s i { s.DevData i with Use := 0 }
      (Int.ofNat STM32F4XX_CAN_NO_ERR, CPU_CRITICAL_EXIT s)
    else
      (-1, CPU_CRITICAL_EXIT { s with DrvError := STM32F4XX_CAN_CLOSE_ERR })

/-- Read–modify–write of the register block at base address `base`. -/
def modCan (s : State) (base : Nat) (f : STM32F4XX_CAN_t → STM32F4XX_CAN_t) : State :=
  setCan s base (f (s.mem base))

/-- Store into `can0->FilterRegister[i]`. -/
def setFilter (c : STM32F4XX_CAN_t) (i : Nat) (r : FilterRegister_t) : STM32F4XX_CAN_t :=
  { c with FilterRegister := upd c.FilterRegister i r }

/-- Store into `can->TxMailBox[i]`. -/
def setTxMailBox (c : STM32F4XX_CAN_t) (i : Nat) (m : TxMailBox_t) : STM32F4XX_CAN_t :=
  { c with TxMailBox := upd c.TxMailBox i m }

/-- The value written to `can->BTR` from the timing fields of the device record. -/
def btrOf (d : STM32F4XX_CAN_DATA) : Nat :=
  ((d.RJW <<< 24) % 2 ^ 32) ||| ((d.PSEG1 <<< 16) % 2 ^ 32) |||
    ((d.PSEG2 <<< 20) % 2 ^ 32) ||| d.PRESDIV

/-- Entry point `STM32F4XXCANInit (arg)`. -/
def STM32F4XXCANInit (env : Env) (s : State) (arg : Nat) : Int × State :=
  if arg ≥ STM32F4XX_CAN_N_DEV then
    (-1, { s with DrvError := STM32F4XX_CAN_INIT_ERR })
  else
    let s := { s with DrvError := STM32F4XX_CAN_NO_ERR }
    let s := setDev s arg { s.DevData arg with Use := 0 }
    let s := { s with board := env.PinCfg arg s.board }
    let s :=
      if arg = STM32F4XX_CAN_BUS_0 then
        let s := setDev s arg { s.DevData arg with Base := STM32F4XX_CAN1_BASE }
        { s with RCC_APB1ENR := s.RCC_APB1ENR ||| 0x02000000 }
      else
        let s := setDev s STM32F4XX_CAN_BUS_0
          { s.DevData STM32F4XX_CAN_BUS_0 with Base := STM32F4XX_CAN1_BASE }
        let s := { s with RCC_APB1ENR := s.RCC_APB1ENR ||| 0x02000000 }
        let s := setDev s arg { s.DevData arg with Base := STM32F4XX_CAN2_BASE }
        { s with RCC_APB1ENR := s.RCC_APB1ENR ||| 0x04000000 }
    let can := (s.DevData arg).Base
    let s := modCan s can (fun c => { c with MCR := clr32 c.MCR STM32F4XX_CAN_MCR_SLEEP })
    let s := modCan s can (fun c => { c with MCR := STM32F4XX_CAN_MCR_INRQ })
    let s := modCan s can waitInitMode
    let s := setDev s arg { s.DevData arg with
      Baudrate := STM32F4XX_DEF_BAUDRATE
      SamplePoint := STM32F4XX_DEF_SP
      ResynchJumpWith := STM32F4XX_DEF_RJW }
    let s := setDev s arg (env.CalcTimingReg (s.DevData arg)).2
    let s := modCan s can (fun c => { c with BTR := btrOf (s.DevData arg) })
    let can0 := (s.DevData STM32F4XX_CAN_BUS_0).Base
    let s := modCan s can0 (fun c => { c with FMR := c.FMR ||| STM32F4XX_CAN_FMR_FINIT })
    let s := modCan s can0 (fun c => { c with FMR := clr32 c.FMR 0x00003F00 })
    let s := modCan s can0 (fun c => { c with FMR := c.FMR ||| (14 <<< 8) })
    let s := modCan s can0 (fun c => { c with FM1R := 0 })
    let s := modCan s can0 (fun c => { c with FS1R := 0x0FFFFFFF })
    let s := modCan s can0 (fun c => { c with FFA1R := 0x0AAAAAAA })
    let s := modCan s can0 (fun c => { c with FA1R := 0x00000003 ||| 0x0000C000 })
    let s := setDev s arg { s.DevData arg with FilterIdx := 2 }
    let s :=
      if arg = STM32F4XX_CAN_BUS_0 then
        forLoop 0 14 (fun i s => modCan s can0 (fun c =>
          let c := setFilter c i { c.FilterRegister i with FR1 := 0 }
          setFilter c i { c.FilterRegister i with FR2 := 0 })) s
      else
        forLoop 14 28 (fun i s => modCan s can0 (fun c =>
          let c := setFilter c i { c.FilterRegister i with FR1 := 0 }
          setFilter c i { c.FilterRegister i with FR2 := 0 })) s
    let s := modCan s can0 (fun c => { c with FMR := clr32 c.FMR STM32F4XX_CAN_FMR_FINIT })
    let s := modCan s can (fun c => { c with MCR := clr32 c.MCR STM32F4XX_CAN_MCR_INRQ })
    let s := modCan s can waitNormalMode
    let s := { s with board := env.EnableIrqs arg s.board }
    (Int.ofNat STM32F4XX_CAN_NO_ERR, s)

/-- Selection of an empty transmit mailbox from `can->TSR` (`TransmitMailbox`, -1 when
none is empty). -/
def TransmitMailbox (TSR : Nat) : Int :=
  if TSR &&& STM32F4XX_CAN_TSR_TME0 = STM32F4XX_CAN_TSR_TME0 then 0
  else if TSR &&& STM32F4XX_CAN_TSR_TME1 = STM32F4XX_CAN_TSR_TME1 then 1
  else if TSR &&& STM32F4XX_CAN_TSR_TME2 = STM32F4XX_CAN_TSR_TME2 then 2
  else -1

/-- The four stores of one filter pair `FilterRegister[i]`, `FilterRegister[i+1]`
with `(canId, mask)` in the extended (`<< 3`, `+ 4`) or standard (`<< 21`) layout. -/
def programPair (c : STM32F4XX_CAN_t) (i j mask canId : Nat) : STM32F4XX_CAN_t :=
  if canId > 0x7FF then
    let c := setFilter c i { c.FilterRegister i with FR1 := ((canId <<< 3) + 4) % 2 ^ 32 }
    let c := setFilter c i { c.FilterRegister i with FR2 := ((mask <<< 3) + 4) % 2 ^ 32 }
    let c := setFilter c j { c.FilterRegister j with FR1 := ((canId <<< 3) + 4) % 2 ^ 32 }
    setFilter c j { c.FilterRegister j with FR2 := ((mask <<< 3) + 4) % 2 ^ 32 }
  else
    let c := setFilter c i { c.FilterRegister i with FR1 := (canId <<< 21) % 2 ^ 32 }
    let c := setFilter c i { c.FilterRegister i with FR2 := (mask <<< 21) % 2 ^ 32 }
    let c := setFilter c j { c.FilterRegister j with FR1 := (canId <<< 21) % 2 ^ 32 }
    setFilter c j { c.FilterRegister j with FR2 := (mask <<< 21) % 2 ^ 32 }

/-- The `switch (func)` of `STM32F4XXCANIoCtl`: result, state and argument memory after
the selected case (`i` is the checked `paraId`, `can` the pointer taken from
`dev->Base` at entry). -/
def IoCtlSwitch (env : Env) (s : State) (i : Nat) (can : Nat) (func : Nat)
    (argp : Nat → Nat) : Int × State × (Nat → Nat) :=
  let can0 := (s.DevData STM32F4XX_CAN_BUS_0).Base
  if func = IO_STM32F4XX_CAN_GET_IDENT then
    (Int.ofNat STM32F4XX_CAN_NO_ERR, s, write32 argp 0 DrvIdent)
  else if func = IO_STM32F4XX_CAN_GET_ERRNO then
    (Int.ofNat STM32F4XX_CAN_NO_ERR, s, write16 argp 0 s.DrvError)
  else if func = IO_STM32F4XX_CAN_GET_DRVNAME then
    (Int.ofNat STM32F4XX_CAN_NO_ERR, s, write32 argp 0 env.STM32F4XX_CAN_NAME)
  else if func = IO_STM32F4XX_CAN_SET_BAUDRATE then
    let s := setDev s i { s.DevData i with Baudrate := read32 argp 0 }
    let r := env.CalcTimingReg (s.DevData i)
    let s := setDev s i r.2
    if r.1 ≠ Int.ofNat STM32F4XX_CAN_NO_ERR then
      (-1, { s with DrvError := STM32F4XX_CAN_ARG_ERR }, argp)
    else
      let s := modCan s can (fun c => { c with MCR := c.MCR ||| STM32F4XX_CAN_MCR_INRQ })
      let s := modCan s can waitInitMode
      let s := modCan s can (fun c => { c with BTR := btrOf (s.DevData i) })
      let s := modCan s can (fun c => { c with MCR := clr32 c.MCR STM32F4XX_CAN_MCR_INRQ })
      let s := modCan s can waitNormalMode
      (Int.ofNat STM32F4XX_CAN_NO_ERR, s, argp)
  else if func = IO_STM32F4XX_CAN_TX_READY then
    if TransmitMailbox (s.mem can).TSR < 0 then
      (Int.ofNat STM32F4XX_CAN_NO_ERR, s, write8 argp 0 0)
    else
      (Int.ofNat STM32F4XX_CAN_NO_ERR, s, write8 argp 0 1)
  else if func = IO_STM32F4XX_CAN_START then
    let s := modCan s can (fun c => { c with MCR := clr32 c.MCR STM32F4XX_CAN_MCR_INRQ })
    let s := modCan s can waitNormalMode
    (Int.ofNat STM32F4XX_CAN_NO_ERR, s, argp)
  else if func = IO_STM32F4XX_CAN_STOP then
    let s := modCan s can (fun c => { c with MCR := c.MCR ||| STM32F4XX_CAN_MCR_INRQ })
    let s := modCan s can waitInitMode
    let s := modCan s can (fun c => { c with TSR := 0x00808080 })
    (Int.ofNat STM32F4XX_CAN_NO_ERR, s, argp)
  else if func = IO_STM32F4XX_CAN_RX_STANDARD then
    let s := modCan s can0 (fun c => { c with FMR := c.FMR ||| STM32F4XX_CAN_FMR_FINIT })
    let body := fun (k : Nat) (s : State) => modCan s can0 (fun c =>
      let c := setFilter c k { c.FilterRegister k with FR1 := clr32 (c.FilterRegister k).FR1 0x4 }
      setFilter c k { c.FilterRegister k with FR2 := (c.FilterRegister k).FR2 ||| 0x4 })
    let s := if i = STM32F4XX_CAN_BUS_0 then forLoop 0 14 body s else forLoop 14 28 body s
    let s := modCan s can0 (fun c => { c with FMR := clr32 c.FMR STM32F4XX_CAN_FMR_FINIT })
    (Int.ofNat STM32F4XX_CAN_NO_ERR, s, argp)
  else if func = IO_STM32F4XX_CAN_RX_EXTENDED then
    let s := modCan s can0 (fun c => { c with FMR := c.FMR ||| STM32F4XX_CAN_FMR_FINIT })
    let body := fun (k : Nat) (s : State) => modCan s can0 (fun c =>
      let c := setFilter c k { c.FilterRegister k with FR1 := (c.FilterRegister k).FR1 ||| 0x4 }
      setFilter c k { c.FilterRegister k with FR2 := (c.FilterRegister k).FR2 ||| 0x4 })
    let s := if i = STM32F4XX_CAN_BUS_0 then forLoop 0 14 body s else forLoop 14 28 body s
    let s := modCan s can0 (fun c => { c with FMR := clr32 c.FMR STM32F4XX_CAN_FMR_FINIT })
    (Int.ofNat STM32F4XX_CAN_NO_ERR, s, argp)
  else if func = IO_STM32F4XX_CAN_GET_NODE_STATUS then
    let status_reg := (s.mem can).ESR
    let argp := if status_reg &&& 0x03 ≠ 0 then write8 argp 0 1 else argp
    let argp := if status_reg &&& 0x04 ≠ 0 then write8 argp 0 2 else argp
    let argp := if status_reg &&& 0x07 = 0 then write8 argp 0 0 else argp
    (Int.ofNat STM32F4XX_CAN_NO_ERR, s, argp)
  else if func = IO_STM32F4XX_CAN_SET_RX_FILTER_1 then
    let mask := read32 argp 0
    let canId := read32 argp 4
    let s := modCan s can0 (fun c => { c with FMR := c.FMR ||| STM32F4XX_CAN_FMR_FINIT })
    let s :=
      if i = STM32F4XX_CAN_BUS_0 then modCan s can0 (fun c => programPair c 0 1 mask canId)
      else modCan s can0 (fun c => programPair c 14 15 mask canId)
    let s := modCan s can0 (fun c => { c with FMR := clr32 c.FMR STM32F4XX_CAN_FMR_FINIT })
    (Int.ofNat STM32F4XX_CAN_NO_ERR, s, argp)
  else if func = IO_STM32F4XX_CAN_SET_RX_FILTER_2 then
    let mask := read32 argp 0
    let canId := read32 argp 4
    let s := modCan s can0 (fun c => { c with FMR := c.FMR ||| STM32F4XX_CAN_FMR_FINIT })
    let idx := (s.DevData i).FilterIdx
    let s :=
      if i = STM32F4XX_CAN_BUS_0 then
        modCan s can0 (fun c => programPair c idx (idx + 1) mask canId)
      else modCan s can0 (fun c => programPair c (idx + 14) (idx + 15) mask canId)
    let s :=
      if (s.DevData i).FilterIdx < 12 then
        setDev s i { s.DevData i with FilterIdx := (s.DevData i).FilterIdx + 2 }
      else setDev s i { s.DevData i with FilterIdx := 0 }
    let s := modCan s can0 (fun c => { c with FMR := clr32 c.FMR STM32F4XX_CAN_FMR_FINIT })
    (Int.ofNat STM32F4XX_CAN_NO_ERR, s, argp)
  else
    (-1, s, argp)

/-- Entry point `STM32F4XXCANIoCtl (paraId, func, argp)`; the third component is the memory behind
`argp` after the call. -/
def STM32F4XXCANIoCtl (env : Env) (s : State) (paraId : Int) (func : Nat)
    (argp : Nat → Nat) : Int × State × (Nat → Nat) :=
  if paraId ≥ STM32F4XX_CAN_N_DEV ∨ paraId < 0 then
    (-1, { s with DrvError := STM32F4XX_CAN_BUS_ERR }, argp)
  else
    let i := paraId.toNat
    if (s.DevData i).Use ≠ 1 then
      (-1, { s with DrvError := STM32F4XX_CAN_OPEN_ERR }, argp)
    else
      let can := (s.DevData i).Base
      let s := CPU_CRITICAL_ENTER s
      let r := IoCtlSwitch env s i can func argp
      let s := CPU_CRITICAL_EXIT r.2.1
      if r.1 = -1 then
        (r.1, { s with DrvError := STM32F4XX_CAN_FUNC_ERR }, r.2.2)
      else
        (r.1, s, r.2.2)

/-- The block of `STM32F4XXCANRead` that copies the receive FIFO mailbox `mb` into the
frame `frm`: identifier (standard or extended, remote flag), DLC and the data field. -/
def rxFrame (mb : FIFOMailBox_t) (frm : STM32F4XX_CANFRM) : STM32F4XX_CANFRM :=
  let Word := mb.RIR &&& 0x04
  let frm :=
    if Word = 0 then { frm with Identifier := mb.RIR >>> 21 }
    else
      let frm := { frm with Identifier := mb.RIR >>> 3 }
      { frm with Identifier := frm.Identifier ||| STM32F4XX_FF_FRAME_BIT }
  let frm :=
    if mb.RIR &&& 0x02 ≠ 0 then
      { frm with Identifier := frm.Identifier ||| STM32F4XX_RTR_FRAME_BIT }
    else frm
  let frm := { frm with DLC := (mb.RDTR &&& 0x0F) % 256 }
  let frm := { frm with Data := upd frm.Data 0 (mb.RDLR % 256) }
  let frm := { frm with Data := upd frm.Data 1 ((mb.RDLR >>> 8) % 256) }
  let frm := { frm with Data := upd frm.Data 2 ((mb.RDLR >>> 16) % 256) }
  let frm := { frm with Data := upd frm.Data 3 ((mb.RDLR >>> 24) % 256) }
  let frm := { frm with Data := upd frm.Data 4 (mb.RDHR % 256) }
  let frm := { frm with Data := upd frm.Data 5 ((mb.RDHR >>> 8) % 256) }
  let frm := { frm with Data := upd frm.Data 6 ((mb.RDHR >>> 16) % 256) }
  { frm with Data := upd frm.Data 7 ((mb.RDHR >>> 24) % 256) }

/-- Selection of the receive FIFO from `can->RF0R` and `can->RF1R` (`FIFONumber`, -1
when no frame is pending). -/
def FIFONumber (RF0R RF1R : Nat) : Int :=
  if RF0R &&& 0x03 ≥ 1 then 0
  else if RF1R &&& 0x03 ≥ 1 then 1
  else -1

/-- Entry point `STM32F4XXCANRead (paraId, buffer, size)`; `buffer = none` is the null pointer, the
third component is the frame behind `buffer` after the call. -/
def STM32F4XXCANRead (s : State) (paraId : Int) (buffer : Option STM32F4XX_CANFRM)
    (size : Nat) : Int × State × Option STM32F4XX_CANFRM :=
  if paraId ≥ STM32F4XX_CAN_N_DEV ∨ paraId < 0 then
    (-1, { s with DrvError := STM32F4XX_CAN_BUS_ERR }, buffer)
  else if size ≠ sizeof_CANFRM then
    (-1, { s with DrvError := STM32F4XX_CAN_NO_DATA_ERR }, buffer)
  else
    match buffer with
    | none => (-1, { s with DrvError := STM32F4XX_CAN_ARG_ERR }, none)
    | some frm =>
      let i := paraId.toNat
      if (s.DevData i).Use ≠ 1 then
        (-1, { s with DrvError := STM32F4XX_CAN_OPEN_ERR }, some frm)
      else
        let can := s.mem (s.DevData i).Base
        let s := CPU_CRITICAL_ENTER s
        let fifo := FIFONumber can.RF0R can.RF1R
        if fifo ≥ 0 then
          (Int.ofNat size, CPU_CRITICAL_EXIT s, some (rxFrame (can.FIFOMailBox fifo.toNat) frm))
        else
          (-1, CPU_CRITICAL_EXIT { s with DrvError := STM32F4XX_CAN_NO_DATA_ERR }, some frm)

/-- The identifier word `STM32F4XXCANWrite` ors into `TIR`: `Identifier << 21`, or
`((Identifier & 0x1FFFFFFF) << 3) | 0x04` for an identifier above `0x7FF`. -/
def idWord (Identifier : Nat) : Nat :=
  if Identifier ≤ 0x7FF then (Identifier <<< 21) % 2 ^ 32
  else (((Identifier &&& 0x1FFFFFFF) <<< 3) % 2 ^ 32) ||| 0x04

/-- Entry point `STM32F4XXCANWrite (paraId, buffer, size)`; `buffer = none` is the null
pointer. The function only reads the frame behind `buffer`. The first value given to the
local `Word` (format bit and `DLC << 16`) is overwritten before any use and is left out. -/
def STM32F4XXCANWrite (s : State) (paraId : Int) (buffer : Option STM32F4XX_CANFRM)
    (size : Nat) : Int × State :=
  if paraId ≥ STM32F4XX_CAN_N_DEV ∨ paraId < 0 then
    (-1, { s with DrvError := STM32F4XX_CAN_BUS_ERR })
  else if size ≠ sizeof_CANFRM then
    (-1, { s with DrvError := STM32F4XX_CAN_NO_DATA_ERR })
  else
    match buffer with
    | none => (-1, { s with DrvError := STM32F4XX_CAN_ARG_ERR })
    | some frm =>
      let i := paraId.toNat
      if (s.DevData i).Use ≠ 1 then
        (-1, { s with DrvError := STM32F4XX_CAN_OPEN_ERR })
      else
        let can := (s.DevData i).Base
        let s := CPU_CRITICAL_ENTER s
        let mbox := TransmitMailbox (s.mem can).TSR
        if mbox ≥ 0 then
          let k := mbox.toNat
          let modMb := fun (s : State) (f : TxMailBox_t → TxMailBox_t) =>
            modCan s can (fun c => setTxMailBox c k (f (c.TxMailBox k)))
          let s := modMb s (fun m => { m with TIR := m.TIR &&& STM32F4XX_CAN_TIxR_TXRQ })
          let s :=
            if frm.Identifier ≤ 0x7FF then
              let Word := (frm.Identifier <<< 21) % 2 ^ 32
              modMb s (fun m => { m with TIR := m.TIR ||| Word })
            else
              let Word := frm.Identifier &&& 0x1FFFFFFF
              let Word := (Word <<< 3) % 2 ^ 32
              modMb s (fun m => { m with TIR := m.TIR ||| (Word ||| 0x04) })
          let s := modMb s (fun m => { m with TDTR := m.TDTR &&& 0xFFFFFFF0 })
          let s := modMb s (fun m => { m with TDTR := m.TDTR ||| frm.DLC })
          let s := modMb s (fun m => { m with TDLR :=
            (frm.Data 3 <<< 24) ||| (frm.Data 2 <<< 16) ||| (frm.Data 1 <<< 8) ||| frm.Data 0 })
          let s := modMb s (fun m => { m with TDHR :=
            (frm.Data 7 <<< 24) ||| (frm.Data 6 <<< 16) ||| (frm.Data 5 <<< 8) ||| frm.Data 4 })
          let s := modMb s (fun m => { m with TIR := m.TIR ||| STM32F4XX_CAN_TIxR_TXRQ })
          (Int.ofNat size, CPU_CRITICAL_EXIT s)
        else
          (-1, CPU_CRITICAL_EXIT { s with DrvError := STM32F4XX_CAN_BUSY_ERR })

/-- The contents `STM32F4XXCANWrite` leaves in the chosen transmit mailbox, whose
registers held `m` before the call. -/
def txImage (m : TxMailBox_t) (frm : STM32F4XX_CANFRM) : TxMailBox_t :=
  { TIR := ((m.TIR &&& STM32F4XX_CAN_TIxR_TXRQ) ||| idWord frm.Identifier)
      ||| STM32F4XX_CAN_TIxR_TXRQ,
    TDTR := (m.TDTR &&& 0xFFFFFFF0) ||| frm.DLC,
    TDLR := (frm.Data 3 <<< 24) ||| (frm.Data 2 <<< 16) ||| (frm.Data 1 <<< 8) ||| frm.Data 0,
    TDHR := (frm.Data 7 <<< 24) ||| (frm.Data 6 <<< 16) ||| (frm.Data 5 <<< 8) ||| frm.Data 4 }

/-- Register-level loopback: the registers of a transmit mailbox presented unchanged as
a receive FIFO entry (`TIR` as `RIR`, `TDTR` as `RDTR`, `TDLR` as `RDLR`, `TDHR` as
`RDHR`). -/
def loopback (m : TxMailBox_t) : FIFOMailBox_t :=
  { RIR := m.TIR, RDTR := m.TDTR, RDLR := m.TDLR, RDHR := m.TDHR }

/-- Register-level simulation of a loopback on the block at `base`: transmit mailbox `k`
is presented unchanged as the entry of receive FIFO 0, with one frame pending. -/
def loopState (s : State) (base k : Nat) : State :=
  setCan s base { s.mem base with
    RF0R := 1,
    FIFOMailBox := upd (s.mem base).FIFOMailBox 0 (loopback ((s.mem base).TxMailBox k)) }

/-! ### Concrete instances used to evaluate the code -/

/-- A register block after reset: all transmit mailboxes empty (`TSR = 0x1C000000`). -/
def resetCan : STM32F4XX_CAN_t :=
  { MCR := 0x00010002, MSR := 0x00000C02, TSR := 0x1C000000, RF0R := 0, RF1R := 0, ESR := 0,
    BTR := 0x01230000,
    TxMailBox := fun _ => { TIR := 0, TDTR := 0, TDLR := 0, TDHR := 0 },
    FIFOMailBox := fun _ => { RIR := 0, RDTR := 0, RDLR := 0, RDHR := 0 },
    FMR := 0x2A1C0E01, FM1R := 0, FS1R := 0, FFA1R := 0, FA1R := 0,
    FilterRegister := fun _ => { FR1 := 0, FR2 := 0 } }

/-- The module state at program start: zero-initialised statics, hardware after reset. -/
def resetState : State :=
  { DrvError := 0,
    DevData := fun _ => ⟨0, 0, 0, 0, 0, 0, 0, 0, 0, 0, 0⟩,
    mem := fun _ => resetCan,
    RCC_APB1ENR := 0, board := 0, IntNest := 0 }

/-- A board support package for evaluation: the timing calculation accepts the rates from
1 bit/s to 1 Mbit/s and rejects the others with -1. -/
def sampleEnv : Env :=
  { CalcTimingReg := fun d =>
      if d.Baudrate = 0 ∨ d.Baudrate > 1000000 then (-1, d)
      else (0, { d with PRESDIV := 42000000 / (d.Baudrate * 14) % 1024, PSEG1 := 9 }),
    PinCfg := fun _ b => b,
    EnableIrqs := fun _ b => b,
    SetDevIds := fun _ _ b => b,
    INTERRUPT_EN := false,
    STM32F4XX_CAN_NAME := 0x08001000 }

/-- The state after `STM32F4XXCANInit (0)` and `STM32F4XXCANOpen (0, 0, DEV_RW)` from the
reset state. -/
def openState : State :=
  (STM32F4XXCANOpen sampleEnv (STM32F4XXCANInit sampleEnv resetState 0).2 0 0 DEV_RW).2

/-- A frame with the data bytes `0x10 .. 0x17` and DLC 8. -/
def sampleFrm (Identifier : Nat) : STM32F4XX_CANFRM :=
  { Identifier := Identifier, Data := fun i => if i < 8 then 0x10 + i else 0, DLC := 8,
    Spare := fun _ => 0 }

/-- A zeroed frame buffer. -/
def zeroFrm : STM32F4XX_CANFRM :=
  { Identifier := 0, Data := fun _ => 0, DLC := 0, Spare := fun _ => 0 }

/-- Write of `sampleFrm Identifier` on bus 0 from `openState`, loopback of mailbox 0 and
read into a zeroed buffer: the identifier read back. -/
def loopbackIdentifier (Identifier : Nat) : Option Nat :=
  (STM32F4XXCANRead
    (loopState (STM32F4XXCANWrite openState 0 (some (sampleFrm Identifier)) sizeof_CANFRM).2
      STM32F4XX_CAN1_BASE 0) 0 (some zeroFrm) sizeof_CANFRM).2.2.map
    STM32F4XX_CANFRM.Identifier

/-- The open sample state with all three transmit mailboxes of bus 0 occupied
(`TSR = 0`). -/
def busyState : State :=
  setCan openState STM32F4XX_CAN1_BASE { openState.mem STM32F4XX_CAN1_BASE with TSR := 0 }

/-- The open sample state with transmit mailbox 0 of bus 0 occupied and mailboxes 1 and 2
empty (`TSR = 0x18000000`). -/
def partBusyState : State :=
  setCan openState STM32F4XX_CAN1_BASE
    { openState.mem STM32F4XX_CAN1_BASE with TSR := 0x18000000 }

/-- The open sample state after the write of `sampleFrm 0x123` on bus 0 and the loopback of
mailbox 0: one frame pending in receive FIFO 0. -/
def pendingState : State :=
  loopState (STM32F4XXCANWrite openState 0 (some (sampleFrm 0x123)) sizeof_CANFRM).2
    STM32F4XX_CAN1_BASE 0

/-- The open sample state with one frame pending in receive FIFO 0 whose register `RDTR`
holds the length code 15. -/
def dlc15State : State :=
  setCan openState STM32F4XX_CAN1_BASE
    { openState.mem STM32F4XX_CAN1_BASE with
      RF0R := 1,
      FIFOMailBox := fun _ => { RIR := 0x24600000, RDTR := 0x0F, RDLR := 0, RDHR := 0 } }

/-- The function codes `STM32F4XXCANIoCtl` has a case for. -/
def ioFunctions : List Nat :=
  [IO_STM32F4XX_CAN_GET_IDENT, IO_STM32F4XX_CAN_GET_ERRNO, IO_STM32F4XX_CAN_GET_DRVNAME,
    IO_STM32F4XX_CAN_SET_BAUDRATE, IO_STM32F4XX_CAN_TX_READY, IO_STM32F4XX_CAN_START,
    IO_STM32F4XX_CAN_STOP, IO_STM32F4XX_CAN_RX_STANDARD, IO_STM32F4XX_CAN_RX_EXTENDED,
    IO_STM32F4XX_CAN_GET_NODE_STATUS, IO_STM32F4XX_CAN_SET_RX_FILTER_1,
    IO_STM32F4XX_CAN_SET_RX_FILTER_2]

/-! ### The parts of `STM32F4XXCANInit` -/

/-- First part of `STM32F4XXCANInit`: reset of the last error and the use flag, pin
configuration, base addresses and clocks. -/
def initBase (env : Env) (s : State) (arg : Nat) : State :=
  let s := { s with DrvError := STM32F4XX_CAN_NO_ERR }
  let s := setDev s arg { s.DevData arg with Use := 0 }
  let s := { s with board := env.PinCfg arg s.board }
  if arg = STM32F4XX_CAN_BUS_0 then
    let s := setDev s arg { s.DevData arg with Base := STM32F4XX_CAN1_BASE }
    { s with RCC_APB1ENR := s.RCC_APB1ENR ||| 0x02000000 }
  else
    let s := setDev s STM32F4XX_CAN_BUS_0
      { s.DevData STM32F4XX_CAN_BUS_0 with Base := STM32F4XX_CAN1_BASE }
    let s := { s with RCC_APB1ENR := s.RCC_APB1ENR ||| 0x02000000 }
    let s := setDev s arg { s.DevData arg with Base := STM32F4XX_CAN2_BASE }
    { s with RCC_APB1ENR := s.RCC_APB1ENR ||| 0x04000000 }

/-- Second part of `STM32F4XXCANInit`: initialisation mode and bit timing of the
controller at `can`. -/
def initTiming (env : Env) (s : State) (arg can : Nat) : State :=
  let s := modCan s can (fun c => { c with MCR := clr32 c.MCR STM32F4XX_CAN_MCR_SLEEP })
  let s := modCan s can (fun c => { c with MCR := STM32F4XX_CAN_MCR_INRQ })
  let s := modCan s can waitInitMode
  let s := setDev s arg { s.DevData arg with
    Baudrate := STM32F4XX_DEF_BAUDRATE
    SamplePoint := STM32F4XX_DEF_SP
    ResynchJumpWith := STM32F4XX_DEF_RJW }
  let s := setDev s arg (env.CalcTimingReg (s.DevData arg)).2
  modCan s can (fun c => { c with BTR := btrOf (s.DevData arg) })

/-- Third part of `STM32F4XXCANInit`: filter bank configuration through `can0`. -/
def initFilters (s : State) (arg can0 : Nat) : State :=
  let s := modCan s can0 (fun c => { c with FMR := c.FMR ||| STM32F4XX_CAN_FMR_FINIT })
  let s := modCan s can0 (fun c => { c with FMR := clr32 c.FMR 0x00003F00 })
  let s := modCan s can0 (fun c => { c with FMR := c.FMR ||| (14 <<< 8) })
  let s := modCan s can0 (fun c => { c with FM1R := 0 })
  let s := modCan s can0 (fun c => { c with FS1R := 0x0FFFFFFF })
  let s := modCan s can0 (fun c => { c with FFA1R := 0x0AAAAAAA })
  let s := modCan s can0 (fun c => { c with FA1R := 0x00000003 ||| 0x0000C000 })
  let s := setDev s arg { s.DevData arg with FilterIdx := 2 }
  let s :=
    if arg = STM32F4XX_CAN_BUS_0 then
      forLoop 0 14 (fun i s => modCan s can0 (fun c =>
        let c := setFilter c i { c.FilterRegister i with FR1 := 0 }
        setFilter c i { c.FilterRegister i with FR2 := 0 })) s
    else
      forLoop 14 28 (fun i s => modCan s can0 (fun c =>
        let c := setFilter c i { c.FilterRegister i with FR1 := 0 }
        setFilter c i { c.FilterRegister i with FR2 := 0 })) s
  modCan s can0 (fun c => { c with FMR := clr32 c.FMR STM32F4XX_CAN_FMR_FINIT })

/-- Last part of `STM32F4XXCANInit`: leave of the initialisation mode, interrupts. -/
def initLeave (env : Env) (s : State) (arg can : Nat) : State :=
  let s := modCan s can (fun c => { c with MCR := clr32 c.MCR STM32F4XX_CAN_MCR_INRQ })
  let s := modCan s can waitNormalMode
  { s with board := env.EnableIrqs arg s.board }

/-! ### Sequences of calls -/

/-- One call of an entry point of the driver, with its arguments. -/
inductive Call where
  | Init (arg : Nat)
  | Open (devId : Int) (devName mode : Nat)
  | Close (paraId : Int)
  | IoCtl (paraId : Int) (func : Nat) (argp : Nat → Nat)
  | Read (paraId : Int) (buffer : Option STM32F4XX_CANFRM) (size : Nat)
  | Write (paraId : Int) (buffer : Option STM32F4XX_CANFRM) (size : Nat)

/-- The module state and hardware after one call. -/
def step (env : Env) (s : State) : Call → State
  | .Init arg => (STM32F4XXCANInit env s arg).2
  | .Open devId devName mode => (STM32F4XXCANOpen env s devId devName mode).2
  | .Close paraId => (STM32F4XXCANClose s paraId).2
  | .IoCtl paraId func argp => (STM32F4XXCANIoCtl env s paraId func argp).2.1
  | .Read paraId buffer size => (STM32F4XXCANRead s paraId buffer size).2.1
  | .Write paraId buffer size => (STM32F4XXCANWrite s paraId buffer size).2

/-- The module state and hardware after a sequence of calls, first call first. -/
def run (env : Env) (s : State) (calls : List Call) : State :=
  calls.foldl (step env) s

/-- The module state at program start over any hardware content: the variables `DrvError`
and `DevData` have static storage and no initialiser, so they start zeroed. -/
def startState (mem : Nat → STM32F4XX_CAN_t) (rcc board : Nat) (nest : Int) : State :=
  { DrvError := 0,
    DevData := fun _ => ⟨0, 0, 0, 0, 0, 0, 0, 0, 0, 0, 0⟩,
    mem := mem,
    RCC_APB1ENR := rcc, board := board, IntNest := nest }

/-- Modelled from the spec: the timing resolver `STM32F4XXCAN_CalcTimingReg` belongs to the
board support package and is not among the sources. It derives the timing segments of a
device record from the rate; the fields `Base` and `FilterIdx` of the record come back as
they went in. -/
def TimingOnly (env : Env) : Prop :=
  ∀ d, (env.CalcTimingReg d).2.Base = d.Base ∧
    (env.CalcTimingReg d).2.FilterIdx = d.FilterIdx

/-- Modelled from the spec: the timing resolver `STM32F4XXCAN_CalcTimingReg` (board support,
not among the sources) derives the timing segments of a device record; the field `Use`
of the record comes back as it went in. -/
def TimingKeepsUse (env : Env) : Prop :=
  ∀ d, (env.CalcTimingReg d).2.Use = d.Use

/-- The filter bank registers of a register block: `FMR`, `FM1R`, `FS1R`, `FFA1R`, `FA1R`
and the filter entries. -/
def bankOf (c : STM32F4XX_CAN_t) :
    Nat × Nat × Nat × Nat × Nat × (Nat → FilterRegister_t) :=
  (c.FMR, c.FM1R, c.FS1R, c.FFA1R, c.FA1R, c.FilterRegister)

/-- The filter cursor of every device record is even and at most 12. -/
def cursorInv (s : State) : Prop :=
  ∀ j, (s.DevData j).FilterIdx % 2 = 0 ∧ (s.DevData j).FilterIdx ≤ 12

/-- The filter registers live in the block of CAN 1 and the filter bank is active
(`FINIT` clear), as `STM32F4XXCANInit` leaves them. -/
def filterInv (s : State) : Prop :=
  (s.DevData STM32F4XX_CAN_BUS_0).Base = STM32F4XX_CAN1_BASE ∧
    (s.mem STM32F4XX_CAN1_BASE).FMR &&& STM32F4XX_CAN_FMR_FINIT = 0

/-- The fields `FilterIdx` and `Base` of every device record are in `s2` as in `s`. -/
def devFrame (s s2 : State) : Prop :=
  ∀ j, (s2.DevData j).FilterIdx = (s.DevData j).FilterIdx ∧
    (s2.DevData j).Base = (s.DevData j).Base

/-- Argument memory of the filter functions: `mask` in word 0, `canId` in word 1. -/
def filterArg (mask canId : Nat) : Nat → Nat :=
  write32 (write32 (fun _ => 0) 0 mask) 4 canId

/-- The state after `STM32F4XXCANInit (0)`, `STM32F4XXCANOpen (0, 0, DEV_RW)` and `n` calls
of `SET_RX_FILTER_2` on bus 0 with mask `0x7FF` and identifier `0x123`, from the reset
state. -/
def afterFilters (n : Nat) : State :=
  run sampleEnv resetState ([Call.Init 0, Call.Open 0 0 DEV_RW] ++
    List.replicate n (Call.IoCtl 0 IO_STM32F4XX_CAN_SET_RX_FILTER_2 (filterArg 0x7FF 0x123)))

end STM32F4XX

namespace LPC22XX

/-! ## Constants of `drv_can.h` / `drv_can_reg.h` (LPC22XX)

The LPC22XX headers are not among the sources; the error enumeration is the one all
drivers of the suite share (see `Drivers/STM32F10X/drv_can.h`), the register bits are
those of the LPC22XX CAN controller. -/

def LPC22XX_CAN_BUS_0 : Nat := 0
def LPC22XX_CAN_BUS_1 : Nat := 1
def LPC22XX_CAN_N_DEV : Nat := 2

def LPC22XX_CAN_NO_ERR : Nat := 0
def LPC22XX_CAN_BUS_ERR : Nat := 1
def LPC22XX_CAN_BUSY_ERR : Nat := 2
def LPC22XX_CAN_INIT_ERR : Nat := 3
def LPC22XX_CAN_MODE_ERR : Nat := 4
def LPC22XX_CAN_OPEN_ERR : Nat := 5
def LPC22XX_CAN_CLOSE_ERR : Nat := 6
def LPC22XX_CAN_FUNC_ERR : Nat := 7
def LPC22XX_CAN_ARG_ERR : Nat := 8
def LPC22XX_CAN_NO_DATA_ERR : Nat := 9

def IO_LPC22XX_CAN_GET_IDENT : Nat := 0x0
def IO_LPC22XX_CAN_GET_ERRNO : Nat := 0x1
def IO_LPC22XX_CAN_GET_DRVNAME : Nat := 0x2
def IO_LPC22XX_CAN_SET_BAUDRATE : Nat := 0x10
def IO_LPC22XX_CAN_START : Nat := 0x11
def IO_LPC22XX_CAN_STOP : Nat := 0x12
def IO_LPC22XX_CAN_RX_STANDARD : Nat := 0x13
def IO_LPC22XX_CAN_RX_EXTENDED : Nat := 0x14
def IO_LPC22XX_CAN_TX_READY : Nat := 0x15
def IO_LPC22XX_CAN_GET_NODE_STATUS : Nat := 0x16
def IO_LPC22XX_CAN_SET_STD_FILTER : Nat := 0x17
def IO_LPC22XX_CAN_SET_STD_GROUP_FILTER : Nat := 0x18
def IO_LPC22XX_CAN_SET_EXT_FILTER : Nat := 0x19
def IO_LPC22XX_CAN_SET_EXT_GROUP_FILTER : Nat := 0x1A

def LPC22XX_CAN_FF_FRAME_BIT : Nat := 0x20000000
def LPC22XX_CAN_RTR_FRAME_BIT : Nat := 0x40000000

def LPC22XX_CAN_FF_MASK : Nat := 0x80000000
def LPC22XX_CAN_RTR_MASK : Nat := 0x40000000
def LPC22XX_CAN_DLC_MASK : Nat := 0x000F0000

def LPC22XX_CAN0_PIN_SELECTION : Nat := 0x00040000
def LPC22XX_CAN1_PIN_SELECTION : Nat := 0x00014000

def LPC22XX_CAN_ACCEPTANCE_FILTER : Nat := 0xE0038000

/-- Value of `sizeof(LPC22XX_CANFRM)`: 4 + 8 + 1 + 3 bytes. -/
def sizeof_CANFRM : Nat := 16

def DrvIdent : Nat := 0x243F1501

/-! ## Data model (LPC22XX) -/

/-- Device runtime data `LPC22XX_CAN_DATA`. -/
structure LPC22XX_CAN_DATA where
  Use : Nat
deriving DecidableEq

/-- The frame `LPC22XX_CANFRM`. -/
structure LPC22XX_CANFRM where
  Identifier : Nat
  Data : Nat → Nat
  DLC : Nat
  Spare : Nat → Nat

/-- One entry `LPC22XX_CAN_BAUD` of the baud rate table. -/
structure LPC22XX_CAN_BAUD where
  Baudrate : Nat
  BTR : Nat
deriving DecidableEq

/-- Module state and hardware of the LPC22XX driver; a register `LPC22XX_CAN_x` of the
source is the field `x`. `AF_RAM` is the acceptance filter memory, by address. -/
structure State where
  DrvError : Nat
  DevData : Nat → LPC22XX_CAN_DATA
  AcceptanceTblPtr : Nat
  AF_RAM : Nat → Nat
  AFMR : Nat
  PINSEL1 : Nat
  SFF_SA : Nat
  SFF_GRP_SA : Nat
  EFF_SA : Nat
  EFF_GRP_SA : Nat
  END_OF_TABLE : Nat
  C1MOD : Nat
  C1CMR : Nat
  C1GSR : Nat
  C1IER : Nat
  C1BTR : Nat
  C1SR : Nat
  C1RFS : Nat
  C1RID : Nat
  C1RDA : Nat
  C1RDB : Nat
  C1TFI1 : Nat
  C1TID1 : Nat
  C1TDA1 : Nat
  C1TDB1 : Nat
  C2MOD : Nat
  C2CMR : Nat
  C2GSR : Nat
  C2IER : Nat
  C2BTR : Nat
  C2SR : Nat
  C2RFS : Nat
  C2RID : Nat
  C2RDA : Nat
  C2RDB : Nat
  C2TFI1 : Nat
  C2TID1 : Nat
  C2TDA1 : Nat
  C2TDB1 : Nat
  VICVECTADDR : Nat → Nat
  VICVECTCTRL : Nat → Nat
  VICINTSELECT : Nat
  VICINTENABLE : Nat
  board : Nat
  IntNest : Int

/-- Tables, configuration switches and link-time values the driver uses and that live
outside `drv_can.c`. -/
structure Env where
  /-- The table `CanBaud[]`, up to and including its terminating entry. -/
  CanBaud : List LPC22XX_CAN_BAUD
  LPC22XX_CAN_DEFAULT_BAUD_RATE : Nat
  LPC22XX_CAN_RX_INTERRUPT_EN : Bool
  LPC22XX_CAN_TX_INTERRUPT_EN : Bool
  LPC22XX_CAN_NS_INTERRUPT_EN : Bool
  LPC22XXCANISR_Rx1 : Nat
  LPC22XXCANISR_Tx1 : Nat
  LPC22XXCANISR_Rx2 : Nat
  LPC22XXCANISR_Tx2 : Nat
  LPC22XXCANISR_Ns : Nat
  /-- Board function `LPC22XX_BSP_SetDevIds (devId, devName)`. -/
  LPC22XX_BSP_SetDevIds : Nat → Nat → Nat → Nat
  LPC22XX_CAN_STD_FILTER_SIZE : Nat
  LPC22XX_CAN_STD_GROUP_FILTER_SIZE : Nat
  LPC22XX_CAN_EXT_FILTER_SIZE : Nat
  LPC22XX_CAN_EXT_GROUP_FILTER_SIZE : Nat
  StdFilter_Tbl : Nat → Nat
  StdGroupFilter_Tbl : Nat → Nat
  ExtFilter_Tbl : Nat → Nat
  ExtGroupFilter_Tbl : Nat → Nat
  /-- Address of the string literal `LPC22XX_CAN_NAME`. -/
  LPC22XX_CAN_NAME : Nat

def CPU_CRITICAL_ENTER (s : State) : State := { s with IntNest := s.IntNest + 1 }

def CPU_CRITICAL_EXIT (s : State) : State := { s with IntNest := s.IntNest - 1 }

/-- Store through `can = &DevData[i]`. -/
def setDev (s : State) (i : Nat) (d : LPC22XX_CAN_DATA) : State :=
  { s with DevData := upd s.DevData i d }

/-- Installation of one interrupt vector: handler address, slot control, IRQ category
(`VICINTSELECT &= ~bit`). -/
def installVector (s : State) (slot handler ctrl bit : Nat) : State :=
  let s := { s with VICVECTADDR := upd s.VICVECTADDR slot handler }
  let s := { s with VICVECTCTRL := upd s.VICVECTCTRL slot ctrl }
  { s with VICINTSELECT := clr32 s.VICINTSELECT bit }

/-- The branch `arg == LPC22XX_CAN_BUS_0` of `LPC22XXCANInit`. -/
def InitBus0 (env : Env) (s : State) : State :=
  let s := setDev s LPC22XX_CAN_BUS_0 { s.DevData LPC22XX_CAN_BUS_0 with Use := 0 }
  let s := { s with PINSEL1 := s.PINSEL1 ||| LPC22XX_CAN0_PIN_SELECTION }
  let s := { s with C1MOD := 1 }
  let s := { s with C1IER := 0 }
  let s := { s with C1GSR := 0 }
  let s := { s with C1BTR := env.LPC22XX_CAN_DEFAULT_BAUD_RATE }
  let s :=
    if env.LPC22XX_CAN_RX_INTERRUPT_EN then
      let s := installVector s 4 env.LPC22XXCANISR_Rx1 (0x20 ||| 26) 0x04000000
      let s := { s with C1IER := s.C1IER ||| 0x01 }
      { s with VICINTENABLE := 0x04000000 }
    else s
  if env.LPC22XX_CAN_TX_INTERRUPT_EN then
    let s := installVector s 6 env.LPC22XXCANISR_Tx1 (0x20 ||| 20) 0x00100000
    let s := { s with C1IER := s.C1IER ||| 0x02 }
    { s with VICINTENABLE := 0x00100000 }
  else s

/-- The branch `arg == LPC22XX_CAN_BUS_1` of `LPC22XXCANInit`. -/
def InitBus1 (env : Env) (s : State) : State :=
  let s := setDev s LPC22XX_CAN_BUS_1 { s.DevData LPC22XX_CAN_BUS_1 with Use := 0 }
  let s := { s with PINSEL1 := s.PINSEL1 ||| LPC22XX_CAN1_PIN_SELECTION }
  let s := { s with C2MOD := 1 }
  let s := { s with C2IER := 0 }
  let s := { s with C2GSR := 0 }
  let s := { s with C2BTR := env.LPC22XX_CAN_DEFAULT_BAUD_RATE }
  let s :=
    if env.LPC22XX_CAN_RX_INTERRUPT_EN then
      let s := installVector s 5 env.LPC22XXCANISR_Rx2 (0x20 ||| 27) 0x08000000
      let s := { s with C2IER := s.C2IER ||| 0x01 }
      { s with VICINTENABLE := 0x08000000 }
    else s
  if env.LPC22XX_CAN_TX_INTERRUPT_EN then
    let s := installVector s 7 env.LPC22XXCANISR_Tx2 (0x20 ||| 21) 0x00200000
    let s := { s with C2IER := s.C2IER ||| 0x02 }
    { s with VICINTENABLE := 0x00200000 }
  else s

/-- The block `#if LPC22XX_CAN_NS_INTERRUPT_EN > 0` of `LPC22XXCANInit`. -/
def InitNs (env : Env) (s : State) : State :=
  if env.LPC22XX_CAN_NS_INTERRUPT_EN then
    let s := installVector s 8 env.LPC22XXCANISR_Ns (0x20 ||| 19) 0x00080000
    let s := { s with C1IER := s.C1IER ||| 0x84 }
    let s := { s with C2IER := s.C2IER ||| 0x84 }
    { s with VICINTENABLE := 0x00080000 }
  else s

/-- Entry point `LPC22XXCANInit (arg)`. -/
def LPC22XXCANInit (env : Env) (s : State) (arg : Nat) : Int × State :=
  if arg ≥ LPC22XX_CAN_N_DEV then
    (-1, { s with DrvError := LPC22XX_CAN_INIT_ERR })
  else
    let s := { s with DrvError := LPC22XX_CAN_NO_ERR }
    let s := { s with AFMR := 0x00000002 }
    let s := { s with AcceptanceTblPtr := LPC22XX_CAN_ACCEPTANCE_FILTER }
    let s := if arg = LPC22XX_CAN_BUS_0 then InitBus0 env s else InitBus1 env s
    (Int.ofNat LPC22XX_CAN_NO_ERR, InitNs env s)

/-- Entry point `LPC22XXCANOpen (devId, devName, mode)`; `devName` is a `CPU_INT32U`, the range
check looks at `(CPU_INT08U)devName`, the registry is indexed with `devName`. -/
def LPC22XXCANOpen (env : Env) (s : State) (devId : Int) (devName mode : Nat) :
    Int × State :=
  if devName % 256 ≥ LPC22XX_CAN_N_DEV then
    (-1, { s with DrvError := LPC22XX_CAN_BUS_ERR })
  else if mode ≠ DEV_RW then
    (-1, { s with DrvError := LPC22XX_CAN_MODE_ERR })
  else
    let s := CPU_CRITICAL_ENTER s
    if (s.DevData devName).Use = 0 then
      let s := setDev s devName { s.DevData devName with Use := 1 }
      let s :=
        if env.LPC22XX_CAN_RX_INTERRUPT_EN ∨ env.LPC22XX_CAN_TX_INTERRUPT_EN ∨
            env.LPC22XX_CAN_NS_INTERRUPT_EN then
          { s with board :=
              env.LPC22XX_BSP_SetDevIds (devId % 256).toNat (devName % 256) s.board }
        else s
      (Int.ofNat (devName % 256), CPU_CRITICAL_EXIT s)
    else
      (-1, CPU_CRITICAL_EXIT { s with DrvError := LPC22XX_CAN_OPEN_ERR })

/-- Entry point `LPC22XXCANClose (paraId)`. -/
def LPC22XXCANClose (s : State) (paraId : Int) : Int × State :=
  if paraId ≥ LPC22XX_CAN_N_DEV ∨ paraId < 0 then
    (-1, { s with DrvError := LPC22XX_CAN_BUS_ERR })
  else
    let i := paraId.toNat
    let s := CPU_CRITICAL_ENTER s
    if (s.DevData i).Use ≠ 0 then
      let s := setDev s i { s.DevData i with Use := 0 }
      (Int.ofNat LPC22XX_CAN_NO_ERR, CPU_CRITICAL_EXIT s)
    else
      (-1, CPU_CRITICAL_EXIT { s with DrvError := LPC22XX_CAN_CLOSE_ERR })

/-- The `switch (paraId)` executed when a table entry matches the requested baud rate:
reset mode, bit timing, operating mode. -/
def applyBaud (rs : Int × State) (i BTR : Nat) : Int × State :=
  if i = LPC22XX_CAN_BUS_0 then
    let s := { rs.2 with C1MOD := 1 }
    let s := { s with C1BTR := BTR }
    let s := { s with C1MOD := 0 }
    (Int.ofNat LPC22XX_CAN_NO_ERR, s)
  else if i = LPC22XX_CAN_BUS_1 then
    let s := { rs.2 with C2MOD := 1 }
    let s := { s with C2BTR := BTR }
    let s := { s with C2MOD := 0 }
    (Int.ofNat LPC22XX_CAN_NO_ERR, s)
  else rs

/-- The loop `while (btbl->Baudrate != 0L) { ...; btbl++; }` over the baud rate table,
started at `btbl`; `rs` is the pair of `result` and the state. -/
def baudLoop (i rate : Nat) : List LPC22XX_CAN_BAUD → Int × State → Int × State
  | [], rs => rs
  | e :: btbl, rs =>
    if e.Baudrate = 0 then rs
    else baudLoop i rate btbl (if e.Baudrate = rate then applyBaud rs i e.BTR else rs)

/-- The entries of the baud rate table which the loop of `SET_BAUDRATE` visits: those
before the terminating entry with `Baudrate == 0`. -/
def visited : List LPC22XX_CAN_BAUD → List LPC22XX_CAN_BAUD
  | [] => []
  | e :: btbl => if e.Baudrate = 0 then [] else e :: visited btbl

/-- The body shared by the four `SET_..._FILTER` cases: the table `tbl` of `size` words
is copied behind `AcceptanceTblPtr` and the table start addresses are set. -/
def loadFilterTable (env : Env) (s : State) (size : Nat) (tbl : Nat → Nat) : State :=
  let s := { s with AFMR := 0x00000001 }
  let s := forLoop 0 size (fun i s =>
    let s := { s with AF_RAM := upd s.AF_RAM s.AcceptanceTblPtr (tbl i) }
    { s with AcceptanceTblPtr := s.AcceptanceTblPtr + 4 }) s
  let s := { s with SFF_SA := 0 }
  let s := { s with SFF_GRP_SA := (env.LPC22XX_CAN_STD_FILTER_SIZE * 4) % 2 ^ 32 }
  let s := { s with EFF_SA :=
    (s.SFF_GRP_SA + env.LPC22XX_CAN_STD_GROUP_FILTER_SIZE * 4) % 2 ^ 32 }
  let s := { s with EFF_GRP_SA := (s.EFF_SA + env.LPC22XX_CAN_EXT_FILTER_SIZE * 4) % 2 ^ 32 }
  let s := { s with END_OF_TABLE :=
    (s.EFF_GRP_SA + env.LPC22XX_CAN_EXT_GROUP_FILTER_SIZE * 4) % 2 ^ 32 }
  { s with AFMR := 0 }

/-- The case `IO_LPC22XX_CAN_TX_READY`. -/
def txReady (s : State) (i : Nat) (argp : Nat → Nat) : Nat → Nat :=
  if i = LPC22XX_CAN_BUS_0 then
    if s.C1SR &&& 0x04 = 0 then write8 argp 0 0 else write8 argp 0 1
  else if i = LPC22XX_CAN_BUS_1 then
    if s.C2SR &&& 0x04 = 0 then write8 argp 0 0 else write8 argp 0 1
  else argp

/-- The case `IO_LPC22XX_CAN_GET_NODE_STATUS`; `status_reg` is read from the global
status register of the bus (the local is not assigned for another `paraId`, which the
range check excludes). -/
def nodeStatus (s : State) (i : Nat) (argp : Nat → Nat) : Nat → Nat :=
  let status_reg := if i = LPC22XX_CAN_BUS_0 then s.C1GSR else s.C2GSR
  let argp := if status_reg &&& 0x20 ≠ 0 then write8 argp 0 1 else argp
  let argp := if status_reg &&& 0x40 ≠ 0 then write8 argp 0 2 else argp
  if status_reg &&& 0x60 = 0 then write8 argp 0 0 else argp

/-- The cases `IO_LPC22XX_CAN_START` (`v = 0`) and `IO_LPC22XX_CAN_STOP` (`v = 1`):
the mode register of the bus is set to `v`. -/
def setMode (s : State) (i v : Nat) : State :=
  if i = LPC22XX_CAN_BUS_0 then { s with C1MOD := v }
  else if i = LPC22XX_CAN_BUS_1 then { s with C2MOD := v }
  else s

/-- The `switch (func)` of `LPC22XXCANIoCtl`: result, state and argument memory after
the selected case (`i` is the checked `paraId`). -/
def IoCtlSwitch (env : Env) (s : State) (i : Nat) (func : Nat) (argp : Nat → Nat) :
    Int × State × (Nat → Nat) :=
  if func = IO_LPC22XX_CAN_GET_IDENT then
    (Int.ofNat LPC22XX_CAN_NO_ERR, s, write32 argp 0 DrvIdent)
  else if func = IO_LPC22XX_CAN_GET_ERRNO then
    (Int.ofNat LPC22XX_CAN_NO_ERR, s, write16 argp 0 s.DrvError)
  else if func = IO_LPC22XX_CAN_GET_DRVNAME then
    (Int.ofNat LPC22XX_CAN_NO_ERR, s, write32 argp 0 env.LPC22XX_CAN_NAME)
  else if func = IO_LPC22XX_CAN_SET_BAUDRATE then
    let rs := baudLoop i (read32 argp 0) env.CanBaud (-1, s)
    (rs.1, rs.2, argp)
  else if func = IO_LPC22XX_CAN_TX_READY then
    (Int.ofNat LPC22XX_CAN_NO_ERR, s, txReady s i argp)
  else if func = IO_LPC22XX_CAN_START then
    (Int.ofNat LPC22XX_CAN_NO_ERR, setMode s i 0x0, argp)
  else if func = IO_LPC22XX_CAN_STOP then
    (Int.ofNat LPC22XX_CAN_NO_ERR, setMode s i 0x1, argp)
  else if func = IO_LPC22XX_CAN_RX_STANDARD then
    (Int.ofNat LPC22XX_CAN_NO_ERR, s, argp)
  else if func = IO_LPC22XX_CAN_RX_EXTENDED then
    (Int.ofNat LPC22XX_CAN_NO_ERR, s, argp)
  else if func = IO_LPC22XX_CAN_GET_NODE_STATUS then
    (Int.ofNat LPC22XX_CAN_NO_ERR, s, nodeStatus s i argp)
  else if func = IO_LPC22XX_CAN_SET_STD_FILTER ∧ env.LPC22XX_CAN_STD_FILTER_SIZE > 0 then
    (Int.ofNat LPC22XX_CAN_NO_ERR,
      loadFilterTable env s env.LPC22XX_CAN_STD_FILTER_SIZE env.StdFilter_Tbl, argp)
  else if func = IO_LPC22XX_CAN_SET_STD_GROUP_FILTER ∧
      env.LPC22XX_CAN_STD_GROUP_FILTER_SIZE > 0 then
    (Int.ofNat LPC22XX_CAN_NO_ERR,
      loadFilterTable env s env.LPC22XX_CAN_STD_GROUP_FILTER_SIZE env.StdGroupFilter_Tbl,
      argp)
  else if func = IO_LPC22XX_CAN_SET_EXT_FILTER ∧ env.LPC22XX_CAN_EXT_FILTER_SIZE > 0 then
    (Int.ofNat LPC22XX_CAN_NO_ERR,
      loadFilterTable env s env.LPC22XX_CAN_EXT_FILTER_SIZE env.ExtFilter_Tbl, argp)
  else if func = IO_LPC22XX_CAN_SET_EXT_GROUP_FILTER ∧
      env.LPC22XX_CAN_EXT_GROUP_FILTER_SIZE > 0 then
    (Int.ofNat LPC22XX_CAN_NO_ERR,
      loadFilterTable env s env.LPC22XX_CAN_EXT_GROUP_FILTER_SIZE env.ExtGroupFilter_Tbl,
      argp)
  else
    (-1, s, argp)

/-- Entry point `LPC22XXCANIoCtl (paraId, func, argp)`; the third component is the memory behind
`argp` after the call. -/
def LPC22XXCANIoCtl (env : Env) (s : State) (paraId : Int) (func : Nat)
    (argp : Nat → Nat) : Int × State × (Nat → Nat) :=
  if paraId ≥ LPC22XX_CAN_N_DEV ∨ paraId < 0 then
    (-1, { s with DrvError := LPC22XX_CAN_BUS_ERR }, argp)
  else
    let i := paraId.toNat
    if (s.DevData i).Use ≠ 1 then
      (-1, { s with DrvError := LPC22XX_CAN_OPEN_ERR }, argp)
    else
      let s := CPU_CRITICAL_ENTER s
      let r := IoCtlSwitch env s i func argp
      let s := CPU_CRITICAL_EXIT r.2.1
      if r.1 = -1 then
        (r.1, { s with DrvError := LPC22XX_CAN_FUNC_ERR }, r.2.2)
      else
        (r.1, s, r.2.2)

/-- The receive branch of `LPC22XXCANRead` for one controller, given its registers
`GSR`, `RID`, `RFS`, `RDA`, `RDB`. -/
def readBus (s : State) (frm : LPC22XX_CANFRM) (size GSR RID RFS RDA RDB : Nat) :
    Int × State × LPC22XX_CANFRM :=
  if GSR &&& 1 = 1 then
    let frm := { frm with Identifier := RID }
    let Word := RFS
    let frm :=
      if Word &&& LPC22XX_CAN_RTR_MASK ≠ 0 then
        { frm with Identifier := frm.Identifier ||| LPC22XX_CAN_RTR_FRAME_BIT }
      else frm
    let frm :=
      if Word &&& LPC22XX_CAN_FF_MASK ≠ 0 then
        { frm with Identifier := frm.Identifier ||| LPC22XX_CAN_FF_FRAME_BIT }
      else frm
    let Word := RFS &&& LPC22XX_CAN_DLC_MASK
    let frm := { frm with DLC := (Word >>> 16) % 256 }
    let frm := { frm with Data := write32 frm.Data 0 RDA }
    let frm := { frm with Data := write32 frm.Data 4 RDB }
    (Int.ofNat size, s, frm)
  else
    (-1, { s with DrvError := LPC22XX_CAN_NO_DATA_ERR }, frm)

/-- Entry point `LPC22XXCANRead (paraId, buffer, size)`; `buffer = none` is the null pointer, the
third component is the frame behind `buffer` after the call. -/
def LPC22XXCANRead (s : State) (paraId : Int) (buffer : Option LPC22XX_CANFRM)
    (size : Nat) : Int × State × Option LPC22XX_CANFRM :=
  if paraId ≥ LPC22XX_CAN_N_DEV ∨ paraId < 0 then
    (-1, { s with DrvError := LPC22XX_CAN_BUS_ERR }, buffer)
  else if size ≠ sizeof_CANFRM then
    (-1, { s with DrvError := LPC22XX_CAN_NO_DATA_ERR }, buffer)
  else
    match buffer with
    | none => (-1, { s with DrvError := LPC22XX_CAN_ARG_ERR }, none)
    | some frm =>
      let i := paraId.toNat
      if (s.DevData i).Use ≠ 1 then
        (-1, { s with DrvError := LPC22XX_CAN_OPEN_ERR }, some frm)
      else
        let s := CPU_CRITICAL_ENTER s
        let r :=
          if i = LPC22XX_CAN_BUS_0 then
            readBus s frm size s.C1GSR s.C1RID s.C1RFS s.C1RDA s.C1RDB
          else if i = LPC22XX_CAN_BUS_1 then
            readBus s frm size s.C2GSR s.C2RID s.C2RFS s.C2RDA s.C2RDB
          else (-1, s, frm)
        (r.1, CPU_CRITICAL_EXIT r.2.1, some r.2.2)

/-- Entry point `LPC22XXCANWrite (paraId, buffer, size)`; `buffer = none` is the null pointer. The
function only reads the frame behind `buffer`. When the transmit channel is not
available the function returns from inside the critical section. -/
def LPC22XXCANWrite (s : State) (paraId : Int) (buffer : Option LPC22XX_CANFRM)
    (size : Nat) : Int × State :=
  if paraId ≥ LPC22XX_CAN_N_DEV ∨ paraId < 0 then
    (-1, { s with DrvError := LPC22XX_CAN_BUS_ERR })
  else if size ≠ sizeof_CANFRM then
    (-1, { s with DrvError := LPC22XX_CAN_NO_DATA_ERR })
  else
    match buffer with
    | none => (-1, { s with DrvError := LPC22XX_CAN_ARG_ERR })
    | some frm =>
      let i := paraId.toNat
      if (s.DevData i).Use ≠ 1 then
        (-1, { s with DrvError := LPC22XX_CAN_OPEN_ERR })
      else
        let s := CPU_CRITICAL_ENTER s
        let Word := if frm.Identifier > 0x7FF then 0x80000000 else 0x00000000
        let Word := Word ||| ((frm.DLC <<< 16) % 2 ^ 32)
        if i = LPC22XX_CAN_BUS_0 then
          if s.C1SR &&& 0x04 = 0 then
            let s := { s with C1CMR := 0x02 }
            (-1, { s with DrvError := LPC22XX_CAN_BUSY_ERR })
          else
            let s := { s with C1TFI1 := Word }
            let s := { s with C1TID1 := frm.Identifier }
            let s := { s with C1TDA1 := read32 frm.Data 0 }
            let s := { s with C1TDB1 := read32 frm.Data 4 }
            let s := { s with C1CMR := 0x30 }
            (Int.ofNat size, CPU_CRITICAL_EXIT s)
        else if i = LPC22XX_CAN_BUS_1 then
          if s.C2SR &&& 0x04 = 0 then
            let s := { s with C2CMR := 0x02 }
            (-1, { s with DrvError := LPC22XX_CAN_BUSY_ERR })
          else
            let s := { s with C2TFI1 := Word }
            let s := { s with C2TID1 := frm.Identifier }
            let s := { s with C2TDA1 := read32 frm.Data 0 }
            let s := { s with C2TDB1 := read32 frm.Data 4 }
            let s := { s with C2CMR := 0x30 }
            (Int.ofNat size, CPU_CRITICAL_EXIT s)
        else
          (-1, CPU_CRITICAL_EXIT s)

/-! ### Concrete instances used to evaluate the code -/

/-- The module state at program start: zero-initialised statics and memory, transmit
buffers of both controllers free (`SR = 0x0C`). -/
def resetState : State :=
  { DrvError := 0, DevData := fun _ => { Use := 0 }, AcceptanceTblPtr := 0,
    AF_RAM := fun _ => 0, AFMR := 1, PINSEL1 := 0, SFF_SA := 0, SFF_GRP_SA := 0, EFF_SA := 0,
    EFF_GRP_SA := 0, END_OF_TABLE := 0,
    C1MOD := 1, C1CMR := 0, C1GSR := 0x0C, C1IER := 0, C1BTR := 0x001C0000, C1SR := 0x0C,
    C1RFS := 0, C1RID := 0, C1RDA := 0, C1RDB := 0, C1TFI1 := 0, C1TID1 := 0, C1TDA1 := 0,
    C1TDB1 := 0,
    C2MOD := 1, C2CMR := 0, C2GSR := 0x0C, C2IER := 0, C2BTR := 0x001C0000, C2SR := 0x0C,
    C2RFS := 0, C2RID := 0, C2RDA := 0, C2RDB := 0, C2TFI1 := 0, C2TID1 := 0, C2TDA1 := 0,
    C2TDB1 := 0,
    VICVECTADDR := fun _ => 0, VICVECTCTRL := fun _ => 0, VICINTSELECT := 0, VICINTENABLE := 0,
    board := 0, IntNest := 0 }

/-- A configuration for evaluation: a baud rate table with three rates and its
terminating entry, no interrupts, no filter tables. -/
def sampleEnv : Env :=
  { CanBaud := [{ Baudrate := 1000000, BTR := 0x00250000 },
      { Baudrate := 500000, BTR := 0x001C0002 }, { Baudrate := 250000, BTR := 0x001C0005 },
      { Baudrate := 0, BTR := 0 }],
    LPC22XX_CAN_DEFAULT_BAUD_RATE := 0x00250000,
    LPC22XX_CAN_RX_INTERRUPT_EN := false,
    LPC22XX_CAN_TX_INTERRUPT_EN := false,
    LPC22XX_CAN_NS_INTERRUPT_EN := false,
    LPC22XXCANISR_Rx1 := 0, LPC22XXCANISR_Tx1 := 0, LPC22XXCANISR_Rx2 := 0,
    LPC22XXCANISR_Tx2 := 0, LPC22XXCANISR_Ns := 0,
    LPC22XX_BSP_SetDevIds := fun _ _ b => b,
    LPC22XX_CAN_STD_FILTER_SIZE := 0, LPC22XX_CAN_STD_GROUP_FILTER_SIZE := 0,
    LPC22XX_CAN_EXT_FILTER_SIZE := 0, LPC22XX_CAN_EXT_GROUP_FILTER_SIZE := 0,
    StdFilter_Tbl := fun _ => 0, StdGroupFilter_Tbl := fun _ => 0, ExtFilter_Tbl := fun _ => 0,
    ExtGroupFilter_Tbl := fun _ => 0,
    LPC22XX_CAN_NAME := 0x00001000 }

/-- The state after `LPC22XXCANInit (0)` and `LPC22XXCANOpen (0, 0, DEV_RW)` from the reset
state. -/
def openState : State :=
  (LPC22XXCANOpen sampleEnv (LPC22XXCANInit sampleEnv resetState 0).2 0 0 DEV_RW).2

/-- The open sample state with the transmit buffer of controller 1 occupied (bit 2 of
`SR` clear). -/
def busyState : State := { openState with C1SR := 0x08 }

/-- The open sample state with a received frame in the receive buffer of controller 1
(bit 0 of `GSR` set): identifier `0x123`, DLC 2, data bytes `0x11`, `0x22`. -/
def pendingState : State :=
  { openState with C1GSR := 0x01, C1RID := 0x123, C1RFS := 0x00020000, C1RDA := 0x2211 }

/-- A zeroed frame buffer. -/
def zeroFrm : LPC22XX_CANFRM :=
  { Identifier := 0, Data := fun _ => 0, DLC := 0, Spare := fun _ => 0 }

/-- A frame with identifier `0x123`, DLC 8 and the data bytes `0x10 .. 0x17`. -/
def sampleFrm : LPC22XX_CANFRM :=
  { Identifier := 0x123, Data := fun i => if i < 8 then 0x10 + i else 0, DLC := 8,
    Spare := fun _ => 0 }

/-- The function codes `LPC22XXCANIoCtl` can have a case for. -/
def ioFunctions : List Nat :=
  [IO_LPC22XX_CAN_GET_IDENT, IO_LPC22XX_CAN_GET_ERRNO, IO_LPC22XX_CAN_GET_DRVNAME,
    IO_LPC22XX_CAN_SET_BAUDRATE, IO_LPC22XX_CAN_TX_READY, IO_LPC22XX_CAN_START,
    IO_LPC22XX_CAN_STOP, IO_LPC22XX_CAN_RX_STANDARD, IO_LPC22XX_CAN_RX_EXTENDED,
    IO_LPC22XX_CAN_GET_NODE_STATUS, IO_LPC22XX_CAN_SET_STD_FILTER,
    IO_LPC22XX_CAN_SET_STD_GROUP_FILTER, IO_LPC22XX_CAN_SET_EXT_FILTER,
    IO_LPC22XX_CAN_SET_EXT_GROUP_FILTER]

end LPC22XX

/-! # Theorems

## Basic facts -/

@[simp] theorem upd_same {α : Type} (f : Nat → α) (i : Nat) (v : α) : upd f i v i = v := by
  simp [upd]

@[simp] theorem upd_other {α : Type} (f : Nat → α) (i j : Nat) (v : α) (h : j ≠ i) :
    upd f i v j = f j := by
  simp [upd, h]

@[simp] theorem upd_upd {α : Type} (f : Nat → α) (i : Nat) (a b : α) :
    upd (upd f i a) i b = upd f i b := by
  funext j; by_cases h : j = i <;> simp [upd, h]

theorem and_0F (x : Nat) : x &&& 0x0F = x % 16 := Nat.and_pow_two_sub_one_eq_mod x 4
theorem and_03 (x : Nat) : x &&& 0x03 = x % 4 := Nat.and_pow_two_sub_one_eq_mod x 2
theorem and_1FFFFFFF (x : Nat) : x &&& 0x1FFFFFFF = x % 2 ^ 29 :=
  Nat.and_pow_two_sub_one_eq_mod x 29

/-- A one-bit mask selects that bit. -/
theorem and_two_pow_eq (x i : Nat) : x &&& 2 ^ i = (x / 2 ^ i % 2) * 2 ^ i := by
  apply Nat.eq_of_testBit_eq
  intro j
  rw [Nat.testBit_and, Nat.testBit_two_pow, Nat.mul_comm, Nat.testBit_mul_pow_two]
  by_cases h : i = j
  · subst h
    simp [Nat.testBit_to_div_mod]
  · simp [h]
    intro hle
    have : 0 < j - i := by omega
    have h2 : x / 2 ^ i % 2 < 2 ^ (j - i) := by
      calc x / 2 ^ i % 2 < 2 := Nat.mod_lt _ (by decide)
        _ = 2 ^ 1 := rfl
        _ ≤ 2 ^ (j - i) := Nat.pow_le_pow_right (by decide) this
    exact Nat.testBit_lt_two_pow h2

theorem and_04 (x : Nat) : x &&& 0x04 = (x / 4 % 2) * 4 := and_two_pow_eq x 2
theorem and_02 (x : Nat) : x &&& 0x02 = (x / 2 % 2) * 2 := and_two_pow_eq x 1

/-- Bitwise or of a multiple of `2 ^ i` and a smaller value is their sum. -/
theorem or_eq_add (i a b : Nat) (h : b < 2 ^ i) : 2 ^ i * a ||| b = 2 ^ i * a + b :=
  (Nat.mul_add_lt_is_or h a).symm

/-- The mask `0xFFFFFFF0` clears the low four bits of a 32-bit value. -/
theorem and_FFFFFFF0 (x : Nat) : x &&& 0xFFFFFFF0 = 2 ^ 4 * (x / 16 % 2 ^ 28) := by
  apply Nat.eq_of_testBit_eq
  intro j
  have e : (0xFFFFFFF0 : Nat) = 2 ^ 4 * (2 ^ 28 - 1) := by norm_num
  rw [Nat.testBit_and, e, Nat.testBit_mul_pow_two, Nat.testBit_mul_pow_two,
    Nat.testBit_two_pow_sub_one, Nat.testBit_mod_two_pow]
  by_cases h : 4 ≤ j
  · have e2 : x / 16 = x >>> 4 := by rw [Nat.shiftRight_eq_div_pow]
    have e3 : 4 + (j - 4) = j := by omega
    simp [h, e2, Nat.testBit_shiftRight, e3, Bool.and_comm]
  · simp [h]

/-- Four bytes packed into a word. -/
theorem pack4 (d0 d1 d2 d3 : Nat) (h0 : d0 < 256) (h1 : d1 < 256) (h2 : d2 < 256) :
    (d3 <<< 24) ||| (d2 <<< 16) ||| (d1 <<< 8) ||| d0
      = d0 + 256 * d1 + 65536 * d2 + 16777216 * d3 := by
  simp only [Nat.shiftLeft_eq]
  have s1 : d3 * 2 ^ 24 ||| d2 * 2 ^ 16 = 2 ^ 24 * d3 + d2 * 2 ^ 16 := by
    rw [Nat.mul_comm d3]; exact or_eq_add 24 d3 _ (by omega)
  have s2 : 2 ^ 24 * d3 + d2 * 2 ^ 16 ||| d1 * 2 ^ 8
      = 2 ^ 16 * (256 * d3 + d2) + d1 * 2 ^ 8 := by
    have : 2 ^ 24 * d3 + d2 * 2 ^ 16 = 2 ^ 16 * (256 * d3 + d2) := by omega
    rw [this]; exact or_eq_add 16 _ _ (by omega)
  have s3 : 2 ^ 16 * (256 * d3 + d2) + d1 * 2 ^ 8 ||| d0
      = 2 ^ 8 * (65536 * d3 + 256 * d2 + d1) + d0 := by
    have : 2 ^ 16 * (256 * d3 + d2) + d1 * 2 ^ 8 = 2 ^ 8 * (65536 * d3 + 256 * d2 + d1) := by
      omega
    rw [this]; exact or_eq_add 8 _ _ (by omega)
  rw [s1, s2, s3]; omega

/-! ## STM32F4XX: behaviour of the entry points on their main paths -/

namespace STM32F4XX

theorem f4_not_out_of_range (h : Int) (h0 : 0 ≤ h) (h2 : h < 2) :
    ¬ (h ≥ STM32F4XX_CAN_N_DEV ∨ h < 0) := by
  simp [STM32F4XX_CAN_N_DEV]; omega

/-- An open on a device in use fails and only records `OPEN_ERR`. -/
theorem f4_open_in_use (env : Env) (s : State) (devId : Int) (d : Nat) (hd : d < 2)
    (hU : (s.DevData d).Use ≠ 0) :
    STM32F4XXCANOpen env s devId d DEV_RW
      = (-1, { s with DrvError := STM32F4XX_CAN_OPEN_ERR }) := by
  have h2 : ¬ d ≥ STM32F4XX_CAN_N_DEV := by simp [STM32F4XX_CAN_N_DEV]; omega
  simp [STM32F4XXCANOpen, h2, CPU_CRITICAL_ENTER, CPU_CRITICAL_EXIT, hU]

/-- An open on a free device returns the device name and sets the flag. -/
theorem f4_open_free (env : Env) (s : State) (devId : Int) (d : Nat) (hd : d < 2)
    (hU : (s.DevData d).Use = 0) :
    (STM32F4XXCANOpen env s devId d DEV_RW).1 = d ∧
    ((STM32F4XXCANOpen env s devId d DEV_RW).2.DevData d).Use = 1 := by
  have h2 : ¬ d ≥ STM32F4XX_CAN_N_DEV := by simp [STM32F4XX_CAN_N_DEV]; omega
  simp [STM32F4XXCANOpen, h2, CPU_CRITICAL_ENTER, CPU_CRITICAL_EXIT, hU, setDev]
  split <;> simp

theorem f4_close_in_use (s : State) (h : Int) (h0 : 0 ≤ h) (h2 : h < 2)
    (hU : (s.DevData h.toNat).Use ≠ 0) :
    STM32F4XXCANClose s h
      = (0, setDev s h.toNat { s.DevData h.toNat with Use := 0 }) := by
  simp [STM32F4XXCANClose, f4_not_out_of_range h h0 h2, CPU_CRITICAL_ENTER, CPU_CRITICAL_EXIT, hU,
    setDev, STM32F4XX_CAN_NO_ERR]

/-- A write on an open device with a free mailbox: result and state. -/
theorem write_free (s : State) (h : Int) (frm : STM32F4XX_CANFRM) (h0 : 0 ≤ h) (h2 : h < 2)
    (hU : (s.DevData h.toNat).Use = 1)
    (hk : 0 ≤ TransmitMailbox (s.mem (s.DevData h.toNat).Base).TSR) :
    STM32F4XXCANWrite s h (some frm) sizeof_CANFRM =
      (16, setCan s (s.DevData h.toNat).Base
        (setTxMailBox (s.mem (s.DevData h.toNat).Base)
          (TransmitMailbox (s.mem (s.DevData h.toNat).Base).TSR).toNat
          (txImage ((s.mem (s.DevData h.toNat).Base).TxMailBox
            (TransmitMailbox (s.mem (s.DevData h.toNat).Base).TSR).toNat) frm))) := by
  simp only [STM32F4XXCANWrite, f4_not_out_of_range h h0 h2, if_false, hU, ne_eq,
    not_true_eq_false, CPU_CRITICAL_ENTER, CPU_CRITICAL_EXIT, ge_iff_le, hk, if_true]
  by_cases hid : frm.Identifier ≤ 0x7FF <;>
    simp [hid, modCan, setCan, setTxMailBox, txImage, idWord, sizeof_CANFRM]

/-- The mailbox a successful write has programmed. -/
theorem write_free_mailbox (s : State) (h : Int) (frm : STM32F4XX_CANFRM) (h0 : 0 ≤ h)
    (h2 : h < 2) (hU : (s.DevData h.toNat).Use = 1)
    (hk : 0 ≤ TransmitMailbox (s.mem (s.DevData h.toNat).Base).TSR) :
    ((STM32F4XXCANWrite s h (some frm) sizeof_CANFRM).2.mem (s.DevData h.toNat).Base).TxMailBox
        (TransmitMailbox (s.mem (s.DevData h.toNat).Base).TSR).toNat
      = txImage ((s.mem (s.DevData h.toNat).Base).TxMailBox
          (TransmitMailbox (s.mem (s.DevData h.toNat).Base).TSR).toNat) frm := by
  rw [write_free s h frm h0 h2 hU hk]
  simp [setCan, setTxMailBox]

/-- A read on an open device with a pending frame: result, state and frame. -/
theorem read_pending (s : State) (h : Int) (buf : STM32F4XX_CANFRM) (h0 : 0 ≤ h) (h2 : h < 2)
    (hU : (s.DevData h.toNat).Use = 1)
    (hk : 0 ≤ FIFONumber (s.mem (s.DevData h.toNat).Base).RF0R
      (s.mem (s.DevData h.toNat).Base).RF1R) :
    STM32F4XXCANRead s h (some buf) sizeof_CANFRM =
      (16, s, some (rxFrame ((s.mem (s.DevData h.toNat).Base).FIFOMailBox
        (FIFONumber (s.mem (s.DevData h.toNat).Base).RF0R
          (s.mem (s.DevData h.toNat).Base).RF1R).toNat) buf)) := by
  simp [STM32F4XXCANRead, f4_not_out_of_range h h0 h2, hU, CPU_CRITICAL_ENTER, CPU_CRITICAL_EXIT,
    hk, sizeof_CANFRM]

/-- A failed open is recorded by a result of -1 only when the device is in use. -/
theorem f4_use_zero_of_open_ok (env : Env) (s : State) (devId : Int) (d : Nat) (hd : d < 2)
    (h : (STM32F4XXCANOpen env s devId d DEV_RW).1 ≠ -1) : (s.DevData d).Use = 0 := by
  by_contra hU
  exact h (by rw [f4_open_in_use env s devId d hd hU])

/-- On a device in use: a further open fails and keeps the flag, a close succeeds and the
open after it succeeds. -/
theorem f4_open_cycle (env : Env) (s : State) (devId : Int) (d : Nat) (hd : d < 2)
    (hU : (s.DevData d).Use = 1) :
    (STM32F4XXCANOpen env s devId d DEV_RW).1 = -1 ∧
    (STM32F4XXCANOpen env s devId d DEV_RW).2.DrvError = STM32F4XX_CAN_OPEN_ERR ∧
    ((STM32F4XXCANOpen env s devId d DEV_RW).2.DevData d).Use = 1 ∧
    (STM32F4XXCANClose s d).1 = 0 ∧
    (STM32F4XXCANOpen env (STM32F4XXCANClose s d).2 devId d DEV_RW).1 = d := by
  have hU0 : (s.DevData d).Use ≠ 0 := by omega
  have hc := f4_close_in_use s d (by omega) (by omega) (by simpa using hU0)
  rw [f4_open_in_use env s devId d hd hU0, hc]
  refine ⟨rfl, rfl, hU, rfl, ?_⟩
  exact (f4_open_free env _ devId d hd (by simp [setDev])).1

/-- Further opens on a device in use keep it in use. -/
theorem f4_iterate_open_use (env : Env) (s : State) (devId : Int) (d : Nat) (hd : d < 2)
    (hU : (s.DevData d).Use = 1) (n : Nat) :
    (((fun u => (STM32F4XXCANOpen env u devId d DEV_RW).2)^[n] s).DevData d).Use = 1 := by
  induction n with
  | zero => simpa using hU
  | succ k ih =>
    rw [Function.iterate_succ_apply']
    exact (f4_open_cycle env _ devId d hd ih).2.2.1

/-! ### Bit-level facts on the transmit and receive register images -/

theorem mod_two_or_one (a : Nat) : a % 2 ||| 1 = 1 := by
  rcases Nat.mod_two_eq_zero_or_one a with h | h <;> simp [h]

theorem txImage_TIR_std (m : TxMailBox_t) (frm : STM32F4XX_CANFRM)
    (hid : frm.Identifier ≤ 0x7FF) : (txImage m frm).TIR = 2 ^ 21 * frm.Identifier + 1 := by
  have hW : (frm.Identifier <<< 21) % 2 ^ 32 = 2 ^ 21 * frm.Identifier := by
    rw [Nat.shiftLeft_eq]; omega
  simp only [txImage, idWord, hid, if_true, STM32F4XX_CAN_TIxR_TXRQ, Nat.and_one_is_mod, hW]
  rw [Nat.or_comm (m.TIR % 2), Nat.or_assoc, mod_two_or_one]
  exact or_eq_add 21 _ 1 (by norm_num)

theorem txImage_TIR_ext (m : TxMailBox_t) (frm : STM32F4XX_CANFRM)
    (hid : ¬ frm.Identifier ≤ 0x7FF) :
    (txImage m frm).TIR = 8 * (frm.Identifier % 2 ^ 29) + 5 := by
  have hW : ((frm.Identifier &&& 0x1FFFFFFF) <<< 3) % 2 ^ 32
      = 2 ^ 3 * (frm.Identifier % 2 ^ 29) := by
    rw [and_1FFFFFFF, Nat.shiftLeft_eq]; omega
  have h4 : 2 ^ 3 * (frm.Identifier % 2 ^ 29) ||| 0x04
      = 2 ^ 2 * (2 * (frm.Identifier % 2 ^ 29) + 1) := by
    rw [or_eq_add 3 _ 4 (by norm_num)]; omega
  simp only [txImage, idWord, hid, if_false, STM32F4XX_CAN_TIxR_TXRQ, Nat.and_one_is_mod, hW, h4]
  rw [Nat.or_comm (m.TIR % 2), Nat.or_assoc, mod_two_or_one, or_eq_add 2 _ 1 (by norm_num)]
  omega

/-- The identifier `STM32F4XXCANRead` decodes from the identifier register `RIR`. -/
theorem rxFrame_Identifier (mb : FIFOMailBox_t) (buf : STM32F4XX_CANFRM) :
    (rxFrame mb buf).Identifier =
      if mb.RIR &&& 0x02 ≠ 0 then
        (if mb.RIR &&& 0x04 = 0 then mb.RIR >>> 21
          else mb.RIR >>> 3 ||| STM32F4XX_FF_FRAME_BIT) ||| STM32F4XX_RTR_FRAME_BIT
      else
        (if mb.RIR &&& 0x04 = 0 then mb.RIR >>> 21
          else mb.RIR >>> 3 ||| STM32F4XX_FF_FRAME_BIT) := by
  unfold rxFrame
  by_cases h1 : mb.RIR &&& 0x04 = 0 <;> by_cases h2 : mb.RIR &&& 0x02 ≠ 0 <;> simp [h1, h2]

theorem rxFrame_DLC (mb : FIFOMailBox_t) (buf : STM32F4XX_CANFRM) :
    (rxFrame mb buf).DLC = (mb.RDTR &&& 0x0F) % 256 := by
  simp [rxFrame]

theorem rxFrame_Data (mb : FIFOMailBox_t) (buf : STM32F4XX_CANFRM) :
    (rxFrame mb buf).Data 0 = mb.RDLR % 256 ∧
    (rxFrame mb buf).Data 1 = (mb.RDLR >>> 8) % 256 ∧
    (rxFrame mb buf).Data 2 = (mb.RDLR >>> 16) % 256 ∧
    (rxFrame mb buf).Data 3 = (mb.RDLR >>> 24) % 256 ∧
    (rxFrame mb buf).Data 4 = mb.RDHR % 256 ∧
    (rxFrame mb buf).Data 5 = (mb.RDHR >>> 8) % 256 ∧
    (rxFrame mb buf).Data 6 = (mb.RDHR >>> 16) % 256 ∧
    (rxFrame mb buf).Data 7 = (mb.RDHR >>> 24) % 256 := by
  simp [rxFrame, upd]

/-- Identifier read back from a looped-back mailbox image. -/
theorem loopback_Identifier (m : TxMailBox_t) (frm buf : STM32F4XX_CANFRM) :
    (rxFrame (loopback (txImage m frm)) buf).Identifier =
      if frm.Identifier ≤ 0x7FF then frm.Identifier
      else frm.Identifier % 2 ^ 29 + 2 ^ 29 := by
  rw [rxFrame_Identifier]
  simp only [loopback, and_02, and_04, Nat.shiftRight_eq_div_pow, STM32F4XX_FF_FRAME_BIT]
  by_cases hid : frm.Identifier ≤ 0x7FF
  · rw [txImage_TIR_std m frm hid, if_pos hid]
    split_ifs <;> omega
  · rw [txImage_TIR_ext m frm hid, if_neg hid]
    have e3 : (8 * (frm.Identifier % 2 ^ 29) + 5) / 2 ^ 3 = frm.Identifier % 2 ^ 29 := by omega
    have e4 : frm.Identifier % 2 ^ 29 ||| 0x20000000 = frm.Identifier % 2 ^ 29 + 2 ^ 29 := by
      rw [Nat.or_comm]
      have := or_eq_add 29 1 (frm.Identifier % 2 ^ 29) (Nat.mod_lt _ (by norm_num))
      simpa [Nat.add_comm] using this
    split_ifs
    · omega
    · omega
    · omega
    · rw [e3, e4]

/-- DLC read back from a looped-back mailbox image. -/
theorem loopback_DLC (m : TxMailBox_t) (frm buf : STM32F4XX_CANFRM) (hdlc : frm.DLC ≤ 8) :
    (rxFrame (loopback (txImage m frm)) buf).DLC = frm.DLC := by
  rw [rxFrame_DLC]
  simp only [loopback, txImage, and_FFFFFFF0, and_0F]
  rw [or_eq_add 4 _ _ (by omega)]
  omega

/-- Data bytes read back from a looped-back mailbox image. -/
theorem loopback_Data (m : TxMailBox_t) (frm buf : STM32F4XX_CANFRM)
    (hdata : ∀ i, i < 8 → frm.Data i < 256) (i : Nat) (hi : i < 8) :
    (rxFrame (loopback (txImage m frm)) buf).Data i = frm.Data i := by
  have d0 := hdata 0 (by norm_num)
  have d1 := hdata 1 (by norm_num)
  have d2 := hdata 2 (by norm_num)
  have d3 := hdata 3 (by norm_num)
  have d4 := hdata 4 (by norm_num)
  have d5 := hdata 5 (by norm_num)
  have d6 := hdata 6 (by norm_num)
  have d7 := hdata 7 (by norm_num)
  have hl : (loopback (txImage m frm)).RDLR
      = frm.Data 0 + 256 * frm.Data 1 + 65536 * frm.Data 2 + 16777216 * frm.Data 3 := by
    simp only [loopback, txImage]; exact pack4 _ _ _ _ d0 d1 d2
  have hh : (loopback (txImage m frm)).RDHR
      = frm.Data 4 + 256 * frm.Data 5 + 65536 * frm.Data 6 + 16777216 * frm.Data 7 := by
    simp only [loopback, txImage]; exact pack4 _ _ _ _ d4 d5 d6
  obtain ⟨r0, r1, r2, r3, r4, r5, r6, r7⟩ := rxFrame_Data (loopback (txImage m frm)) buf
  interval_cases i
  · rw [r0, hl]; omega
  · rw [r1, hl, Nat.shiftRight_eq_div_pow]; omega
  · rw [r2, hl, Nat.shiftRight_eq_div_pow]; omega
  · rw [r3, hl, Nat.shiftRight_eq_div_pow]; omega
  · rw [r4, hh]; omega
  · rw [r5, hh, Nat.shiftRight_eq_div_pow]; omega
  · rw [r6, hh, Nat.shiftRight_eq_div_pow]; omega
  · rw [r7, hh, Nat.shiftRight_eq_div_pow]; omega

end STM32F4XX

/-! ## LPC22XX: behaviour of the entry points on their main paths -/

namespace LPC22XX

theorem lpc_not_out_of_range (h : Int) (h0 : 0 ≤ h) (h2 : h < 2) :
    ¬ (h ≥ LPC22XX_CAN_N_DEV ∨ h < 0) := by
  simp [LPC22XX_CAN_N_DEV]; omega

/-- An open on a device in use fails and only records `OPEN_ERR`. -/
theorem lpc_open_in_use (env : Env) (s : State) (devId : Int) (d : Nat) (hd : d < 2)
    (hU : (s.DevData d).Use ≠ 0) :
    LPC22XXCANOpen env s devId d DEV_RW
      = (-1, { s with DrvError := LPC22XX_CAN_OPEN_ERR }) := by
  have h2 : ¬ d % 256 ≥ LPC22XX_CAN_N_DEV := by simp [LPC22XX_CAN_N_DEV]; omega
  simp [LPC22XXCANOpen, h2, CPU_CRITICAL_ENTER, CPU_CRITICAL_EXIT, hU]

/-- An open on a free device returns the device name and sets the flag. -/
theorem lpc_open_free (env : Env) (s : State) (devId : Int) (d : Nat) (hd : d < 2)
    (hU : (s.DevData d).Use = 0) :
    (LPC22XXCANOpen env s devId d DEV_RW).1 = d ∧
    ((LPC22XXCANOpen env s devId d DEV_RW).2.DevData d).Use = 1 := by
  have h2 : ¬ d ≥ LPC22XX_CAN_N_DEV := by simp [LPC22XX_CAN_N_DEV]; omega
  have h3 : d % 256 = d := by omega
  simp only [LPC22XXCANOpen, h3, h2, if_false, CPU_CRITICAL_ENTER, CPU_CRITICAL_EXIT, hU, setDev,
    ne_eq, not_true_eq_false, if_true]
  constructor
  · rfl
  · split <;> simp

theorem lpc_close_in_use (s : State) (h : Int) (h0 : 0 ≤ h) (h2 : h < 2)
    (hU : (s.DevData h.toNat).Use ≠ 0) :
    LPC22XXCANClose s h
      = (0, setDev s h.toNat { s.DevData h.toNat with Use := 0 }) := by
  simp [LPC22XXCANClose, lpc_not_out_of_range h h0 h2, CPU_CRITICAL_ENTER, CPU_CRITICAL_EXIT, hU,
    setDev, LPC22XX_CAN_NO_ERR]

/-- A failed open is recorded by a result of -1 only when the device is in use. -/
theorem lpc_use_zero_of_open_ok (env : Env) (s : State) (devId : Int) (d : Nat) (hd : d < 2)
    (h : (LPC22XXCANOpen env s devId d DEV_RW).1 ≠ -1) : (s.DevData d).Use = 0 := by
  by_contra hU
  exact h (by rw [lpc_open_in_use env s devId d hd hU])

/-- On a device in use: a further open fails and keeps the flag, a close succeeds and the
open after it succeeds. -/
theorem lpc_open_cycle (env : Env) (s : State) (devId : Int) (d : Nat) (hd : d < 2)
    (hU : (s.DevData d).Use = 1) :
    (LPC22XXCANOpen env s devId d DEV_RW).1 = -1 ∧
    (LPC22XXCANOpen env s devId d DEV_RW).2.DrvError = LPC22XX_CAN_OPEN_ERR ∧
    ((LPC22XXCANOpen env s devId d DEV_RW).2.DevData d).Use = 1 ∧
    (LPC22XXCANClose s d).1 = 0 ∧
    (LPC22XXCANOpen env (LPC22XXCANClose s d).2 devId d DEV_RW).1 = d := by
  have hU0 : (s.DevData d).Use ≠ 0 := by omega
  have hc := lpc_close_in_use s d (by omega) (by omega) (by simpa using hU0)
  rw [lpc_open_in_use env s devId d hd hU0, hc]
  refine ⟨rfl, rfl, hU, rfl, ?_⟩
  exact (lpc_open_free env _ devId d hd (by simp [setDev])).1

/-- Further opens on a device in use keep it in use. -/
theorem lpc_iterate_open_use (env : Env) (s : State) (devId : Int) (d : Nat) (hd : d < 2)
    (hU : (s.DevData d).Use = 1) (n : Nat) :
    (((fun u => (LPC22XXCANOpen env u devId d DEV_RW).2)^[n] s).DevData d).Use = 1 := by
  induction n with
  | zero => simpa using hU
  | succ k ih =>
    rw [Function.iterate_succ_apply']
    exact (lpc_open_cycle env _ devId d hd ih).2.2.1

/-- The baud rate loop changes nothing when no entry before the terminating entry holds
the requested rate. -/
theorem baudLoop_no_match (i rate : Nat) (tbl : List LPC22XX_CAN_BAUD) (rs : Int × State)
    (h : ∀ e ∈ visited tbl, e.Baudrate ≠ rate) : baudLoop i rate tbl rs = rs := by
  induction tbl generalizing rs with
  | nil => rfl
  | cons e tl ih =>
    by_cases h0 : e.Baudrate = 0
    · simp [baudLoop, h0]
    · have hne : e.Baudrate ≠ rate := h e (by simp [visited, h0])
      have htl : ∀ x ∈ visited tl, x.Baudrate ≠ rate := by
        intro x hx
        exact h x (by simp [visited, h0, hx])
      simp [baudLoop, h0, hne, ih _ htl]

end LPC22XX

/-! ## The claims -/

/-- C1: in both drivers, for an in-range device `d` and mode `DEV_RW`, once an open of `d`
has succeeded (it returned `d`), every further open of `d` (after any number `n` of failed
attempts) returns -1, sets the last error to `OPEN_ERR` and leaves the `Use` flag set; a
close of `d` then returns 0 and the next open succeeds again with handle `d`. -/
theorem C1_open_exclusive (envS : STM32F4XX.Env) (envL : LPC22XX.Env) (devId : Int) (d : Nat)
    (hd : d < 2) (sS : STM32F4XX.State) (sL : LPC22XX.State)
    (hS : (STM32F4XX.STM32F4XXCANOpen envS sS devId d DEV_RW).1 ≠ -1)
    (hL : (LPC22XX.LPC22XXCANOpen envL sL devId d DEV_RW).1 ≠ -1) (n : Nat) :
    ((STM32F4XX.STM32F4XXCANOpen envS sS devId d DEV_RW).1 = d ∧
      (STM32F4XX.STM32F4XXCANOpen envS
        ((fun u => (STM32F4XX.STM32F4XXCANOpen envS u devId d DEV_RW).2)^[n]
          (STM32F4XX.STM32F4XXCANOpen envS sS devId d DEV_RW).2) devId d DEV_RW).1 = -1 ∧
      (STM32F4XX.STM32F4XXCANOpen envS
        ((fun u => (STM32F4XX.STM32F4XXCANOpen envS u devId d DEV_RW).2)^[n]
          (STM32F4XX.STM32F4XXCANOpen envS sS devId d DEV_RW).2) devId d DEV_RW).2.DrvError
        = STM32F4XX.STM32F4XX_CAN_OPEN_ERR ∧
      ((STM32F4XX.STM32F4XXCANOpen envS
        ((fun u => (STM32F4XX.STM32F4XXCANOpen envS u devId d DEV_RW).2)^[n]
          (STM32F4XX.STM32F4XXCANOpen envS sS devId d DEV_RW).2) devId d DEV_RW).2.DevData
        d).Use = 1 ∧
      (STM32F4XX.STM32F4XXCANClose
        ((fun u => (STM32F4XX.STM32F4XXCANOpen envS u devId d DEV_RW).2)^[n]
          (STM32F4XX.STM32F4XXCANOpen envS sS devId d DEV_RW).2) d).1 = 0 ∧
      (STM32F4XX.STM32F4XXCANOpen envS (STM32F4XX.STM32F4XXCANClose
        ((fun u => (STM32F4XX.STM32F4XXCANOpen envS u devId d DEV_RW).2)^[n]
          (STM32F4XX.STM32F4XXCANOpen envS sS devId d DEV_RW).2) d).2 devId d DEV_RW).1 = d) ∧
    ((LPC22XX.LPC22XXCANOpen envL sL devId d DEV_RW).1 = d ∧
      (LPC22XX.LPC22XXCANOpen envL
        ((fun u => (LPC22XX.LPC22XXCANOpen envL u devId d DEV_RW).2)^[n]
          (LPC22XX.LPC22XXCANOpen envL sL devId d DEV_RW).2) devId d DEV_RW).1 = -1 ∧
      (LPC22XX.LPC22XXCANOpen envL
        ((fun u => (LPC22XX.LPC22XXCANOpen envL u devId d DEV_RW).2)^[n]
          (LPC22XX.LPC22XXCANOpen envL sL devId d DEV_RW).2) devId d DEV_RW).2.DrvError
        = LPC22XX.LPC22XX_CAN_OPEN_ERR ∧
      ((LPC22XX.LPC22XXCANOpen envL
        ((fun u => (LPC22XX.LPC22XXCANOpen envL u devId d DEV_RW).2)^[n]
          (LPC22XX.LPC22XXCANOpen envL sL devId d DEV_RW).2) devId d DEV_RW).2.DevData
        d).Use = 1 ∧
      (LPC22XX.LPC22XXCANClose
        ((fun u => (LPC22XX.LPC22XXCANOpen envL u devId d DEV_RW).2)^[n]
          (LPC22XX.LPC22XXCANOpen envL sL devId d DEV_RW).2) d).1 = 0 ∧
      (LPC22XX.LPC22XXCANOpen envL (LPC22XX.LPC22XXCANClose
        ((fun u => (LPC22XX.LPC22XXCANOpen envL u devId d DEV_RW).2)^[n]
          (LPC22XX.LPC22XXCANOpen envL sL devId d DEV_RW).2) d).2 devId d DEV_RW).1 = d) := by
  have uS := STM32F4XX.f4_use_zero_of_open_ok envS sS devId d hd hS
  have uL := LPC22XX.lpc_use_zero_of_open_ok envL sL devId d hd hL
  have oS := STM32F4XX.f4_open_free envS sS devId d hd uS
  have oL := LPC22XX.lpc_open_free envL sL devId d hd uL
  exact ⟨⟨oS.1, STM32F4XX.f4_open_cycle envS _ devId d hd
      (STM32F4XX.f4_iterate_open_use envS _ devId d hd oS.2 n)⟩,
    ⟨oL.1, LPC22XX.lpc_open_cycle envL _ devId d hd
      (LPC22XX.lpc_iterate_open_use envL _ devId d hd oL.2 n)⟩⟩

/-- Witness of C1 on bus 0 from the reset states: the second open fails. -/
theorem C1_open_exclusive_witness :
    (STM32F4XX.STM32F4XXCANOpen STM32F4XX.sampleEnv
      (STM32F4XX.STM32F4XXCANOpen STM32F4XX.sampleEnv STM32F4XX.resetState 0 0 DEV_RW).2
      0 0 DEV_RW).1 = -1 :=
  (C1_open_exclusive STM32F4XX.sampleEnv LPC22XX.sampleEnv 0 0 (by decide)
    STM32F4XX.resetState LPC22XX.resetState (by decide) (by decide) 0).1.2.1

/-- C2: round trip on the STM32F4 driver. A frame with DLC at most 8 is written on an open
device with a free mailbox; in any state `s2` in which the device is open, a frame is
pending in FIFO 0 and the FIFO 0 entry holds the registers of the chosen mailbox unchanged,
the read returns a frame with the same DLC and the same eight data bytes; both calls return
the frame size. -/
theorem C2_write_read_roundtrip (s s2 : STM32F4XX.State) (h : Int)
    (frm buf : STM32F4XX.STM32F4XX_CANFRM) (h0 : 0 ≤ h) (h2 : h < 2)
    (hU : (s.DevData h.toNat).Use = 1)
    (hfree : 0 ≤ STM32F4XX.TransmitMailbox (s.mem (s.DevData h.toNat).Base).TSR)
    (hdlc : frm.DLC ≤ 8) (hdata : ∀ i, i < 8 → frm.Data i < 256)
    (hU2 : (s2.DevData h.toNat).Use = 1)
    (hpend : (s2.mem (s2.DevData h.toNat).Base).RF0R &&& 0x03 ≥ 1)
    (hloop : (s2.mem (s2.DevData h.toNat).Base).FIFOMailBox 0
      = STM32F4XX.loopback
        (((STM32F4XX.STM32F4XXCANWrite s h (some frm) STM32F4XX.sizeof_CANFRM).2.mem
            (s.DevData h.toNat).Base).TxMailBox
          (STM32F4XX.TransmitMailbox (s.mem (s.DevData h.toNat).Base).TSR).toNat)) :
    (STM32F4XX.STM32F4XXCANWrite s h (some frm) STM32F4XX.sizeof_CANFRM).1
      = STM32F4XX.sizeof_CANFRM ∧
    (STM32F4XX.STM32F4XXCANRead s2 h (some buf) STM32F4XX.sizeof_CANFRM).1
      = STM32F4XX.sizeof_CANFRM ∧
    ∃ frm2, (STM32F4XX.STM32F4XXCANRead s2 h (some buf) STM32F4XX.sizeof_CANFRM).2.2 = some frm2 ∧
      frm2.DLC = frm.DLC ∧ ∀ i, i < 8 → frm2.Data i = frm.Data i := by
  have hf : STM32F4XX.FIFONumber (s2.mem (s2.DevData h.toNat).Base).RF0R
      (s2.mem (s2.DevData h.toNat).Base).RF1R = 0 := by
    simp [STM32F4XX.FIFONumber, hpend]
  rw [STM32F4XX.write_free_mailbox s h frm h0 h2 hU hfree] at hloop
  rw [STM32F4XX.write_free s h frm h0 h2 hU hfree,
    STM32F4XX.read_pending s2 h buf h0 h2 hU2 (by rw [hf])]
  refine ⟨rfl, rfl, _, rfl, ?_, ?_⟩
  · rw [hf, Int.toNat_zero, hloop]; exact STM32F4XX.loopback_DLC _ frm buf hdlc
  · intro i hi
    rw [hf, Int.toNat_zero, hloop]; exact STM32F4XX.loopback_Data _ frm buf hdata i hi

/-- Witness of C2: a frame with identifier `0x123` written on bus 0 from `openState` and
looped back from mailbox 0. -/
theorem C2_write_read_roundtrip_witness :
    (STM32F4XX.STM32F4XXCANRead
      (STM32F4XX.loopState (STM32F4XX.STM32F4XXCANWrite STM32F4XX.openState 0
        (some (STM32F4XX.sampleFrm 0x123)) STM32F4XX.sizeof_CANFRM).2
        STM32F4XX.STM32F4XX_CAN1_BASE 0) 0 (some STM32F4XX.zeroFrm)
      STM32F4XX.sizeof_CANFRM).1 = STM32F4XX.sizeof_CANFRM :=
  (C2_write_read_roundtrip STM32F4XX.openState
    (STM32F4XX.loopState (STM32F4XX.STM32F4XXCANWrite STM32F4XX.openState 0
        (some (STM32F4XX.sampleFrm 0x123)) STM32F4XX.sizeof_CANFRM).2
        STM32F4XX.STM32F4XX_CAN1_BASE 0)
    0 (STM32F4XX.sampleFrm 0x123) STM32F4XX.zeroFrm (by decide) (by decide) (by decide)
    (by decide) (by decide) (by decide) (by decide) (by decide) (by decide)).2.1

/-- Counterexample to C3 as stated: a standard frame written with the remote flag
(`0x40000123`) is read back as `0x20000123` (remote flag lost, extended flag gained), and
the identifier `0x800` written without flags is read back as `0x20000800` (extended flag
gained). -/
theorem C3_flags_counterexample :
    STM32F4XX.loopbackIdentifier 0x40000123 = some 0x20000123 ∧
    Nat.testBit 0x40000123 30 = true ∧ Nat.testBit 0x20000123 30 = false ∧
    STM32F4XX.loopbackIdentifier 0x800 = some 0x20000800 ∧
    Nat.testBit 0x800 29 = false ∧ Nat.testBit 0x20000800 29 = true := by
  decide

/-- C3 (amended): for an identifier written with the remote flag (bit 30) clear, the
identifier read back after a register-level loopback has bit 30 clear as well, and has
bit 29 set exactly when the written identifier is greater than `0x7FF`; so bit 29 is the
written one whenever the written identifier is at most `0x7FF` or has bit 29 set. -/
theorem C3_flags_amended (s s2 : STM32F4XX.State) (h : Int)
    (frm buf : STM32F4XX.STM32F4XX_CANFRM) (h0 : 0 ≤ h) (h2 : h < 2)
    (hU : (s.DevData h.toNat).Use = 1)
    (hfree : 0 ≤ STM32F4XX.TransmitMailbox (s.mem (s.DevData h.toNat).Base).TSR)
    (hrtr : frm.Identifier / 2 ^ 30 % 2 = 0)
    (hU2 : (s2.DevData h.toNat).Use = 1)
    (hpend : (s2.mem (s2.DevData h.toNat).Base).RF0R &&& 0x03 ≥ 1)
    (hloop : (s2.mem (s2.DevData h.toNat).Base).FIFOMailBox 0
      = STM32F4XX.loopback
        (((STM32F4XX.STM32F4XXCANWrite s h (some frm) STM32F4XX.sizeof_CANFRM).2.mem
            (s.DevData h.toNat).Base).TxMailBox
          (STM32F4XX.TransmitMailbox (s.mem (s.DevData h.toNat).Base).TSR).toNat)) :
    ∃ frm2, (STM32F4XX.STM32F4XXCANRead s2 h (some buf) STM32F4XX.sizeof_CANFRM).2.2 = some frm2 ∧
      frm2.Identifier / 2 ^ 30 % 2 = 0 ∧
      (frm2.Identifier / 2 ^ 29 % 2 = 1 ↔ frm.Identifier > 0x7FF) ∧
      (frm.Identifier ≤ 0x7FF ∨ frm.Identifier / 2 ^ 29 % 2 = 1 →
        frm2.Identifier / 2 ^ 29 % 2 = frm.Identifier / 2 ^ 29 % 2) := by
  have hf : STM32F4XX.FIFONumber (s2.mem (s2.DevData h.toNat).Base).RF0R
      (s2.mem (s2.DevData h.toNat).Base).RF1R = 0 := by
    simp [STM32F4XX.FIFONumber, hpend]
  rw [STM32F4XX.write_free_mailbox s h frm h0 h2 hU hfree] at hloop
  rw [STM32F4XX.read_pending s2 h buf h0 h2 hU2 (by rw [hf])]
  refine ⟨_, rfl, ?_⟩
  rw [hf, Int.toNat_zero, hloop, STM32F4XX.loopback_Identifier]
  by_cases hid : frm.Identifier ≤ 0x7FF
  · rw [if_pos hid]; omega
  · rw [if_neg hid]; omega

/-- Witness of C3 (amended): the extended identifier `0x20000123` on bus 0. -/
theorem C3_flags_amended_witness :
    ∃ frm2, (STM32F4XX.STM32F4XXCANRead
      (STM32F4XX.loopState (STM32F4XX.STM32F4XXCANWrite STM32F4XX.openState 0
        (some (STM32F4XX.sampleFrm 0x20000123)) STM32F4XX.sizeof_CANFRM).2
        STM32F4XX.STM32F4XX_CAN1_BASE 0) 0 (some STM32F4XX.zeroFrm)
      STM32F4XX.sizeof_CANFRM).2.2 = some frm2 ∧ frm2.Identifier / 2 ^ 30 % 2 = 0 :=
  have w := C3_flags_amended STM32F4XX.openState
    (STM32F4XX.loopState (STM32F4XX.STM32F4XXCANWrite STM32F4XX.openState 0
        (some (STM32F4XX.sampleFrm 0x20000123)) STM32F4XX.sizeof_CANFRM).2
        STM32F4XX.STM32F4XX_CAN1_BASE 0)
    0 (STM32F4XX.sampleFrm 0x20000123) STM32F4XX.zeroFrm (by decide) (by decide) (by decide)
    (by decide) (by decide) (by decide) (by decide) (by decide)
  ⟨w.choose, w.choose_spec.1, w.choose_spec.2.1⟩

/-- C4: identifier classification and inverse in the STM32F4 driver. The write leaves in
the chosen mailbox `TIR = ((TIR & TXRQ) | idWord) | TXRQ`, where the identifier word is the
standard encoding `Identifier << 21` exactly when `Identifier <= 0x7FF` and the extended
encoding `((Identifier & 0x1FFFFFFF) << 3) | 0x04` exactly when `Identifier > 0x7FF`; the
IDE bit (bit 2) of the result is clear exactly in the standard case; and the identifier
the read decodes from that register has the low 29 bits of the identifier written. -/
theorem C4_identifier_classification (s s2 : STM32F4XX.State) (h : Int)
    (frm buf : STM32F4XX.STM32F4XX_CANFRM) (h0 : 0 ≤ h) (h2 : h < 2)
    (hU : (s.DevData h.toNat).Use = 1)
    (hfree : 0 ≤ STM32F4XX.TransmitMailbox (s.mem (s.DevData h.toNat).Base).TSR)
    (hU2 : (s2.DevData h.toNat).Use = 1)
    (hpend : (s2.mem (s2.DevData h.toNat).Base).RF0R &&& 0x03 ≥ 1)
    (hloop : (s2.mem (s2.DevData h.toNat).Base).FIFOMailBox 0
      = STM32F4XX.loopback
        (((STM32F4XX.STM32F4XXCANWrite s h (some frm) STM32F4XX.sizeof_CANFRM).2.mem
            (s.DevData h.toNat).Base).TxMailBox
          (STM32F4XX.TransmitMailbox (s.mem (s.DevData h.toNat).Base).TSR).toNat)) :
    ((((STM32F4XX.STM32F4XXCANWrite s h (some frm) STM32F4XX.sizeof_CANFRM).2.mem
            (s.DevData h.toNat).Base).TxMailBox
          (STM32F4XX.TransmitMailbox (s.mem (s.DevData h.toNat).Base).TSR).toNat).TIR
      = ((((s.mem (s.DevData h.toNat).Base).TxMailBox
            (STM32F4XX.TransmitMailbox (s.mem (s.DevData h.toNat).Base).TSR).toNat).TIR
          &&& STM32F4XX.STM32F4XX_CAN_TIxR_TXRQ)
          ||| (if frm.Identifier ≤ 0x7FF then (frm.Identifier <<< 21) % 2 ^ 32
            else (((frm.Identifier &&& 0x1FFFFFFF) <<< 3) % 2 ^ 32) ||| 0x04))
        ||| STM32F4XX.STM32F4XX_CAN_TIxR_TXRQ) ∧
    ((((STM32F4XX.STM32F4XXCANWrite s h (some frm) STM32F4XX.sizeof_CANFRM).2.mem
            (s.DevData h.toNat).Base).TxMailBox
          (STM32F4XX.TransmitMailbox (s.mem (s.DevData h.toNat).Base).TSR).toNat).TIR
        &&& 0x04 = 0 ↔ frm.Identifier ≤ 0x7FF) ∧
    ∃ frm2, (STM32F4XX.STM32F4XXCANRead s2 h (some buf) STM32F4XX.sizeof_CANFRM).2.2 = some frm2 ∧
      frm2.Identifier % 2 ^ 29 = frm.Identifier % 2 ^ 29 := by
  have hf : STM32F4XX.FIFONumber (s2.mem (s2.DevData h.toNat).Base).RF0R
      (s2.mem (s2.DevData h.toNat).Base).RF1R = 0 := by
    simp [STM32F4XX.FIFONumber, hpend]
  rw [STM32F4XX.write_free_mailbox s h frm h0 h2 hU hfree] at hloop ⊢
  rw [STM32F4XX.read_pending s2 h buf h0 h2 hU2 (by rw [hf])]
  refine ⟨rfl, ?_, _, rfl, ?_⟩
  · rw [and_04]
    by_cases hid : frm.Identifier ≤ 0x7FF
    · rw [STM32F4XX.txImage_TIR_std _ frm hid]; simp only [hid, iff_true]; omega
    · rw [STM32F4XX.txImage_TIR_ext _ frm hid]; simp only [hid, iff_false]; omega
  · rw [hf, Int.toNat_zero, hloop, STM32F4XX.loopback_Identifier]
    by_cases hid : frm.Identifier ≤ 0x7FF
    · rw [if_pos hid]
    · rw [if_neg hid]; omega

/-- Witness of C4: the identifier `0x800` on bus 0 is written in the extended encoding. -/
theorem C4_identifier_classification_witness :
    (((STM32F4XX.STM32F4XXCANWrite STM32F4XX.openState 0 (some (STM32F4XX.sampleFrm 0x800))
        STM32F4XX.sizeof_CANFRM).2.mem (STM32F4XX.openState.DevData 0).Base).TxMailBox
      (STM32F4XX.TransmitMailbox
        (STM32F4XX.openState.mem (STM32F4XX.openState.DevData 0).Base).TSR).toNat).TIR
      &&& 0x04 = 0 ↔ 0x800 ≤ 0x7FF :=
  (C4_identifier_classification STM32F4XX.openState
    (STM32F4XX.loopState (STM32F4XX.STM32F4XXCANWrite STM32F4XX.openState 0
        (some (STM32F4XX.sampleFrm 0x800)) STM32F4XX.sizeof_CANFRM).2
        STM32F4XX.STM32F4XX_CAN1_BASE 0)
    0 (STM32F4XX.sampleFrm 0x800) STM32F4XX.zeroFrm (by decide) (by decide) (by decide)
    (by decide) (by decide) (by decide) (by decide)).2.1

/-- C5: for a handle outside `[0, 2)` (negative or at least 2), Close, IoCtl, Read and Write
of both drivers, and `STM32F4XXCANOpen` for a device name of at least 2, return -1 and
change nothing but the last error, which becomes `BUS_ERR`: the device registry, every
hardware register and the caller's buffer are as before. -/
theorem C5_invalid_handle (envS : STM32F4XX.Env) (envL : LPC22XX.Env) (sS : STM32F4XX.State)
    (sL : LPC22XX.State) (h : Int) (hh : h < 0 ∨ 2 ≤ h) (devName : Nat) (hn : 2 ≤ devName)
    (devId : Int) (mode func size : Nat) (argp : Nat → Nat)
    (bufS : Option STM32F4XX.STM32F4XX_CANFRM) (bufL : Option LPC22XX.LPC22XX_CANFRM) :
    STM32F4XX.STM32F4XXCANClose sS h
      = (-1, { sS with DrvError := STM32F4XX.STM32F4XX_CAN_BUS_ERR }) ∧
    STM32F4XX.STM32F4XXCANIoCtl envS sS h func argp
      = (-1, { sS with DrvError := STM32F4XX.STM32F4XX_CAN_BUS_ERR }, argp) ∧
    STM32F4XX.STM32F4XXCANRead sS h bufS size
      = (-1, { sS with DrvError := STM32F4XX.STM32F4XX_CAN_BUS_ERR }, bufS) ∧
    STM32F4XX.STM32F4XXCANWrite sS h bufS size
      = (-1, { sS with DrvError := STM32F4XX.STM32F4XX_CAN_BUS_ERR }) ∧
    STM32F4XX.STM32F4XXCANOpen envS sS devId devName mode
      = (-1, { sS with DrvError := STM32F4XX.STM32F4XX_CAN_BUS_ERR }) ∧
    LPC22XX.LPC22XXCANClose sL h
      = (-1, { sL with DrvError := LPC22XX.LPC22XX_CAN_BUS_ERR }) ∧
    LPC22XX.LPC22XXCANIoCtl envL sL h func argp
      = (-1, { sL with DrvError := LPC22XX.LPC22XX_CAN_BUS_ERR }, argp) ∧
    LPC22XX.LPC22XXCANRead sL h bufL size
      = (-1, { sL with DrvError := LPC22XX.LPC22XX_CAN_BUS_ERR }, bufL) ∧
    LPC22XX.LPC22XXCANWrite sL h bufL size
      = (-1, { sL with DrvError := LPC22XX.LPC22XX_CAN_BUS_ERR }) := by
  have hS : h ≥ STM32F4XX.STM32F4XX_CAN_N_DEV ∨ h < 0 := by
    simp [STM32F4XX.STM32F4XX_CAN_N_DEV]; omega
  have hL : h ≥ LPC22XX.LPC22XX_CAN_N_DEV ∨ h < 0 := by
    simp [LPC22XX.LPC22XX_CAN_N_DEV]; omega
  have hN : devName ≥ STM32F4XX.STM32F4XX_CAN_N_DEV := by
    simp [STM32F4XX.STM32F4XX_CAN_N_DEV]; omega
  refine ⟨?_, ?_, ?_, ?_, ?_, ?_, ?_, ?_, ?_⟩
  · simp only [STM32F4XX.STM32F4XXCANClose, hS, if_true]
  · simp only [STM32F4XX.STM32F4XXCANIoCtl, hS, if_true]
  · simp only [STM32F4XX.STM32F4XXCANRead, hS, if_true]
  · simp only [STM32F4XX.STM32F4XXCANWrite, hS, if_true]
  · simp only [STM32F4XX.STM32F4XXCANOpen, hN, if_true]
  · simp only [LPC22XX.LPC22XXCANClose, hL, if_true]
  · simp only [LPC22XX.LPC22XXCANIoCtl, hL, if_true]
  · simp only [LPC22XX.LPC22XXCANRead, hL, if_true]
  · simp only [LPC22XX.LPC22XXCANWrite, hL, if_true]

/-- Witness of C5: the handle -1 and the device name 2 on the open sample states. -/
theorem C5_invalid_handle_witness :
    STM32F4XX.STM32F4XXCANClose STM32F4XX.openState (-1)
      = (-1, { STM32F4XX.openState with DrvError := STM32F4XX.STM32F4XX_CAN_BUS_ERR }) :=
  (C5_invalid_handle STM32F4XX.sampleEnv LPC22XX.sampleEnv STM32F4XX.openState
    LPC22XX.openState (-1) (by decide) 2 (by decide) 0 DEV_RW 0 16 (fun _ => 0)
    (some STM32F4XX.zeroFrm) none).1

/-- C6 (evaluation at the failing input): `LPC22XXCANOpen` with the device name 256 passes
the range check, which only looks at the low byte; from the reset state it returns the
handle 0 instead of -1, leaves the last error at `NO_ERR`, and sets the `Use` flag of the
entry `DevData[256]`, outside the registry of two entries, while `DevData[0]` stays
unused. -/
theorem C6_open_256_evaluation :
    (LPC22XX.LPC22XXCANOpen LPC22XX.sampleEnv LPC22XX.resetState 0 256 DEV_RW).1 = 0 ∧
    (LPC22XX.LPC22XXCANOpen LPC22XX.sampleEnv LPC22XX.resetState 0 256 DEV_RW).2.DrvError
      = LPC22XX.LPC22XX_CAN_NO_ERR ∧
    ((LPC22XX.LPC22XXCANOpen LPC22XX.sampleEnv LPC22XX.resetState 0 256 DEV_RW).2.DevData
      256).Use = 1 ∧
    ((LPC22XX.LPC22XXCANOpen LPC22XX.sampleEnv LPC22XX.resetState 0 256 DEV_RW).2.DevData
      0).Use = 0 := by
  decide

/-- Counterexample to C7 as stated: `Init` with the bus selector 2 leaves `INIT_ERR`, not
`BUS_ERR`, as the last error, in both drivers. -/
theorem C7_init_counterexample :
    (STM32F4XX.STM32F4XXCANInit STM32F4XX.sampleEnv STM32F4XX.resetState 2).2.DrvError
      = STM32F4XX.STM32F4XX_CAN_INIT_ERR ∧
    (STM32F4XX.STM32F4XXCANInit STM32F4XX.sampleEnv STM32F4XX.resetState 2).2.DrvError
      ≠ STM32F4XX.STM32F4XX_CAN_BUS_ERR ∧
    (LPC22XX.LPC22XXCANInit LPC22XX.sampleEnv LPC22XX.resetState 2).2.DrvError
      = LPC22XX.LPC22XX_CAN_INIT_ERR ∧
    (LPC22XX.LPC22XXCANInit LPC22XX.sampleEnv LPC22XX.resetState 2).2.DrvError
      ≠ LPC22XX.LPC22XX_CAN_BUS_ERR := by
  decide

/-- C7 (amended): for a bus selector of at least 2, `Init` of both drivers returns -1,
records `INIT_ERR` as the last error and changes no device registry entry and no hardware
register. -/
theorem C7_init_invalid_amended (envS : STM32F4XX.Env) (envL : LPC22XX.Env)
    (sS : STM32F4XX.State) (sL : LPC22XX.State) (arg : Nat) (ha : 2 ≤ arg) :
    STM32F4XX.STM32F4XXCANInit envS sS arg
      = (-1, { sS with DrvError := STM32F4XX.STM32F4XX_CAN_INIT_ERR }) ∧
    LPC22XX.LPC22XXCANInit envL sL arg
      = (-1, { sL with DrvError := LPC22XX.LPC22XX_CAN_INIT_ERR }) := by
  have hS : arg ≥ STM32F4XX.STM32F4XX_CAN_N_DEV := by
    simp [STM32F4XX.STM32F4XX_CAN_N_DEV]; omega
  have hL : arg ≥ LPC22XX.LPC22XX_CAN_N_DEV := by
    simp [LPC22XX.LPC22XX_CAN_N_DEV]; omega
  constructor
  · simp only [STM32F4XX.STM32F4XXCANInit, hS, if_true]
  · simp only [LPC22XX.LPC22XXCANInit, hL, if_true]

/-- Witness of C7 (amended): the bus selector 2. -/
theorem C7_init_invalid_amended_witness :
    STM32F4XX.STM32F4XXCANInit STM32F4XX.sampleEnv STM32F4XX.resetState 2
      = (-1, { STM32F4XX.resetState with DrvError := STM32F4XX.STM32F4XX_CAN_INIT_ERR }) :=
  (C7_init_invalid_amended STM32F4XX.sampleEnv LPC22XX.sampleEnv STM32F4XX.resetState
    LPC22XX.resetState 2 (by decide)).1

/-- C8: for an in-range handle whose device is not open (`Use` flag 0), IoCtl with any
function code, and Read and Write with a non-null buffer of the frame size and any
contents, return -1 in both drivers and change nothing but the last error, which becomes
`OPEN_ERR`: no hardware register, no registry field and no byte of the buffer or of the
argument memory changes. -/
theorem C8_not_open (envS : STM32F4XX.Env) (envL : LPC22XX.Env) (sS : STM32F4XX.State)
    (sL : LPC22XX.State) (h : Int) (h0 : 0 ≤ h) (h2 : h < 2)
    (hUS : (sS.DevData h.toNat).Use = 0) (hUL : (sL.DevData h.toNat).Use = 0)
    (func : Nat) (argp : Nat → Nat) (frmS : STM32F4XX.STM32F4XX_CANFRM)
    (frmL : LPC22XX.LPC22XX_CANFRM) :
    STM32F4XX.STM32F4XXCANIoCtl envS sS h func argp
      = (-1, { sS with DrvError := STM32F4XX.STM32F4XX_CAN_OPEN_ERR }, argp) ∧
    STM32F4XX.STM32F4XXCANRead sS h (some frmS) STM32F4XX.sizeof_CANFRM
      = (-1, { sS with DrvError := STM32F4XX.STM32F4XX_CAN_OPEN_ERR }, some frmS) ∧
    STM32F4XX.STM32F4XXCANWrite sS h (some frmS) STM32F4XX.sizeof_CANFRM
      = (-1, { sS with DrvError := STM32F4XX.STM32F4XX_CAN_OPEN_ERR }) ∧
    LPC22XX.LPC22XXCANIoCtl envL sL h func argp
      = (-1, { sL with DrvError := LPC22XX.LPC22XX_CAN_OPEN_ERR }, argp) ∧
    LPC22XX.LPC22XXCANRead sL h (some frmL) LPC22XX.sizeof_CANFRM
      = (-1, { sL with DrvError := LPC22XX.LPC22XX_CAN_OPEN_ERR }, some frmL) ∧
    LPC22XX.LPC22XXCANWrite sL h (some frmL) LPC22XX.sizeof_CANFRM
      = (-1, { sL with DrvError := LPC22XX.LPC22XX_CAN_OPEN_ERR }) := by
  have hS := STM32F4XX.f4_not_out_of_range h h0 h2
  have hL := LPC22XX.lpc_not_out_of_range h h0 h2
  refine ⟨?_, ?_, ?_, ?_, ?_, ?_⟩
  · simp [STM32F4XX.STM32F4XXCANIoCtl, hS, hUS]
  · simp [STM32F4XX.STM32F4XXCANRead, hS, hUS]
  · simp [STM32F4XX.STM32F4XXCANWrite, hS, hUS]
  · simp [LPC22XX.LPC22XXCANIoCtl, hL, hUL]
  · simp [LPC22XX.LPC22XXCANRead, hL, hUL]
  · simp [LPC22XX.LPC22XXCANWrite, hL, hUL]

/-- Witness of C8: bus 1 directly after `Init (1)` from the reset states. -/
theorem C8_not_open_witness :
    STM32F4XX.STM32F4XXCANWrite
        (STM32F4XX.STM32F4XXCANInit STM32F4XX.sampleEnv STM32F4XX.resetState 1).2 1
        (some (STM32F4XX.sampleFrm 0x123)) STM32F4XX.sizeof_CANFRM
      = (-1, { (STM32F4XX.STM32F4XXCANInit STM32F4XX.sampleEnv STM32F4XX.resetState 1).2 with
          DrvError := STM32F4XX.STM32F4XX_CAN_OPEN_ERR }) :=
  (C8_not_open STM32F4XX.sampleEnv LPC22XX.sampleEnv
    (STM32F4XX.STM32F4XXCANInit STM32F4XX.sampleEnv STM32F4XX.resetState 1).2
    (LPC22XX.LPC22XXCANInit LPC22XX.sampleEnv LPC22XX.resetState 1).2 1 (by decide) (by decide)
    (by decide) (by decide) STM32F4XX.IO_STM32F4XX_CAN_TX_READY (fun _ => 0)
    (STM32F4XX.sampleFrm 0x123) ⟨0, fun _ => 0, 0, fun _ => 0⟩).2.2.1

/-- Counterexample to C10 as stated: after a SetBaudRate IoCtl with an unsupported rate
(rate 0 on the STM32F4 sample board, rate 125000 absent from the LPC22XX sample table) the
call returns -1 and the last error is `FUNC_ERR`, not `ARG_ERR`; the GetLastError query
that follows reports `FUNC_ERR` (7). -/
theorem C10_baudrate_counterexample :
    (STM32F4XX.STM32F4XXCANIoCtl STM32F4XX.sampleEnv STM32F4XX.openState 0
      STM32F4XX.IO_STM32F4XX_CAN_SET_BAUDRATE (fun _ => 0)).1 = -1 ∧
    (STM32F4XX.STM32F4XXCANIoCtl STM32F4XX.sampleEnv STM32F4XX.openState 0
      STM32F4XX.IO_STM32F4XX_CAN_SET_BAUDRATE (fun _ => 0)).2.1.DrvError
        = STM32F4XX.STM32F4XX_CAN_FUNC_ERR ∧
    (STM32F4XX.STM32F4XXCANIoCtl STM32F4XX.sampleEnv
      (STM32F4XX.STM32F4XXCANIoCtl STM32F4XX.sampleEnv STM32F4XX.openState 0
        STM32F4XX.IO_STM32F4XX_CAN_SET_BAUDRATE (fun _ => 0)).2.1 0
      STM32F4XX.IO_STM32F4XX_CAN_GET_ERRNO (fun _ => 0)).2.2 0 = 7 ∧
    STM32F4XX.STM32F4XX_CAN_ARG_ERR = 8 ∧
    (LPC22XX.LPC22XXCANIoCtl LPC22XX.sampleEnv LPC22XX.openState 0
      LPC22XX.IO_LPC22XX_CAN_SET_BAUDRATE (write32 (fun _ => 0) 0 125000)).1 = -1 ∧
    (LPC22XX.LPC22XXCANIoCtl LPC22XX.sampleEnv LPC22XX.openState 0
      LPC22XX.IO_LPC22XX_CAN_SET_BAUDRATE (write32 (fun _ => 0) 0 125000)).2.1.DrvError
        = LPC22XX.LPC22XX_CAN_FUNC_ERR ∧
    (LPC22XX.LPC22XXCANIoCtl LPC22XX.sampleEnv
      (LPC22XX.LPC22XXCANIoCtl LPC22XX.sampleEnv LPC22XX.openState 0
        LPC22XX.IO_LPC22XX_CAN_SET_BAUDRATE (write32 (fun _ => 0) 0 125000)).2.1 0
      LPC22XX.IO_LPC22XX_CAN_GET_ERRNO (fun _ => 0)).2.2 0 = 7 ∧
    LPC22XX.LPC22XX_CAN_ARG_ERR = 8 := by
  decide

/-- C10 (amended): a SetBaudRate IoCtl on an open device with an unsupported rate (STM32F4:
`STM32F4XXCAN_CalcTimingReg` reports failure for the device record holding the requested
rate; LPC22XX: the rate does not occur in `CanBaud` before its terminating entry) returns
-1 and leaves the bit timing register and the mode register unchanged, as every other
hardware register and the argument memory; on LPC22XX the last error on return is
`FUNC_ERR` and nothing else of the state changes. -/
theorem C10_baudrate_unsupported_amended (envS : STM32F4XX.Env) (envL : LPC22XX.Env)
    (sS : STM32F4XX.State) (sL : LPC22XX.State) (h : Int) (h0 : 0 ≤ h) (h2 : h < 2)
    (argp : Nat → Nat)
    (hUS : (sS.DevData h.toNat).Use = 1) (hUL : (sL.DevData h.toNat).Use = 1)
    (hS : (envS.CalcTimingReg { sS.DevData h.toNat with Baudrate := read32 argp 0 }).1
      ≠ Int.ofNat STM32F4XX.STM32F4XX_CAN_NO_ERR)
    (hL : ∀ e ∈ LPC22XX.visited envL.CanBaud, e.Baudrate ≠ read32 argp 0) :
    ((STM32F4XX.STM32F4XXCANIoCtl envS sS h STM32F4XX.IO_STM32F4XX_CAN_SET_BAUDRATE argp).1 = -1 ∧
      (STM32F4XX.STM32F4XXCANIoCtl envS sS h STM32F4XX.IO_STM32F4XX_CAN_SET_BAUDRATE
        argp).2.1.mem = sS.mem ∧
      (STM32F4XX.STM32F4XXCANIoCtl envS sS h STM32F4XX.IO_STM32F4XX_CAN_SET_BAUDRATE
        argp).2.2 = argp) ∧
    LPC22XX.LPC22XXCANIoCtl envL sL h LPC22XX.IO_LPC22XX_CAN_SET_BAUDRATE argp
      = (-1, { sL with DrvError := LPC22XX.LPC22XX_CAN_FUNC_ERR }, argp) := by
  have rS := STM32F4XX.f4_not_out_of_range h h0 h2
  have rL := LPC22XX.lpc_not_out_of_range h h0 h2
  have hS2 := hS
  simp [hUS] at hS2
  constructor
  · simp [STM32F4XX.STM32F4XXCANIoCtl, rS, hUS, STM32F4XX.IoCtlSwitch, hS2,
      STM32F4XX.IO_STM32F4XX_CAN_SET_BAUDRATE, STM32F4XX.IO_STM32F4XX_CAN_GET_IDENT,
      STM32F4XX.IO_STM32F4XX_CAN_GET_ERRNO, STM32F4XX.IO_STM32F4XX_CAN_GET_DRVNAME,
      STM32F4XX.CPU_CRITICAL_ENTER, STM32F4XX.CPU_CRITICAL_EXIT, STM32F4XX.setDev, hS]
  · simp [LPC22XX.LPC22XXCANIoCtl, rL, hUL, LPC22XX.IoCtlSwitch,
      LPC22XX.IO_LPC22XX_CAN_SET_BAUDRATE, LPC22XX.IO_LPC22XX_CAN_GET_IDENT,
      LPC22XX.IO_LPC22XX_CAN_GET_ERRNO, LPC22XX.IO_LPC22XX_CAN_GET_DRVNAME,
      LPC22XX.CPU_CRITICAL_ENTER, LPC22XX.CPU_CRITICAL_EXIT,
      LPC22XX.baudLoop_no_match _ _ _ _ hL]

/-- Witness of C10 (amended): rate 0 on bus 0 of the open sample states. -/
theorem C10_baudrate_unsupported_amended_witness :
    LPC22XX.LPC22XXCANIoCtl LPC22XX.sampleEnv LPC22XX.openState 0
        LPC22XX.IO_LPC22XX_CAN_SET_BAUDRATE (fun _ => 0)
      = (-1, { LPC22XX.openState with DrvError := LPC22XX.LPC22XX_CAN_FUNC_ERR }, fun _ => 0) :=
  (C10_baudrate_unsupported_amended STM32F4XX.sampleEnv LPC22XX.sampleEnv STM32F4XX.openState
    LPC22XX.openState 0 (by decide) (by decide) (fun _ => 0) (by decide) (by decide)
    (by decide) (by decide)).2

/-! ## Further facts used by the claims on IoCtl, Read and Write -/

/-- A mask of `n` ones shifted left by `k` selects the bits `k .. k+n-1`. -/
theorem and_shifted_mask (x k n : Nat) :
    x &&& (2 ^ k * (2 ^ n - 1)) = 2 ^ k * (x / 2 ^ k % 2 ^ n) := by
  apply Nat.eq_of_testBit_eq
  intro j
  rw [Nat.testBit_and, Nat.testBit_mul_pow_two, Nat.testBit_mul_pow_two,
    Nat.testBit_two_pow_sub_one, Nat.testBit_mod_two_pow]
  by_cases h : k ≤ j
  · have e2 : x / 2 ^ k = x >>> k := by rw [Nat.shiftRight_eq_div_pow]
    have e3 : k + (j - k) = j := by omega
    simp [h, e2, Nat.testBit_shiftRight, e3, Bool.and_comm]
  · simp [h]

theorem and_07 (x : Nat) : x &&& 0x07 = x % 8 := Nat.and_pow_two_sub_one_eq_mod x 3
theorem and_20 (x : Nat) : x &&& 0x20 = (x / 32 % 2) * 32 := and_two_pow_eq x 5
theorem and_40 (x : Nat) : x &&& 0x40 = (x / 64 % 2) * 64 := and_two_pow_eq x 6
theorem and_60 (x : Nat) : x &&& 0x60 = 32 * (x / 32 % 4) := and_shifted_mask x 5 2

/-- C12: a read on an open device with no receive-pending condition (STM32F4: no frame
pending in FIFO 0 nor in FIFO 1; LPC22XX: bit 0 of the global status register of the
addressed controller clear) returns -1 at once and changes nothing but the last error,
which becomes `NO_DATA_ERR`: the frame buffer and every register are as before. -/
theorem C12_read_empty (sS : STM32F4XX.State) (sL : LPC22XX.State) (h : Int) (h0 : 0 ≤ h)
    (h2 : h < 2) (frmS : STM32F4XX.STM32F4XX_CANFRM) (frmL : LPC22XX.LPC22XX_CANFRM)
    (hUS : (sS.DevData h.toNat).Use = 1) (hUL : (sL.DevData h.toNat).Use = 1)
    (hR0 : (sS.mem (sS.DevData h.toNat).Base).RF0R &&& 0x03 = 0)
    (hR1 : (sS.mem (sS.DevData h.toNat).Base).RF1R &&& 0x03 = 0)
    (hG : (if h = 0 then sL.C1GSR else sL.C2GSR) &&& 1 = 0) :
    STM32F4XX.STM32F4XXCANRead sS h (some frmS) STM32F4XX.sizeof_CANFRM
      = (-1, { sS with DrvError := STM32F4XX.STM32F4XX_CAN_NO_DATA_ERR }, some frmS) ∧
    LPC22XX.LPC22XXCANRead sL h (some frmL) LPC22XX.sizeof_CANFRM
      = (-1, { sL with DrvError := LPC22XX.LPC22XX_CAN_NO_DATA_ERR }, some frmL) := by
  constructor
  · simp [STM32F4XX.STM32F4XXCANRead, STM32F4XX.f4_not_out_of_range h h0 h2, hUS,
      STM32F4XX.FIFONumber, hR0, hR1, STM32F4XX.CPU_CRITICAL_ENTER, STM32F4XX.CPU_CRITICAL_EXIT]
  · have hc : h = 0 ∨ h = 1 := by omega
    rcases hc with rfl | rfl
    · simp at hG hUL
      simp [LPC22XX.LPC22XXCANRead, LPC22XX.LPC22XX_CAN_N_DEV, hUL, LPC22XX.readBus, hG,
        LPC22XX.LPC22XX_CAN_BUS_0, LPC22XX.CPU_CRITICAL_ENTER, LPC22XX.CPU_CRITICAL_EXIT]
    · simp at hG hUL
      simp [LPC22XX.LPC22XXCANRead, LPC22XX.LPC22XX_CAN_N_DEV, hUL, LPC22XX.readBus, hG,
        LPC22XX.LPC22XX_CAN_BUS_0, LPC22XX.LPC22XX_CAN_BUS_1, LPC22XX.CPU_CRITICAL_ENTER,
        LPC22XX.CPU_CRITICAL_EXIT]

/-- C13: a write on an open device when no transmit slot is free returns -1 with the last
error `BUSY_ERR`. On STM32F4 (none of `TME0`, `TME1`, `TME2` set in `TSR`) nothing else
changes: no register of any mailbox and no other register. On LPC22XX (bit 2 of `SR`
clear) the only register written is the command register of the addressed controller,
which receives the abort command `0x02`; the transmit buffer registers are unchanged (the
call returns from inside the critical section, so the nesting level stays incremented). -/
theorem C13_write_busy (sS : STM32F4XX.State) (sL : LPC22XX.State) (h : Int) (h0 : 0 ≤ h)
    (h2 : h < 2) (frmS : STM32F4XX.STM32F4XX_CANFRM) (frmL : LPC22XX.LPC22XX_CANFRM)
    (hUS : (sS.DevData h.toNat).Use = 1) (hUL : (sL.DevData h.toNat).Use = 1)
    (hT0 : (sS.mem (sS.DevData h.toNat).Base).TSR &&& STM32F4XX.STM32F4XX_CAN_TSR_TME0 = 0)
    (hT1 : (sS.mem (sS.DevData h.toNat).Base).TSR &&& STM32F4XX.STM32F4XX_CAN_TSR_TME1 = 0)
    (hT2 : (sS.mem (sS.DevData h.toNat).Base).TSR &&& STM32F4XX.STM32F4XX_CAN_TSR_TME2 = 0)
    (hSR : (if h = 0 then sL.C1SR else sL.C2SR) &&& 0x04 = 0) :
    STM32F4XX.STM32F4XXCANWrite sS h (some frmS) STM32F4XX.sizeof_CANFRM
      = (-1, { sS with DrvError := STM32F4XX.STM32F4XX_CAN_BUSY_ERR }) ∧
    (h = 0 → LPC22XX.LPC22XXCANWrite sL h (some frmL) LPC22XX.sizeof_CANFRM
      = (-1, { sL with C1CMR := 0x02, DrvError := LPC22XX.LPC22XX_CAN_BUSY_ERR,
                       IntNest := sL.IntNest + 1 })) ∧
    (h = 1 → LPC22XX.LPC22XXCANWrite sL h (some frmL) LPC22XX.sizeof_CANFRM
      = (-1, { sL with C2CMR := 0x02, DrvError := LPC22XX.LPC22XX_CAN_BUSY_ERR,
                       IntNest := sL.IntNest + 1 })) := by
  refine ⟨?_, ?_, ?_⟩
  · have hm : STM32F4XX.TransmitMailbox (sS.mem (sS.DevData h.toNat).Base).TSR = -1 := by
      unfold STM32F4XX.TransmitMailbox
      rw [hT0, hT1, hT2]
      simp [STM32F4XX.STM32F4XX_CAN_TSR_TME0, STM32F4XX.STM32F4XX_CAN_TSR_TME1,
        STM32F4XX.STM32F4XX_CAN_TSR_TME2]
    simp [STM32F4XX.STM32F4XXCANWrite, STM32F4XX.f4_not_out_of_range h h0 h2, hUS, hm,
      STM32F4XX.CPU_CRITICAL_ENTER, STM32F4XX.CPU_CRITICAL_EXIT]
  · rintro rfl
    simp at hSR hUL
    simp [LPC22XX.LPC22XXCANWrite, LPC22XX.LPC22XX_CAN_N_DEV, hUL, hSR,
      LPC22XX.LPC22XX_CAN_BUS_0, LPC22XX.CPU_CRITICAL_ENTER]
  · rintro rfl
    simp at hSR hUL
    simp [LPC22XX.LPC22XXCANWrite, LPC22XX.LPC22XX_CAN_N_DEV, hUL, hSR,
      LPC22XX.LPC22XX_CAN_BUS_0, LPC22XX.LPC22XX_CAN_BUS_1, LPC22XX.CPU_CRITICAL_ENTER]

/-- The byte the three tests of the STM32F4 node status case leave in the output. -/
theorem f4_nodeStatus_value (x : Nat) (argp : Nat → Nat) :
    (if x &&& 0x07 = 0 then
        write8 (if x &&& 0x04 ≠ 0 then
          write8 (if x &&& 0x03 ≠ 0 then write8 argp 0 1 else argp) 0 2
          else (if x &&& 0x03 ≠ 0 then write8 argp 0 1 else argp)) 0 0
      else (if x &&& 0x04 ≠ 0 then
          write8 (if x &&& 0x03 ≠ 0 then write8 argp 0 1 else argp) 0 2
          else (if x &&& 0x03 ≠ 0 then write8 argp 0 1 else argp)))
      = write8 argp 0 (if x &&& 0x04 ≠ 0 then 2 else if x &&& 0x03 ≠ 0 then 1 else 0) := by
  rw [and_07, and_04, and_03]
  by_cases a : x % 4 = 0 <;> by_cases b : x / 4 % 2 = 0
  · have c : x % 8 = 0 := by omega
    simp [a, b, c, write8]
  · have c : ¬ x % 8 = 0 := by omega
    simp [a, b, c, write8]
  · have c : ¬ x % 8 = 0 := by omega
    simp [a, b, c, write8]
  · have c : ¬ x % 8 = 0 := by omega
    simp [a, b, c, write8]

/-- The byte the three tests of the LPC22XX node status case leave in the output. -/
theorem lpc_nodeStatus_value (x : Nat) (argp : Nat → Nat) :
    (if x &&& 0x60 = 0 then
        write8 (if x &&& 0x40 ≠ 0 then
          write8 (if x &&& 0x20 ≠ 0 then write8 argp 0 1 else argp) 0 2
          else (if x &&& 0x20 ≠ 0 then write8 argp 0 1 else argp)) 0 0
      else (if x &&& 0x40 ≠ 0 then
          write8 (if x &&& 0x20 ≠ 0 then write8 argp 0 1 else argp) 0 2
          else (if x &&& 0x20 ≠ 0 then write8 argp 0 1 else argp)))
      = write8 argp 0 (if x &&& 0x40 ≠ 0 then 2 else if x &&& 0x20 ≠ 0 then 1 else 0) := by
  rw [and_60, and_40, and_20]
  by_cases a : x / 32 % 2 = 0 <;> by_cases b : x / 64 % 2 = 0
  · have c : x / 32 % 4 = 0 := by omega
    simp [a, b, c, write8]
  · have c : ¬ x / 32 % 4 = 0 := by omega
    simp [a, b, c, write8]
  · have c : ¬ x / 32 % 4 = 0 := by omega
    simp [a, b, c, write8]
  · have c : ¬ x / 32 % 4 = 0 := by omega
    simp [a, b, c, write8]

/-- The call of GetNodeStatus on an open device of either driver: result 0, state
unchanged, one store of the status value to the output byte. -/
theorem node_status_result (envS : STM32F4XX.Env) (envL : LPC22XX.Env) (sS : STM32F4XX.State)
    (sL : LPC22XX.State) (h : Int) (h0 : 0 ≤ h) (h2 : h < 2) (argp : Nat → Nat)
    (hUS : (sS.DevData h.toNat).Use = 1) (hUL : (sL.DevData h.toNat).Use = 1) :
    STM32F4XX.STM32F4XXCANIoCtl envS sS h STM32F4XX.IO_STM32F4XX_CAN_GET_NODE_STATUS argp
      = (0, sS, write8 argp 0
          (if (sS.mem (sS.DevData h.toNat).Base).ESR &&& 0x04 ≠ 0 then 2
            else if (sS.mem (sS.DevData h.toNat).Base).ESR &&& 0x03 ≠ 0 then 1 else 0)) ∧
    LPC22XX.LPC22XXCANIoCtl envL sL h LPC22XX.IO_LPC22XX_CAN_GET_NODE_STATUS argp
      = (0, sL, write8 argp 0
          (if (if h = 0 then sL.C1GSR else sL.C2GSR) &&& 0x40 ≠ 0 then 2
            else if (if h = 0 then sL.C1GSR else sL.C2GSR) &&& 0x20 ≠ 0 then 1 else 0)) := by
  constructor
  · have hv := f4_nodeStatus_value (sS.mem (sS.DevData h.toNat).Base).ESR argp
    simp only [STM32F4XX.STM32F4XXCANIoCtl, STM32F4XX.f4_not_out_of_range h h0 h2, if_false, hUS,
      ne_eq, not_true_eq_false, STM32F4XX.IoCtlSwitch, STM32F4XX.CPU_CRITICAL_ENTER,
      STM32F4XX.CPU_CRITICAL_EXIT]
    simp [STM32F4XX.IO_STM32F4XX_CAN_GET_NODE_STATUS, STM32F4XX.IO_STM32F4XX_CAN_GET_IDENT,
      STM32F4XX.IO_STM32F4XX_CAN_GET_ERRNO, STM32F4XX.IO_STM32F4XX_CAN_GET_DRVNAME,
      STM32F4XX.IO_STM32F4XX_CAN_SET_BAUDRATE, STM32F4XX.IO_STM32F4XX_CAN_TX_READY,
      STM32F4XX.IO_STM32F4XX_CAN_START, STM32F4XX.IO_STM32F4XX_CAN_STOP,
      STM32F4XX.IO_STM32F4XX_CAN_RX_STANDARD, STM32F4XX.IO_STM32F4XX_CAN_RX_EXTENDED,
      STM32F4XX.STM32F4XX_CAN_NO_ERR]
    simpa using hv
  · have hv := lpc_nodeStatus_value (if h = 0 then sL.C1GSR else sL.C2GSR) argp
    have e : (if h.toNat = LPC22XX.LPC22XX_CAN_BUS_0 then sL.C1GSR else sL.C2GSR)
        = (if h = 0 then sL.C1GSR else sL.C2GSR) := by
      have hc : h = 0 ∨ h = 1 := by omega
      rcases hc with rfl | rfl <;> simp [LPC22XX.LPC22XX_CAN_BUS_0]
    simp only [LPC22XX.LPC22XXCANIoCtl, LPC22XX.lpc_not_out_of_range h h0 h2, if_false, hUL,
      ne_eq, not_true_eq_false, LPC22XX.IoCtlSwitch, LPC22XX.CPU_CRITICAL_ENTER,
      LPC22XX.CPU_CRITICAL_EXIT, LPC22XX.nodeStatus, e]
    simp [LPC22XX.IO_LPC22XX_CAN_GET_NODE_STATUS, LPC22XX.IO_LPC22XX_CAN_GET_IDENT,
      LPC22XX.IO_LPC22XX_CAN_GET_ERRNO, LPC22XX.IO_LPC22XX_CAN_GET_DRVNAME,
      LPC22XX.IO_LPC22XX_CAN_SET_BAUDRATE, LPC22XX.IO_LPC22XX_CAN_TX_READY,
      LPC22XX.IO_LPC22XX_CAN_START, LPC22XX.IO_LPC22XX_CAN_STOP,
      LPC22XX.IO_LPC22XX_CAN_RX_STANDARD, LPC22XX.IO_LPC22XX_CAN_RX_EXTENDED,
      LPC22XX.LPC22XX_CAN_NO_ERR]
    simpa using hv

/-- Witness of C12: bus 0 of the open sample states, where no frame is pending. -/
theorem C12_read_empty_witness :
    STM32F4XX.STM32F4XXCANRead STM32F4XX.openState 0 (some STM32F4XX.zeroFrm)
        STM32F4XX.sizeof_CANFRM
      = (-1, { STM32F4XX.openState with DrvError := STM32F4XX.STM32F4XX_CAN_NO_DATA_ERR },
          some STM32F4XX.zeroFrm) :=
  (C12_read_empty STM32F4XX.openState LPC22XX.openState 0 (by decide) (by decide)
    STM32F4XX.zeroFrm ⟨0, fun _ => 0, 0, fun _ => 0⟩ (by decide) (by decide) (by decide)
    (by decide) (by decide)).1

/-- Witness of C13: bus 0 of the busy sample states. -/
theorem C13_write_busy_witness :
    STM32F4XX.STM32F4XXCANWrite STM32F4XX.busyState 0 (some (STM32F4XX.sampleFrm 0x123))
        STM32F4XX.sizeof_CANFRM
      = (-1, { STM32F4XX.busyState with DrvError := STM32F4XX.STM32F4XX_CAN_BUSY_ERR }) :=
  (C13_write_busy STM32F4XX.busyState LPC22XX.busyState 0 (by decide) (by decide)
    (STM32F4XX.sampleFrm 0x123) ⟨0x123, fun _ => 0, 0, fun _ => 0⟩ (by decide) (by decide)
    (by decide) (by decide) (by decide) (by decide)).1

/-- The byte a `CPU_INT08U` store leaves at its address. -/
theorem write8_at (b : Nat → Nat) (off v : Nat) (hv : v < 256) : write8 b off v off = v := by
  simp [write8, upd, Nat.mod_eq_of_lt hv]

/-- A `CPU_INT08U` store leaves every other byte as it is. -/
theorem write8_other (b : Nat → Nat) (off v k : Nat) (hk : k ≠ off) :
    write8 b off v k = b k := by
  simp [write8, upd, hk]

/-- C14: GetNodeStatus on an open device returns 0, changes no state and leaves in the
output byte (byte 0 behind the argument pointer, every other byte untouched) exactly one
of 0 (active), 1 (warning), 2 (bus off), with the priority bus off, then warning, then
active: 2 whenever the bus-off bit of the raw status is set (STM32F4 `ESR` mask `0x04`,
LPC22XX `GSR` mask `0x40`), also when warning bits are set; 1 when only warning or passive
bits are set (masks `0x03`, `0x20`); 0 when none of these bits is set. -/
theorem C14_node_status (envS : STM32F4XX.Env) (envL : LPC22XX.Env) (sS : STM32F4XX.State)
    (sL : LPC22XX.State) (h : Int) (h0 : 0 ≤ h) (h2 : h < 2) (argp : Nat → Nat)
    (hUS : (sS.DevData h.toNat).Use = 1) (hUL : (sL.DevData h.toNat).Use = 1) :
    (STM32F4XX.STM32F4XXCANIoCtl envS sS h STM32F4XX.IO_STM32F4XX_CAN_GET_NODE_STATUS argp
        = (0, sS, write8 argp 0
            (if (sS.mem (sS.DevData h.toNat).Base).ESR &&& 0x04 ≠ 0 then 2
              else if (sS.mem (sS.DevData h.toNat).Base).ESR &&& 0x03 ≠ 0 then 1 else 0)) ∧
      (STM32F4XX.STM32F4XXCANIoCtl envS sS h STM32F4XX.IO_STM32F4XX_CAN_GET_NODE_STATUS
          argp).2.2 0
        = (if (sS.mem (sS.DevData h.toNat).Base).ESR &&& 0x04 ≠ 0 then 2
            else if (sS.mem (sS.DevData h.toNat).Base).ESR &&& 0x03 ≠ 0 then 1 else 0) ∧
      (∀ k, k ≠ 0 →
        (STM32F4XX.STM32F4XXCANIoCtl envS sS h STM32F4XX.IO_STM32F4XX_CAN_GET_NODE_STATUS
          argp).2.2 k = argp k)) ∧
    (LPC22XX.LPC22XXCANIoCtl envL sL h LPC22XX.IO_LPC22XX_CAN_GET_NODE_STATUS argp
        = (0, sL, write8 argp 0
            (if (if h = 0 then sL.C1GSR else sL.C2GSR) &&& 0x40 ≠ 0 then 2
              else if (if h = 0 then sL.C1GSR else sL.C2GSR) &&& 0x20 ≠ 0 then 1 else 0)) ∧
      (LPC22XX.LPC22XXCANIoCtl envL sL h LPC22XX.IO_LPC22XX_CAN_GET_NODE_STATUS argp).2.2 0
        = (if (if h = 0 then sL.C1GSR else sL.C2GSR) &&& 0x40 ≠ 0 then 2
            else if (if h = 0 then sL.C1GSR else sL.C2GSR) &&& 0x20 ≠ 0 then 1 else 0) ∧
      (∀ k, k ≠ 0 →
        (LPC22XX.LPC22XXCANIoCtl envL sL h LPC22XX.IO_LPC22XX_CAN_GET_NODE_STATUS argp).2.2 k
          = argp k)) := by
  obtain ⟨rS, rL⟩ := node_status_result envS envL sS sL h h0 h2 argp hUS hUL
  refine ⟨⟨rS, ?_, ?_⟩, ⟨rL, ?_, ?_⟩⟩
  · rw [rS]
    exact write8_at argp 0 _ (by split_ifs <;> decide)
  · intro k hk
    rw [rS]
    exact write8_other argp 0 _ k hk
  · rw [rL]
    exact write8_at argp 0 _ (by split_ifs <;> decide)
  · intro k hk
    rw [rL]
    exact write8_other argp 0 _ k hk

/-- Witness of C14: bus 0 of the open sample states, where no status bit is set: the
output byte, `0xFF` before the call, is 0 after it. -/
theorem C14_node_status_witness :
    (STM32F4XX.STM32F4XXCANIoCtl STM32F4XX.sampleEnv STM32F4XX.openState 0
      STM32F4XX.IO_STM32F4XX_CAN_GET_NODE_STATUS (fun _ => 0xFF)).2.2 0 = 0 ∧
    (LPC22XX.LPC22XXCANIoCtl LPC22XX.sampleEnv LPC22XX.openState 0
      LPC22XX.IO_LPC22XX_CAN_GET_NODE_STATUS (fun _ => 0xFF)).2.2 0 = 0 :=
  ⟨(C14_node_status STM32F4XX.sampleEnv LPC22XX.sampleEnv STM32F4XX.openState
      LPC22XX.openState 0 (by decide) (by decide) (fun _ => 0xFF) (by decide)
      (by decide)).1.2.1.trans (by decide),
    (C14_node_status STM32F4XX.sampleEnv LPC22XX.sampleEnv STM32F4XX.openState
      LPC22XX.openState 0 (by decide) (by decide) (fun _ => 0xFF) (by decide)
      (by decide)).2.2.1.trans (by decide)⟩

/-- C20: for a function code that is none of the enumerated IoCtl functions, IoCtl on an
open device returns -1 and changes nothing but the last error, which becomes `FUNC_ERR`:
no hardware register, no registry field and no byte behind the argument pointer changes
(both drivers). -/
theorem C20_unknown_function (envS : STM32F4XX.Env) (envL : LPC22XX.Env)
    (sS : STM32F4XX.State) (sL : LPC22XX.State) (h : Int) (h0 : 0 ≤ h) (h2 : h < 2)
    (func : Nat) (argp : Nat → Nat)
    (hUS : (sS.DevData h.toNat).Use = 1) (hUL : (sL.DevData h.toNat).Use = 1)
    (hfS : func ∉ STM32F4XX.ioFunctions) (hfL : func ∉ LPC22XX.ioFunctions) :
    STM32F4XX.STM32F4XXCANIoCtl envS sS h func argp
      = (-1, { sS with DrvError := STM32F4XX.STM32F4XX_CAN_FUNC_ERR }, argp) ∧
    LPC22XX.LPC22XXCANIoCtl envL sL h func argp
      = (-1, { sL with DrvError := LPC22XX.LPC22XX_CAN_FUNC_ERR }, argp) := by
  simp only [STM32F4XX.ioFunctions, List.mem_cons, List.mem_singleton, not_or] at hfS
  simp only [LPC22XX.ioFunctions, List.mem_cons, List.mem_singleton, not_or] at hfL
  obtain ⟨a1, a2, a3, a4, a5, a6, a7, a8, a9, a10, a11, a12⟩ := hfS
  obtain ⟨b1, b2, b3, b4, b5, b6, b7, b8, b9, b10, b11, b12, b13, b14⟩ := hfL
  constructor
  · simp [STM32F4XX.STM32F4XXCANIoCtl, STM32F4XX.f4_not_out_of_range h h0 h2, hUS,
      STM32F4XX.IoCtlSwitch, a1, a2, a3, a4, a5, a6, a7, a8, a9, a10, a11, a12,
      STM32F4XX.CPU_CRITICAL_ENTER, STM32F4XX.CPU_CRITICAL_EXIT]
  · simp [LPC22XX.LPC22XXCANIoCtl, LPC22XX.lpc_not_out_of_range h h0 h2, hUL,
      LPC22XX.IoCtlSwitch, b1, b2, b3, b4, b5, b6, b7, b8, b9, b10, b11, b12, b13, b14,
      LPC22XX.CPU_CRITICAL_ENTER, LPC22XX.CPU_CRITICAL_EXIT]

/-- Witness of C20: the function code `0x20` on bus 0 of the open sample states. -/
theorem C20_unknown_function_witness :
    STM32F4XX.STM32F4XXCANIoCtl STM32F4XX.sampleEnv STM32F4XX.openState 0 0x20 (fun _ => 0)
      = (-1, { STM32F4XX.openState with DrvError := STM32F4XX.STM32F4XX_CAN_FUNC_ERR },
          fun _ => 0) :=
  (C20_unknown_function STM32F4XX.sampleEnv LPC22XX.sampleEnv STM32F4XX.openState
    LPC22XX.openState 0 (by decide) (by decide) 0x20 (fun _ => 0) (by decide) (by decide)
    (by decide) (by decide)).1

/-- Counterexample to C11 as stated: on bus 0 of the open sample state the record holds
the baud rate 1000000 applied by `Init`; the SetBaudRate IoCtl with the rejected rate 0
returns -1, leaves the timing register as it was and leaves 0 in the `Baudrate` field. -/
theorem C11_baudrate_field_counterexample :
    (STM32F4XX.openState.DevData 0).Baudrate = 1000000 ∧
    (STM32F4XX.STM32F4XXCANIoCtl STM32F4XX.sampleEnv STM32F4XX.openState 0
      STM32F4XX.IO_STM32F4XX_CAN_SET_BAUDRATE (fun _ => 0)).1 = -1 ∧
    ((STM32F4XX.STM32F4XXCANIoCtl STM32F4XX.sampleEnv STM32F4XX.openState 0
      STM32F4XX.IO_STM32F4XX_CAN_SET_BAUDRATE (fun _ => 0)).2.1.DevData 0).Baudrate = 0 ∧
    ((STM32F4XX.STM32F4XXCANIoCtl STM32F4XX.sampleEnv STM32F4XX.openState 0
      STM32F4XX.IO_STM32F4XX_CAN_SET_BAUDRATE (fun _ => 0)).2.1.mem
        STM32F4XX.STM32F4XX_CAN1_BASE).BTR
      = (STM32F4XX.openState.mem STM32F4XX.STM32F4XX_CAN1_BASE).BTR := by
  decide

/-- C11 (amended): after a SetBaudRate IoCtl on the STM32F4 driver that fails because the
rate is unsupported, every hardware register (the timing register among them) is
unchanged and the device record is the one the timing resolver leaves from the record in
which the requested rate was stored; when the resolver leaves the `Baudrate` field alone,
that field holds the requested, rejected rate. -/
theorem C11_baudrate_field_amended (env : STM32F4XX.Env) (s : STM32F4XX.State) (h : Int)
    (h0 : 0 ≤ h) (h2 : h < 2) (argp : Nat → Nat) (hU : (s.DevData h.toNat).Use = 1)
    (hfail : (env.CalcTimingReg { s.DevData h.toNat with Baudrate := read32 argp 0 }).1
      ≠ Int.ofNat STM32F4XX.STM32F4XX_CAN_NO_ERR)
    (hkeep : (env.CalcTimingReg { s.DevData h.toNat with Baudrate := read32 argp 0 }).2.Baudrate
      = read32 argp 0) :
    (STM32F4XX.STM32F4XXCANIoCtl env s h STM32F4XX.IO_STM32F4XX_CAN_SET_BAUDRATE argp).2.1.mem
      = s.mem ∧
    (STM32F4XX.STM32F4XXCANIoCtl env s h STM32F4XX.IO_STM32F4XX_CAN_SET_BAUDRATE
        argp).2.1.DevData h.toNat
      = (env.CalcTimingReg { s.DevData h.toNat with Baudrate := read32 argp 0 }).2 ∧
    ((STM32F4XX.STM32F4XXCANIoCtl env s h STM32F4XX.IO_STM32F4XX_CAN_SET_BAUDRATE
        argp).2.1.DevData h.toNat).Baudrate = read32 argp 0 := by
  have r := STM32F4XX.f4_not_out_of_range h h0 h2
  have hf2 := hfail
  simp [hU] at hf2
  have e : STM32F4XX.STM32F4XXCANIoCtl env s h STM32F4XX.IO_STM32F4XX_CAN_SET_BAUDRATE argp
      = (-1, { STM32F4XX.setDev s h.toNat
          (env.CalcTimingReg { s.DevData h.toNat with Baudrate := read32 argp 0 }).2 with
          DrvError := STM32F4XX.STM32F4XX_CAN_FUNC_ERR }, argp) := by
    simp [STM32F4XX.STM32F4XXCANIoCtl, r, hU, STM32F4XX.IoCtlSwitch, hf2,
      STM32F4XX.IO_STM32F4XX_CAN_SET_BAUDRATE, STM32F4XX.IO_STM32F4XX_CAN_GET_IDENT,
      STM32F4XX.IO_STM32F4XX_CAN_GET_ERRNO, STM32F4XX.IO_STM32F4XX_CAN_GET_DRVNAME,
      STM32F4XX.CPU_CRITICAL_ENTER, STM32F4XX.CPU_CRITICAL_EXIT, STM32F4XX.setDev]
  rw [e]
  refine ⟨rfl, ?_, ?_⟩
  · simp [STM32F4XX.setDev]
  · simp [STM32F4XX.setDev, hkeep]

/-- Witness of C11 (amended): the rejected rate 0 on bus 0 of the open sample state. -/
theorem C11_baudrate_field_amended_witness :
    ((STM32F4XX.STM32F4XXCANIoCtl STM32F4XX.sampleEnv STM32F4XX.openState 0
      STM32F4XX.IO_STM32F4XX_CAN_SET_BAUDRATE (fun _ => 0)).2.1.DevData (0 : Int).toNat).Baudrate
      = read32 (fun _ => 0) 0 :=
  (C11_baudrate_field_amended STM32F4XX.sampleEnv STM32F4XX.openState 0 (by decide)
    (by decide) (fun _ => 0) (by decide) (by decide) (by decide)).2.2

/-! ## Last error and result of every entry point -/

/-- A loop keeps every observation of the state that its body keeps. -/
theorem forLoop_inv {α β : Type} (f : α → β) (body : Nat → α → α)
    (hb : ∀ i a, f (body i a) = f a) (lo hi : Nat) (a : α) :
    f (forLoop lo hi body a) = f a := by
  unfold forLoop
  generalize List.range' lo (hi - lo) = l
  induction l generalizing a with
  | nil => rfl
  | cons x xs ih => simp only [List.foldl_cons]; rw [ih, hb]

theorem switchOutcome_ite {σ : Type} (err : σ → Nat) (e : Nat) (c : Prop) [Decidable c]
    (a b : Int × σ × (Nat → Nat)) :
    switchOutcome err e (if c then a else b)
      ↔ (c → switchOutcome err e a) ∧ (¬ c → switchOutcome err e b) := by
  by_cases h : c <;> simp [h]

theorem switchOutcome_zero {σ : Type} (err : σ → Nat) (e : Nat) (s : σ) (a : Nat → Nat) :
    switchOutcome err e (0, s, a) ↔ err s = e := by
  simp [switchOutcome]

theorem switchOutcome_ofNat_zero {σ : Type} (err : σ → Nat) (e : Nat) (s : σ)
    (a : Nat → Nat) : switchOutcome err e (Int.ofNat 0, s, a) ↔ err s = e :=
  switchOutcome_zero err e s a

theorem switchOutcome_fail {σ : Type} (err : σ → Nat) (e : Nat) (s : σ) (a : Nat → Nat) :
    switchOutcome err e (-1, s, a) := by
  simp [switchOutcome]

theorem pairOutcome_ite {σ : Type} (err : σ → Nat) (e0 : Nat) (c : Prop) [Decidable c]
    (a b : Int × σ) :
    pairOutcome err e0 (if c then a else b)
      ↔ (c → pairOutcome err e0 a) ∧ (¬ c → pairOutcome err e0 b) := by
  by_cases h : c <;> simp [h]

theorem pairOutcome_fail {σ : Type} (err : σ → Nat) (e0 : Nat) (s : σ) :
    pairOutcome err e0 (-1, s) ↔ err s ≠ 0 := by
  simp [pairOutcome, entryOutcome]

theorem pairOutcome_ofNat {σ : Type} (err : σ → Nat) (e0 n : Nat) (s : σ) :
    pairOutcome err e0 (Int.ofNat n, s) ↔ err s = e0 := by
  have h1 : ¬ Int.ofNat n = -1 := by
    intro h
    have : (0 : Int) ≤ Int.ofNat n := Int.ofNat_nonneg n
    omega
  have h2 : (0 : Int) ≤ Int.ofNat n := Int.ofNat_nonneg n
  simp [pairOutcome, entryOutcome, h1, h2]

theorem tripleOutcome_ite {σ β : Type} (err : σ → Nat) (e0 : Nat) (c : Prop) [Decidable c]
    (a b : Int × σ × β) :
    tripleOutcome err e0 (if c then a else b)
      ↔ (c → tripleOutcome err e0 a) ∧ (¬ c → tripleOutcome err e0 b) := by
  by_cases h : c <;> simp [h]

theorem tripleOutcome_fail {σ β : Type} (err : σ → Nat) (e0 : Nat) (s : σ) (b : β) :
    tripleOutcome err e0 (-1, s, b) ↔ err s ≠ 0 := by
  simp [tripleOutcome, entryOutcome]

theorem tripleOutcome_ofNat {σ β : Type} (err : σ → Nat) (e0 n : Nat) (s : σ) (b : β) :
    tripleOutcome err e0 (Int.ofNat n, s, b) ↔ err s = e0 := by
  have h1 : ¬ Int.ofNat n = -1 := by
    intro h
    have : (0 : Int) ≤ Int.ofNat n := Int.ofNat_nonneg n
    omega
  have h2 : (0 : Int) ≤ Int.ofNat n := Int.ofNat_nonneg n
  simp [tripleOutcome, entryOutcome, h1, h2]

namespace STM32F4XX

@[simp] theorem f4_modCan_DrvError (s : State) (b : Nat) (f : STM32F4XX_CAN_t → STM32F4XX_CAN_t) :
    (modCan s b f).DrvError = s.DrvError := rfl

@[simp] theorem f4_setDev_DrvError (s : State) (i : Nat) (d : STM32F4XX_CAN_DATA) :
    (setDev s i d).DrvError = s.DrvError := rfl

@[simp] theorem f4_forLoop_DrvError (body : Nat → State → State)
    (hb : ∀ i a, (body i a).DrvError = a.DrvError) (lo hi : Nat) (a : State) :
    (forLoop lo hi body a).DrvError = a.DrvError :=
  forLoop_inv State.DrvError body hb lo hi a

/-- The switch of `STM32F4XXCANIoCtl` yields -1, or 0 with the last error untouched. -/
theorem f4_switch_outcome (env : Env) (s : State) (i can func : Nat) (argp : Nat → Nat) :
    switchOutcome State.DrvError s.DrvError (IoCtlSwitch env s i can func argp) := by
  simp only [IoCtlSwitch, STM32F4XX_CAN_NO_ERR, switchOutcome_ite, switchOutcome_ofNat_zero,
    switchOutcome_fail, f4_modCan_DrvError, f4_setDev_DrvError]
  simp [apply_ite State.DrvError, f4_forLoop_DrvError]

theorem f4_ioctl_outcome (env : Env) (s : State) (paraId : Int) (func : Nat)
    (argp : Nat → Nat) :
    tripleOutcome State.DrvError s.DrvError (STM32F4XXCANIoCtl env s paraId func argp) := by
  by_cases h1 : paraId ≥ STM32F4XX_CAN_N_DEV ∨ paraId < 0
  · simp [STM32F4XXCANIoCtl, h1, tripleOutcome_fail, STM32F4XX_CAN_BUS_ERR]
  · by_cases h2 : (s.DevData paraId.toNat).Use = 1
    · rcases f4_switch_outcome env (CPU_CRITICAL_ENTER s) paraId.toNat
        (s.DevData paraId.toNat).Base func argp with h | ⟨h, he⟩
      · simp [STM32F4XXCANIoCtl, h1, h2, h, tripleOutcome, entryOutcome, STM32F4XX_CAN_FUNC_ERR]
      · have h3 : ¬ (IoCtlSwitch env (CPU_CRITICAL_ENTER s) paraId.toNat
            (s.DevData paraId.toNat).Base func argp).1 = -1 := by rw [h]; decide
        simp only [STM32F4XXCANIoCtl, h1, h2, h3, if_false, ne_eq, not_true_eq_false,
          tripleOutcome, entryOutcome]
        right
        exact ⟨by rw [h], by simpa [CPU_CRITICAL_EXIT, CPU_CRITICAL_ENTER] using he⟩
    · simp [STM32F4XXCANIoCtl, h1, h2, tripleOutcome_fail, STM32F4XX_CAN_OPEN_ERR]

theorem f4_open_outcome (env : Env) (s : State) (devId : Int) (devName mode : Nat) :
    pairOutcome State.DrvError s.DrvError (STM32F4XXCANOpen env s devId devName mode) := by
  simp only [STM32F4XXCANOpen, pairOutcome_ite, pairOutcome_fail, pairOutcome_ofNat]
  simp [STM32F4XX_CAN_BUS_ERR, STM32F4XX_CAN_MODE_ERR, STM32F4XX_CAN_OPEN_ERR,
    CPU_CRITICAL_EXIT, CPU_CRITICAL_ENTER, apply_ite State.DrvError, setDev]

theorem f4_close_outcome (s : State) (paraId : Int) :
    pairOutcome State.DrvError s.DrvError (STM32F4XXCANClose s paraId) := by
  simp only [STM32F4XXCANClose, pairOutcome_ite, pairOutcome_fail, pairOutcome_ofNat]
  simp [STM32F4XX_CAN_BUS_ERR, STM32F4XX_CAN_CLOSE_ERR, CPU_CRITICAL_EXIT, CPU_CRITICAL_ENTER,
    setDev]

theorem f4_read_outcome (s : State) (paraId : Int) (buffer : Option STM32F4XX_CANFRM)
    (size : Nat) :
    tripleOutcome State.DrvError s.DrvError (STM32F4XXCANRead s paraId buffer size) := by
  cases buffer <;>
  · simp only [STM32F4XXCANRead, tripleOutcome_ite, tripleOutcome_fail, tripleOutcome_ofNat]
    simp [STM32F4XX_CAN_BUS_ERR, STM32F4XX_CAN_NO_DATA_ERR, STM32F4XX_CAN_ARG_ERR,
      STM32F4XX_CAN_OPEN_ERR, CPU_CRITICAL_EXIT, CPU_CRITICAL_ENTER]

theorem f4_write_outcome (s : State) (paraId : Int) (buffer : Option STM32F4XX_CANFRM)
    (size : Nat) :
    pairOutcome State.DrvError s.DrvError (STM32F4XXCANWrite s paraId buffer size) := by
  cases buffer <;>
  · simp only [STM32F4XXCANWrite, pairOutcome_ite, pairOutcome_fail, pairOutcome_ofNat]
    simp [STM32F4XX_CAN_BUS_ERR, STM32F4XX_CAN_NO_DATA_ERR, STM32F4XX_CAN_ARG_ERR,
      STM32F4XX_CAN_OPEN_ERR, STM32F4XX_CAN_BUSY_ERR, CPU_CRITICAL_EXIT, CPU_CRITICAL_ENTER,
      apply_ite State.DrvError]

/-- A successful `STM32F4XXCANInit` returns 0 and resets the last error. -/
theorem f4_init_ok (env : Env) (s : State) (arg : Nat) (h : arg < 2) :
    (STM32F4XXCANInit env s arg).1 = 0 ∧
    (STM32F4XXCANInit env s arg).2.DrvError = STM32F4XX_CAN_NO_ERR := by
  have h2 : ¬ arg ≥ STM32F4XX_CAN_N_DEV := by simp [STM32F4XX_CAN_N_DEV]; omega
  simp [STM32F4XXCANInit, h2, apply_ite State.DrvError, f4_forLoop_DrvError,
    STM32F4XX_CAN_NO_ERR]

end STM32F4XX

namespace LPC22XX

@[simp] theorem lpc_setDev_DrvError (s : State) (i : Nat) (d : LPC22XX_CAN_DATA) :
    (setDev s i d).DrvError = s.DrvError := rfl

@[simp] theorem lpc_forLoop_DrvError (body : Nat → State → State)
    (hb : ∀ i a, (body i a).DrvError = a.DrvError) (lo hi : Nat) (a : State) :
    (forLoop lo hi body a).DrvError = a.DrvError :=
  forLoop_inv State.DrvError body hb lo hi a

@[simp] theorem lpc_loadFilterTable_DrvError (env : Env) (s : State) (size : Nat)
    (tbl : Nat → Nat) : (loadFilterTable env s size tbl).DrvError = s.DrvError := by
  simp [loadFilterTable, lpc_forLoop_DrvError]

@[simp] theorem lpc_setMode_DrvError (s : State) (i v : Nat) :
    (setMode s i v).DrvError = s.DrvError := by
  unfold setMode
  split_ifs <;> rfl

/-- The baud rate loop keeps `result` in {-1, 0} and never touches the last error. -/
theorem lpc_baudLoop_outcome (i rate : Nat) (tbl : List LPC22XX_CAN_BAUD) (rs : Int × State)
    (e : Nat) (h : (rs.1 = -1 ∨ rs.1 = 0) ∧ rs.2.DrvError = e) :
    ((baudLoop i rate tbl rs).1 = -1 ∨ (baudLoop i rate tbl rs).1 = 0) ∧
      (baudLoop i rate tbl rs).2.DrvError = e := by
  induction tbl generalizing rs with
  | nil => simpa [baudLoop] using h
  | cons x xs ih =>
    unfold baudLoop
    split_ifs with h0 h1
    · exact h
    · apply ih
      unfold applyBaud
      split_ifs
      · exact ⟨Or.inr rfl, h.2⟩
      · exact ⟨Or.inr rfl, h.2⟩
      · exact h
    · exact ih rs h

/-- The switch of `LPC22XXCANIoCtl` yields -1, or 0 with the last error untouched. -/
theorem lpc_switch_outcome (env : Env) (s : State) (i func : Nat) (argp : Nat → Nat) :
    switchOutcome State.DrvError s.DrvError (IoCtlSwitch env s i func argp) := by
  have hb := lpc_baudLoop_outcome i (read32 argp 0) env.CanBaud (-1, s) s.DrvError
    ⟨Or.inl rfl, rfl⟩
  have hb2 : switchOutcome State.DrvError s.DrvError
      ((baudLoop i (read32 argp 0) env.CanBaud (-1, s)).1,
        (baudLoop i (read32 argp 0) env.CanBaud (-1, s)).2, argp) := by
    rcases hb with ⟨h | h, he⟩
    · exact Or.inl h
    · exact Or.inr ⟨h, he⟩
  simp only [IoCtlSwitch, LPC22XX_CAN_NO_ERR, switchOutcome_ite, switchOutcome_ofNat_zero,
    switchOutcome_fail, lpc_loadFilterTable_DrvError, lpc_setMode_DrvError]
  simp [hb2]

theorem lpc_ioctl_outcome (env : Env) (s : State) (paraId : Int) (func : Nat)
    (argp : Nat → Nat) :
    tripleOutcome State.DrvError s.DrvError (LPC22XXCANIoCtl env s paraId func argp) := by
  by_cases h1 : paraId ≥ LPC22XX_CAN_N_DEV ∨ paraId < 0
  · simp [LPC22XXCANIoCtl, h1, tripleOutcome_fail, LPC22XX_CAN_BUS_ERR]
  · by_cases h2 : (s.DevData paraId.toNat).Use = 1
    · rcases lpc_switch_outcome env (CPU_CRITICAL_ENTER s) paraId.toNat func argp
        with h | ⟨h, he⟩
      · simp [LPC22XXCANIoCtl, h1, h2, h, tripleOutcome, entryOutcome, LPC22XX_CAN_FUNC_ERR]
      · have h3 : ¬ (IoCtlSwitch env (CPU_CRITICAL_ENTER s) paraId.toNat func argp).1 = -1 := by
          rw [h]; decide
        simp only [LPC22XXCANIoCtl, h1, h2, h3, if_false, ne_eq, not_true_eq_false,
          tripleOutcome, entryOutcome]
        right
        exact ⟨by rw [h], by simpa [CPU_CRITICAL_EXIT, CPU_CRITICAL_ENTER] using he⟩
    · simp [LPC22XXCANIoCtl, h1, h2, tripleOutcome_fail, LPC22XX_CAN_OPEN_ERR]

theorem lpc_open_outcome (env : Env) (s : State) (devId : Int) (devName mode : Nat) :
    pairOutcome State.DrvError s.DrvError (LPC22XXCANOpen env s devId devName mode) := by
  simp only [LPC22XXCANOpen, pairOutcome_ite, pairOutcome_fail, pairOutcome_ofNat]
  simp [LPC22XX_CAN_BUS_ERR, LPC22XX_CAN_MODE_ERR, LPC22XX_CAN_OPEN_ERR,
    CPU_CRITICAL_EXIT, CPU_CRITICAL_ENTER, apply_ite State.DrvError, setDev]

theorem lpc_close_outcome (s : State) (paraId : Int) :
    pairOutcome State.DrvError s.DrvError (LPC22XXCANClose s paraId) := by
  simp only [LPC22XXCANClose, pairOutcome_ite, pairOutcome_fail, pairOutcome_ofNat]
  simp [LPC22XX_CAN_BUS_ERR, LPC22XX_CAN_CLOSE_ERR, CPU_CRITICAL_EXIT, CPU_CRITICAL_ENTER,
    setDev]

theorem lpc_readBus_outcome (s : State) (frm : LPC22XX_CANFRM) (size GSR RID RFS RDA RDB : Nat)
    (x : Option LPC22XX_CANFRM) :
    tripleOutcome State.DrvError s.DrvError
      ((readBus (CPU_CRITICAL_ENTER s) frm size GSR RID RFS RDA RDB).1,
        CPU_CRITICAL_EXIT (readBus (CPU_CRITICAL_ENTER s) frm size GSR RID RFS RDA RDB).2.1, x) := by
  unfold readBus
  by_cases h : GSR &&& 1 = 1
  · have h1 : ¬ Int.ofNat size = -1 := by
      intro h
      have : (0 : Int) ≤ Int.ofNat size := Int.ofNat_nonneg size
      omega
    rw [if_pos h]
    simp [tripleOutcome, entryOutcome, CPU_CRITICAL_EXIT, CPU_CRITICAL_ENTER, h1,
      Int.ofNat_nonneg]
  · rw [if_neg h]
    simp [tripleOutcome, entryOutcome, CPU_CRITICAL_EXIT, CPU_CRITICAL_ENTER,
      LPC22XX_CAN_NO_DATA_ERR]

theorem lpc_read_outcome (s : State) (paraId : Int) (buffer : Option LPC22XX_CANFRM)
    (size : Nat) :
    tripleOutcome State.DrvError s.DrvError (LPC22XXCANRead s paraId buffer size) := by
  by_cases h1 : paraId ≥ LPC22XX_CAN_N_DEV ∨ paraId < 0
  · simp [LPC22XXCANRead, h1, tripleOutcome_fail, LPC22XX_CAN_BUS_ERR]
  · by_cases h2 : size ≠ sizeof_CANFRM
    · simp [LPC22XXCANRead, h1, h2, tripleOutcome_fail, LPC22XX_CAN_NO_DATA_ERR]
    · cases buffer with
      | none => simp [LPC22XXCANRead, h1, h2, tripleOutcome_fail, LPC22XX_CAN_ARG_ERR]
      | some frm =>
        by_cases h3 : (s.DevData paraId.toNat).Use ≠ 1
        · simp [LPC22XXCANRead, h1, h2, h3, tripleOutcome_fail, LPC22XX_CAN_OPEN_ERR]
        · have hi : paraId.toNat = 0 ∨ paraId.toNat = 1 := by
            simp [LPC22XX_CAN_N_DEV] at h1; omega
          simp only [LPC22XXCANRead, h1, h2, h3, if_false]
          rcases hi with hi | hi
          · simp only [hi, LPC22XX_CAN_BUS_0, if_true]
            exact lpc_readBus_outcome s frm size _ _ _ _ _ _
          · simp only [hi, LPC22XX_CAN_BUS_0, LPC22XX_CAN_BUS_1, if_true]
            exact lpc_readBus_outcome s frm size _ _ _ _ _ _

theorem lpc_write_outcome (s : State) (paraId : Int) (buffer : Option LPC22XX_CANFRM)
    (size : Nat) :
    pairOutcome State.DrvError s.DrvError (LPC22XXCANWrite s paraId buffer size) := by
  by_cases h1 : paraId ≥ LPC22XX_CAN_N_DEV ∨ paraId < 0
  · simp [LPC22XXCANWrite, h1, pairOutcome_fail, LPC22XX_CAN_BUS_ERR]
  · by_cases h2 : size ≠ sizeof_CANFRM
    · simp [LPC22XXCANWrite, h1, h2, pairOutcome_fail, LPC22XX_CAN_NO_DATA_ERR]
    · cases buffer with
      | none => simp [LPC22XXCANWrite, h1, h2, pairOutcome_fail, LPC22XX_CAN_ARG_ERR]
      | some frm =>
        by_cases h3 : (s.DevData paraId.toNat).Use ≠ 1
        · simp [LPC22XXCANWrite, h1, h2, h3, pairOutcome_fail, LPC22XX_CAN_OPEN_ERR]
        · have hi : paraId.toNat = 0 ∨ paraId.toNat = 1 := by
            simp [LPC22XX_CAN_N_DEV] at h1; omega
          rcases hi with hi | hi
          · simp only [LPC22XXCANWrite, h1, h2, h3, if_false, hi, LPC22XX_CAN_BUS_0, if_true,
              pairOutcome_ite, pairOutcome_fail, pairOutcome_ofNat]
            simp [LPC22XX_CAN_BUSY_ERR, LPC22XX_CAN_OPEN_ERR, CPU_CRITICAL_EXIT, CPU_CRITICAL_ENTER]
          · simp only [LPC22XXCANWrite, h1, h2, h3, if_false, hi, LPC22XX_CAN_BUS_0,
              LPC22XX_CAN_BUS_1, if_true, pairOutcome_ite, pairOutcome_fail, pairOutcome_ofNat]
            simp [LPC22XX_CAN_BUSY_ERR, LPC22XX_CAN_OPEN_ERR, CPU_CRITICAL_EXIT, CPU_CRITICAL_ENTER]

/-- A successful `LPC22XXCANInit` returns 0 and resets the last error. -/
theorem lpc_init_ok (env : Env) (s : State) (arg : Nat) (h : arg < 2) :
    (LPC22XXCANInit env s arg).1 = 0 ∧
    (LPC22XXCANInit env s arg).2.DrvError = LPC22XX_CAN_NO_ERR := by
  have h2 : ¬ arg ≥ LPC22XX_CAN_N_DEV := by simp [LPC22XX_CAN_N_DEV]; omega
  have e0 : ∀ t : State, (InitBus0 env t).DrvError = t.DrvError := by
    intro t; unfold InitBus0; simp only []; split_ifs <;> rfl
  have e1 : ∀ t : State, (InitBus1 env t).DrvError = t.DrvError := by
    intro t; unfold InitBus1; simp only []; split_ifs <;> rfl
  have e2 : ∀ t : State, (InitNs env t).DrvError = t.DrvError := by
    intro t; unfold InitNs; split_ifs <;> rfl
  simp [LPC22XXCANInit, h2, apply_ite State.DrvError, e0, e1, e2, LPC22XX_CAN_NO_ERR]

end LPC22XX

theorem entryOutcome_result {e0 e : Nat} {r : Int} (h : entryOutcome e0 r e) :
    (r = -1 ∨ 0 ≤ r) ∧ (r = -1 → e ≠ 0) := by
  rcases h with ⟨h1, h2⟩ | ⟨h1, _⟩
  · exact ⟨Or.inl h1, fun _ => h2⟩
  · exact ⟨Or.inr h1, fun h => by omega⟩

theorem entryOutcome_success {e0 e : Nat} {r : Int} (h : entryOutcome e0 r e)
    (hr : r ≠ -1) : e = e0 := by
  rcases h with ⟨h1, _⟩ | ⟨_, h2⟩
  · exact absurd h1 hr
  · exact h2

/-- Counterexample to C18 as stated: with `CLOSE_ERR` as last error (left by a failed
close), `Init (0)` succeeds in both drivers and leaves `NO_ERR`, not `CLOSE_ERR`. -/
theorem C18_last_error_counterexample :
    (STM32F4XX.STM32F4XXCANClose STM32F4XX.resetState 0).2.DrvError
      = STM32F4XX.STM32F4XX_CAN_CLOSE_ERR ∧
    (STM32F4XX.STM32F4XXCANInit STM32F4XX.sampleEnv
      (STM32F4XX.STM32F4XXCANClose STM32F4XX.resetState 0).2 0).1 = 0 ∧
    (STM32F4XX.STM32F4XXCANInit STM32F4XX.sampleEnv
      (STM32F4XX.STM32F4XXCANClose STM32F4XX.resetState 0).2 0).2.DrvError
      = STM32F4XX.STM32F4XX_CAN_NO_ERR ∧
    STM32F4XX.STM32F4XX_CAN_NO_ERR ≠ STM32F4XX.STM32F4XX_CAN_CLOSE_ERR ∧
    (LPC22XX.LPC22XXCANClose LPC22XX.resetState 0).2.DrvError
      = LPC22XX.LPC22XX_CAN_CLOSE_ERR ∧
    (LPC22XX.LPC22XXCANInit LPC22XX.sampleEnv
      (LPC22XX.LPC22XXCANClose LPC22XX.resetState 0).2 0).1 = 0 ∧
    (LPC22XX.LPC22XXCANInit LPC22XX.sampleEnv
      (LPC22XX.LPC22XXCANClose LPC22XX.resetState 0).2 0).2.DrvError
      = LPC22XX.LPC22XX_CAN_NO_ERR ∧
    LPC22XX.LPC22XX_CAN_NO_ERR ≠ LPC22XX.LPC22XX_CAN_CLOSE_ERR := by
  decide

/-- C18 (amended): for every state, a successful call (result other than -1) of Open,
Close, IoCtl, Read or Write of either driver leaves the last error `DrvError` exactly as it
was before the call; a successful call of Init of either driver resets it to `NO_ERR`. -/
theorem C18_last_error_amended (envS : STM32F4XX.Env) (envL : LPC22XX.Env)
    (sS : STM32F4XX.State) (sL : LPC22XX.State) (arg devName mode func size : Nat)
    (devId paraId : Int) (argp : Nat → Nat) (bufS : Option STM32F4XX.STM32F4XX_CANFRM)
    (bufL : Option LPC22XX.LPC22XX_CANFRM) :
    ((STM32F4XX.STM32F4XXCANInit envS sS arg).1 ≠ -1 →
      (STM32F4XX.STM32F4XXCANInit envS sS arg).2.DrvError = STM32F4XX.STM32F4XX_CAN_NO_ERR) ∧
    ((STM32F4XX.STM32F4XXCANOpen envS sS devId devName mode).1 ≠ -1 →
      (STM32F4XX.STM32F4XXCANOpen envS sS devId devName mode).2.DrvError = sS.DrvError) ∧
    ((STM32F4XX.STM32F4XXCANClose sS paraId).1 ≠ -1 →
      (STM32F4XX.STM32F4XXCANClose sS paraId).2.DrvError = sS.DrvError) ∧
    ((STM32F4XX.STM32F4XXCANIoCtl envS sS paraId func argp).1 ≠ -1 →
      (STM32F4XX.STM32F4XXCANIoCtl envS sS paraId func argp).2.1.DrvError = sS.DrvError) ∧
    ((STM32F4XX.STM32F4XXCANRead sS paraId bufS size).1 ≠ -1 →
      (STM32F4XX.STM32F4XXCANRead sS paraId bufS size).2.1.DrvError = sS.DrvError) ∧
    ((STM32F4XX.STM32F4XXCANWrite sS paraId bufS size).1 ≠ -1 →
      (STM32F4XX.STM32F4XXCANWrite sS paraId bufS size).2.DrvError = sS.DrvError) ∧
    ((LPC22XX.LPC22XXCANInit envL sL arg).1 ≠ -1 →
      (LPC22XX.LPC22XXCANInit envL sL arg).2.DrvError = LPC22XX.LPC22XX_CAN_NO_ERR) ∧
    ((LPC22XX.LPC22XXCANOpen envL sL devId devName mode).1 ≠ -1 →
      (LPC22XX.LPC22XXCANOpen envL sL devId devName mode).2.DrvError = sL.DrvError) ∧
    ((LPC22XX.LPC22XXCANClose sL paraId).1 ≠ -1 →
      (LPC22XX.LPC22XXCANClose sL paraId).2.DrvError = sL.DrvError) ∧
    ((LPC22XX.LPC22XXCANIoCtl envL sL paraId func argp).1 ≠ -1 →
      (LPC22XX.LPC22XXCANIoCtl envL sL paraId func argp).2.1.DrvError = sL.DrvError) ∧
    ((LPC22XX.LPC22XXCANRead sL paraId bufL size).1 ≠ -1 →
      (LPC22XX.LPC22XXCANRead sL paraId bufL size).2.1.DrvError = sL.DrvError) ∧
    ((LPC22XX.LPC22XXCANWrite sL paraId bufL size).1 ≠ -1 →
      (LPC22XX.LPC22XXCANWrite sL paraId bufL size).2.DrvError = sL.DrvError) := by
  refine ⟨?_, entryOutcome_success (STM32F4XX.f4_open_outcome envS sS devId devName mode),
    entryOutcome_success (STM32F4XX.f4_close_outcome sS paraId),
    entryOutcome_success (STM32F4XX.f4_ioctl_outcome envS sS paraId func argp),
    entryOutcome_success (STM32F4XX.f4_read_outcome sS paraId bufS size),
    entryOutcome_success (STM32F4XX.f4_write_outcome sS paraId bufS size), ?_,
    entryOutcome_success (LPC22XX.lpc_open_outcome envL sL devId devName mode),
    entryOutcome_success (LPC22XX.lpc_close_outcome sL paraId),
    entryOutcome_success (LPC22XX.lpc_ioctl_outcome envL sL paraId func argp),
    entryOutcome_success (LPC22XX.lpc_read_outcome sL paraId bufL size),
    entryOutcome_success (LPC22XX.lpc_write_outcome sL paraId bufL size)⟩
  · intro h
    by_cases ha : arg < 2
    · exact (STM32F4XX.f4_init_ok envS sS arg ha).2
    · exact absurd (by
        have : arg ≥ STM32F4XX.STM32F4XX_CAN_N_DEV := by
          simp [STM32F4XX.STM32F4XX_CAN_N_DEV]; omega
        simp [STM32F4XX.STM32F4XXCANInit, this]) h
  · intro h
    by_cases ha : arg < 2
    · exact (LPC22XX.lpc_init_ok envL sL arg ha).2
    · exact absurd (by
        have : arg ≥ LPC22XX.LPC22XX_CAN_N_DEV := by
          simp [LPC22XX.LPC22XX_CAN_N_DEV]; omega
        simp [LPC22XX.LPC22XXCANInit, this]) h

/-- Witness of C18 (amended): a successful open on the sample state left by a failed close
keeps `CLOSE_ERR`. -/
theorem C18_last_error_amended_witness :
    (STM32F4XX.STM32F4XXCANOpen STM32F4XX.sampleEnv
      (STM32F4XX.STM32F4XXCANClose STM32F4XX.resetState 0).2 0 0 DEV_RW).2.DrvError
      = (STM32F4XX.STM32F4XXCANClose STM32F4XX.resetState 0).2.DrvError :=
  (C18_last_error_amended STM32F4XX.sampleEnv LPC22XX.sampleEnv
    (STM32F4XX.STM32F4XXCANClose STM32F4XX.resetState 0).2 LPC22XX.resetState 0 0 DEV_RW 0 16
    0 0 (fun _ => 0) none none).2.1 (by decide)

/-- The query `GET_ERRNO` on an open device returns 0, stores the last error behind the
argument pointer and leaves the state as it is (STM32F4XX). -/
theorem f4_get_errno (env : STM32F4XX.Env) (s : STM32F4XX.State) (h : Int) (h0 : 0 ≤ h)
    (h2 : h < 2) (hU : (s.DevData h.toNat).Use = 1) (argp : Nat → Nat) :
    STM32F4XX.STM32F4XXCANIoCtl env s h STM32F4XX.IO_STM32F4XX_CAN_GET_ERRNO argp
      = (0, s, write16 argp 0 s.DrvError) := by
  simp only [STM32F4XX.STM32F4XXCANIoCtl, STM32F4XX.f4_not_out_of_range h h0 h2, if_false, hU,
    ne_eq, not_true_eq_false, STM32F4XX.IoCtlSwitch, STM32F4XX.CPU_CRITICAL_ENTER,
    STM32F4XX.CPU_CRITICAL_EXIT]
  simp [STM32F4XX.IO_STM32F4XX_CAN_GET_IDENT, STM32F4XX.IO_STM32F4XX_CAN_GET_ERRNO,
    STM32F4XX.STM32F4XX_CAN_NO_ERR]

/-- The query `GET_ERRNO` on an open device returns 0, stores the last error behind the
argument pointer and leaves the state as it is (LPC22XX). -/
theorem lpc_get_errno (env : LPC22XX.Env) (s : LPC22XX.State) (h : Int) (h0 : 0 ≤ h)
    (h2 : h < 2) (hU : (s.DevData h.toNat).Use = 1) (argp : Nat → Nat) :
    LPC22XX.LPC22XXCANIoCtl env s h LPC22XX.IO_LPC22XX_CAN_GET_ERRNO argp
      = (0, s, write16 argp 0 s.DrvError) := by
  simp only [LPC22XX.LPC22XXCANIoCtl, LPC22XX.lpc_not_out_of_range h h0 h2, if_false, hU,
    ne_eq, not_true_eq_false, LPC22XX.IoCtlSwitch, LPC22XX.CPU_CRITICAL_ENTER,
    LPC22XX.CPU_CRITICAL_EXIT]
  simp [LPC22XX.IO_LPC22XX_CAN_GET_IDENT, LPC22XX.IO_LPC22XX_CAN_GET_ERRNO,
    LPC22XX.LPC22XX_CAN_NO_ERR]

/-- The two bytes a `CPU_INT16U` store leaves at its address, and the value they hold. -/
theorem write16_bytes (b : Nat → Nat) (v : Nat) :
    write16 b 0 v 0 = v % 256 ∧ write16 b 0 v 1 = v / 256 % 256 ∧
    write16 b 0 v 0 + 256 * write16 b 0 v 1 = v % 65536 := by
  have e0 : write16 b 0 v 0 = v % 256 := by simp [write16, upd]
  have e1 : write16 b 0 v 1 = v / 256 % 256 := by simp [write16, upd]
  refine ⟨e0, e1, ?_⟩
  rw [e0, e1]
  omega

/-- C19: every entry point of both drivers returns -1 or a value that is not negative,
and whenever it returns -1 the last error on return is not `NO_ERR`; in every state the
query `GET_ERRNO` on an open device returns 0 and delivers the last error of that state in
the two bytes behind the argument pointer (low byte first, together the last error modulo
`2 ^ 16`), so the cause of a failure can be read after it. -/
theorem C19_failure_has_error (envS : STM32F4XX.Env) (envL : LPC22XX.Env)
    (sS : STM32F4XX.State) (sL : LPC22XX.State) (arg devName mode func size : Nat)
    (devId paraId : Int) (argp : Nat → Nat) (bufS : Option STM32F4XX.STM32F4XX_CANFRM)
    (bufL : Option LPC22XX.LPC22XX_CANFRM) :
    (((STM32F4XX.STM32F4XXCANInit envS sS arg).1 = -1 ∨
        0 ≤ (STM32F4XX.STM32F4XXCANInit envS sS arg).1) ∧
      ((STM32F4XX.STM32F4XXCANInit envS sS arg).1 = -1 →
        (STM32F4XX.STM32F4XXCANInit envS sS arg).2.DrvError ≠ STM32F4XX.STM32F4XX_CAN_NO_ERR)) ∧
    (((STM32F4XX.STM32F4XXCANOpen envS sS devId devName mode).1 = -1 ∨
        0 ≤ (STM32F4XX.STM32F4XXCANOpen envS sS devId devName mode).1) ∧
      ((STM32F4XX.STM32F4XXCANOpen envS sS devId devName mode).1 = -1 →
        (STM32F4XX.STM32F4XXCANOpen envS sS devId devName mode).2.DrvError ≠ 0)) ∧
    (((STM32F4XX.STM32F4XXCANClose sS paraId).1 = -1 ∨
        0 ≤ (STM32F4XX.STM32F4XXCANClose sS paraId).1) ∧
      ((STM32F4XX.STM32F4XXCANClose sS paraId).1 = -1 →
        (STM32F4XX.STM32F4XXCANClose sS paraId).2.DrvError ≠ 0)) ∧
    (((STM32F4XX.STM32F4XXCANIoCtl envS sS paraId func argp).1 = -1 ∨
        0 ≤ (STM32F4XX.STM32F4XXCANIoCtl envS sS paraId func argp).1) ∧
      ((STM32F4XX.STM32F4XXCANIoCtl envS sS paraId func argp).1 = -1 →
        (STM32F4XX.STM32F4XXCANIoCtl envS sS paraId func argp).2.1.DrvError ≠ 0)) ∧
    (((STM32F4XX.STM32F4XXCANRead sS paraId bufS size).1 = -1 ∨
        0 ≤ (STM32F4XX.STM32F4XXCANRead sS paraId bufS size).1) ∧
      ((STM32F4XX.STM32F4XXCANRead sS paraId bufS size).1 = -1 →
        (STM32F4XX.STM32F4XXCANRead sS paraId bufS size).2.1.DrvError ≠ 0)) ∧
    (((STM32F4XX.STM32F4XXCANWrite sS paraId bufS size).1 = -1 ∨
        0 ≤ (STM32F4XX.STM32F4XXCANWrite sS paraId bufS size).1) ∧
      ((STM32F4XX.STM32F4XXCANWrite sS paraId bufS size).1 = -1 →
        (STM32F4XX.STM32F4XXCANWrite sS paraId bufS size).2.DrvError ≠ 0)) ∧
    (((LPC22XX.LPC22XXCANInit envL sL arg).1 = -1 ∨ 0 ≤ (LPC22XX.LPC22XXCANInit envL sL arg).1) ∧
      ((LPC22XX.LPC22XXCANInit envL sL arg).1 = -1 →
        (LPC22XX.LPC22XXCANInit envL sL arg).2.DrvError ≠ LPC22XX.LPC22XX_CAN_NO_ERR)) ∧
    (((LPC22XX.LPC22XXCANOpen envL sL devId devName mode).1 = -1 ∨
        0 ≤ (LPC22XX.LPC22XXCANOpen envL sL devId devName mode).1) ∧
      ((LPC22XX.LPC22XXCANOpen envL sL devId devName mode).1 = -1 →
        (LPC22XX.LPC22XXCANOpen envL sL devId devName mode).2.DrvError ≠ 0)) ∧
    (((LPC22XX.LPC22XXCANClose sL paraId).1 = -1 ∨ 0 ≤ (LPC22XX.LPC22XXCANClose sL paraId).1) ∧
      ((LPC22XX.LPC22XXCANClose sL paraId).1 = -1 →
        (LPC22XX.LPC22XXCANClose sL paraId).2.DrvError ≠ 0)) ∧
    (((LPC22XX.LPC22XXCANIoCtl envL sL paraId func argp).1 = -1 ∨
        0 ≤ (LPC22XX.LPC22XXCANIoCtl envL sL paraId func argp).1) ∧
      ((LPC22XX.LPC22XXCANIoCtl envL sL paraId func argp).1 = -1 →
        (LPC22XX.LPC22XXCANIoCtl envL sL paraId func argp).2.1.DrvError ≠ 0)) ∧
    (((LPC22XX.LPC22XXCANRead sL paraId bufL size).1 = -1 ∨
        0 ≤ (LPC22XX.LPC22XXCANRead sL paraId bufL size).1) ∧
      ((LPC22XX.LPC22XXCANRead sL paraId bufL size).1 = -1 →
        (LPC22XX.LPC22XXCANRead sL paraId bufL size).2.1.DrvError ≠ 0)) ∧
    (((LPC22XX.LPC22XXCANWrite sL paraId bufL size).1 = -1 ∨
        0 ≤ (LPC22XX.LPC22XXCANWrite sL paraId bufL size).1) ∧
      ((LPC22XX.LPC22XXCANWrite sL paraId bufL size).1 = -1 →
        (LPC22XX.LPC22XXCANWrite sL paraId bufL size).2.DrvError ≠ 0)) ∧
    (∀ (s : STM32F4XX.State) (h : Int) (a : Nat → Nat), 0 ≤ h → h < 2 →
      (s.DevData h.toNat).Use = 1 →
      STM32F4XX.STM32F4XXCANIoCtl envS s h STM32F4XX.IO_STM32F4XX_CAN_GET_ERRNO a
        = (0, s, write16 a 0 s.DrvError) ∧
      (STM32F4XX.STM32F4XXCANIoCtl envS s h STM32F4XX.IO_STM32F4XX_CAN_GET_ERRNO a).2.2 0
        = s.DrvError % 256 ∧
      (STM32F4XX.STM32F4XXCANIoCtl envS s h STM32F4XX.IO_STM32F4XX_CAN_GET_ERRNO a).2.2 1
        = s.DrvError / 256 % 256 ∧
      (STM32F4XX.STM32F4XXCANIoCtl envS s h STM32F4XX.IO_STM32F4XX_CAN_GET_ERRNO a).2.2 0
        + 256 *
          (STM32F4XX.STM32F4XXCANIoCtl envS s h STM32F4XX.IO_STM32F4XX_CAN_GET_ERRNO a).2.2 1
        = s.DrvError % 65536) ∧
    (∀ (s : LPC22XX.State) (h : Int) (a : Nat → Nat), 0 ≤ h → h < 2 →
      (s.DevData h.toNat).Use = 1 →
      LPC22XX.LPC22XXCANIoCtl envL s h LPC22XX.IO_LPC22XX_CAN_GET_ERRNO a
        = (0, s, write16 a 0 s.DrvError) ∧
      (LPC22XX.LPC22XXCANIoCtl envL s h LPC22XX.IO_LPC22XX_CAN_GET_ERRNO a).2.2 0
        = s.DrvError % 256 ∧
      (LPC22XX.LPC22XXCANIoCtl envL s h LPC22XX.IO_LPC22XX_CAN_GET_ERRNO a).2.2 1
        = s.DrvError / 256 % 256 ∧
      (LPC22XX.LPC22XXCANIoCtl envL s h LPC22XX.IO_LPC22XX_CAN_GET_ERRNO a).2.2 0
        + 256 * (LPC22XX.LPC22XXCANIoCtl envL s h LPC22XX.IO_LPC22XX_CAN_GET_ERRNO a).2.2 1
        = s.DrvError % 65536) := by
  refine ⟨?_, entryOutcome_result (STM32F4XX.f4_open_outcome envS sS devId devName mode),
    entryOutcome_result (STM32F4XX.f4_close_outcome sS paraId),
    entryOutcome_result (STM32F4XX.f4_ioctl_outcome envS sS paraId func argp),
    entryOutcome_result (STM32F4XX.f4_read_outcome sS paraId bufS size),
    entryOutcome_result (STM32F4XX.f4_write_outcome sS paraId bufS size), ?_,
    entryOutcome_result (LPC22XX.lpc_open_outcome envL sL devId devName mode),
    entryOutcome_result (LPC22XX.lpc_close_outcome sL paraId),
    entryOutcome_result (LPC22XX.lpc_ioctl_outcome envL sL paraId func argp),
    entryOutcome_result (LPC22XX.lpc_read_outcome sL paraId bufL size),
    entryOutcome_result (LPC22XX.lpc_write_outcome sL paraId bufL size),
    fun s h a h0 h2 hU => by
      have e := f4_get_errno envS s h h0 h2 hU a
      rw [e]
      exact ⟨rfl, write16_bytes a s.DrvError⟩,
    fun s h a h0 h2 hU => by
      have e := lpc_get_errno envL s h h0 h2 hU a
      rw [e]
      exact ⟨rfl, write16_bytes a s.DrvError⟩⟩
  · by_cases ha : arg < 2
    · have h := (STM32F4XX.f4_init_ok envS sS arg ha).1
      rw [h]; simp
    · have : arg ≥ STM32F4XX.STM32F4XX_CAN_N_DEV := by
        simp [STM32F4XX.STM32F4XX_CAN_N_DEV]; omega
      simp [STM32F4XX.STM32F4XXCANInit, this, STM32F4XX.STM32F4XX_CAN_INIT_ERR,
        STM32F4XX.STM32F4XX_CAN_NO_ERR]
  · by_cases ha : arg < 2
    · have h := (LPC22XX.lpc_init_ok envL sL arg ha).1
      rw [h]; simp
    · have : arg ≥ LPC22XX.LPC22XX_CAN_N_DEV := by
        simp [LPC22XX.LPC22XX_CAN_N_DEV]; omega
      simp [LPC22XX.LPC22XXCANInit, this, LPC22XX.LPC22XX_CAN_INIT_ERR,
        LPC22XX.LPC22XX_CAN_NO_ERR]

/-- Witness of C19: on the open sample state the close of bus 1, which is not open, fails
with a last error other than `NO_ERR`, and the query `GET_ERRNO` on the open bus 0 then
delivers `CLOSE_ERR` in the low byte and 0 in the high byte. -/
theorem C19_failure_has_error_witness :
    (STM32F4XX.STM32F4XXCANClose STM32F4XX.openState 1).2.DrvError ≠ 0 ∧
    (STM32F4XX.STM32F4XXCANIoCtl STM32F4XX.sampleEnv
      (STM32F4XX.STM32F4XXCANClose STM32F4XX.openState 1).2 0
      STM32F4XX.IO_STM32F4XX_CAN_GET_ERRNO (fun _ => 0xFF)).2.2 0
      = STM32F4XX.STM32F4XX_CAN_CLOSE_ERR ∧
    (STM32F4XX.STM32F4XXCANIoCtl STM32F4XX.sampleEnv
      (STM32F4XX.STM32F4XXCANClose STM32F4XX.openState 1).2 0
      STM32F4XX.IO_STM32F4XX_CAN_GET_ERRNO (fun _ => 0xFF)).2.2 1 = 0 :=
  ⟨(C19_failure_has_error STM32F4XX.sampleEnv LPC22XX.sampleEnv STM32F4XX.openState
      LPC22XX.resetState 0 0 DEV_RW 0 16 0 1 (fun _ => 0) none none).2.2.1.2 (by decide),
    ((C19_failure_has_error STM32F4XX.sampleEnv LPC22XX.sampleEnv STM32F4XX.openState
      LPC22XX.resetState 0 0 DEV_RW 0 16 0 1 (fun _ => 0) none
      none).2.2.2.2.2.2.2.2.2.2.2.2.1
      (STM32F4XX.STM32F4XXCANClose STM32F4XX.openState 1).2 0 (fun _ => 0xFF) (by decide)
      (by decide) (by decide)).2.1.trans (by decide),
    ((C19_failure_has_error STM32F4XX.sampleEnv LPC22XX.sampleEnv STM32F4XX.openState
      LPC22XX.resetState 0 0 DEV_RW 0 16 0 1 (fun _ => 0) none
      none).2.2.2.2.2.2.2.2.2.2.2.2.1
      (STM32F4XX.STM32F4XXCANClose STM32F4XX.openState 1).2 0 (fun _ => 0xFF) (by decide)
      (by decide) (by decide)).2.2.1.trans (by decide)⟩

/-! ## Frame of the entry points over the filter cursor and the filter mode -/

theorem pairSat_ite {σ : Type} (P : σ → Prop) (c : Prop) [Decidable c] (a b : Int × σ) :
    pairSat P (if c then a else b) ↔ (c → pairSat P a) ∧ (¬ c → pairSat P b) := by
  by_cases h : c <;> simp [h]

theorem pairSat_mk {σ : Type} (P : σ → Prop) (r : Int) (s : σ) : pairSat P (r, s) ↔ P s :=
  Iff.rfl

theorem tripleSat_ite {σ β : Type} (P : σ → Prop) (c : Prop) [Decidable c]
    (a b : Int × σ × β) :
    tripleSat P (if c then a else b) ↔ (c → tripleSat P a) ∧ (¬ c → tripleSat P b) := by
  by_cases h : c <;> simp [h]

theorem tripleSat_mk {σ β : Type} (P : σ → Prop) (r : Int) (s : σ) (b : β) :
    tripleSat P (r, s, b) ↔ P s :=
  Iff.rfl

namespace STM32F4XX

@[simp] theorem f4_modCan_DevData (s : State) (b : Nat) (f : STM32F4XX_CAN_t → STM32F4XX_CAN_t) :
    (modCan s b f).DevData = s.DevData := rfl

@[simp] theorem f4_setDev_DevData (s : State) (i : Nat) (d : STM32F4XX_CAN_DATA) :
    (setDev s i d).DevData = upd s.DevData i d := rfl

@[simp] theorem f4_setDev_mem (s : State) (i : Nat) (d : STM32F4XX_CAN_DATA) :
    (setDev s i d).mem = s.mem := rfl

@[simp] theorem f4_enter_DevData (s : State) : (CPU_CRITICAL_ENTER s).DevData = s.DevData := rfl

@[simp] theorem f4_exit_DevData (s : State) : (CPU_CRITICAL_EXIT s).DevData = s.DevData := rfl

@[simp] theorem f4_enter_mem (s : State) : (CPU_CRITICAL_ENTER s).mem = s.mem := rfl

@[simp] theorem f4_exit_mem (s : State) : (CPU_CRITICAL_EXIT s).mem = s.mem := rfl

theorem f4_forLoop_DevData (body : Nat → State → State)
    (hb : ∀ i a, (body i a).DevData = a.DevData) (lo hi : Nat) (a : State) :
    (forLoop lo hi body a).DevData = a.DevData :=
  forLoop_inv State.DevData body hb lo hi a

theorem upd_FilterIdx (d : Nat → STM32F4XX_CAN_DATA) (i j : Nat) (v : STM32F4XX_CAN_DATA) :
    ((upd d i v) j).FilterIdx = if j = i then v.FilterIdx else (d j).FilterIdx := by
  by_cases h : j = i <;> simp [upd, h]

theorem upd_Base (d : Nat → STM32F4XX_CAN_DATA) (i j : Nat) (v : STM32F4XX_CAN_DATA) :
    ((upd d i v) j).Base = if j = i then v.Base else (d j).Base := by
  by_cases h : j = i <;> simp [upd, h]

theorem f4_open_devFrame (env : Env) (s : State) (devId : Int) (devName mode : Nat) :
    pairSat (devFrame s) (STM32F4XXCANOpen env s devId devName mode) := by
  simp only [STM32F4XXCANOpen, pairSat_ite, pairSat_mk, devFrame]
  simp [apply_ite State.DevData, upd_FilterIdx, upd_Base]
  intro _ _ _ j
  constructor <;> rintro rfl <;> rfl

theorem f4_close_devFrame (s : State) (paraId : Int) :
    pairSat (devFrame s) (STM32F4XXCANClose s paraId) := by
  simp only [STM32F4XXCANClose, pairSat_ite, pairSat_mk, devFrame]
  simp [upd_FilterIdx, upd_Base]
  intro _ _ _ j
  constructor <;> rintro rfl <;> rfl

theorem f4_read_devFrame (s : State) (paraId : Int) (buffer : Option STM32F4XX_CANFRM)
    (size : Nat) : tripleSat (devFrame s) (STM32F4XXCANRead s paraId buffer size) := by
  cases buffer <;>
  · simp only [STM32F4XXCANRead, tripleSat_ite, tripleSat_mk, devFrame]
    simp

theorem f4_write_DevData (s : State) (paraId : Int) (buffer : Option STM32F4XX_CANFRM)
    (size : Nat) : pairSat (fun s2 => s2.DevData = s.DevData)
      (STM32F4XXCANWrite s paraId buffer size) := by
  cases buffer <;>
  · simp only [STM32F4XXCANWrite, pairSat_ite, pairSat_mk]
    simp [apply_ite State.DevData]

@[simp] theorem f4_modCan_FMR (s : State) (b : Nat) (f : STM32F4XX_CAN_t → STM32F4XX_CAN_t)
    (hf : ∀ c, (f c).FMR = c.FMR) (b2 : Nat) :
    ((modCan s b f).mem b2).FMR = (s.mem b2).FMR := by
  by_cases h : b2 = b
  · subst h; simp [modCan, setCan, upd, hf]
  · simp [modCan, setCan, upd, h]

@[simp] theorem f4_waitInitMode_FMR (c : STM32F4XX_CAN_t) : (waitInitMode c).FMR = c.FMR := rfl

@[simp] theorem f4_waitNormalMode_FMR (c : STM32F4XX_CAN_t) : (waitNormalMode c).FMR = c.FMR :=
  rfl

@[simp] theorem f4_setFilter_FMR (c : STM32F4XX_CAN_t) (i : Nat) (r : FilterRegister_t) :
    (setFilter c i r).FMR = c.FMR := rfl

@[simp] theorem f4_programPair_FMR (c : STM32F4XX_CAN_t) (i j mask canId : Nat) :
    (programPair c i j mask canId).FMR = c.FMR := by
  unfold programPair
  split_ifs <;> rfl

theorem ite_index_same {α β : Type} (d : Nat → α) (f : α → β) (i j : Nat) :
    (if j = i then f (d i) else f (d j)) = f (d j) := by
  by_cases h : j = i
  · subst h; simp
  · simp [h]

theorem f4_switch_cursor (env : Env) (hres : TimingOnly env) (s : State) (i can func : Nat)
    (argp : Nat → Nat) (h : cursorInv s) :
    tripleSat cursorInv (IoCtlSwitch env s i can func argp) := by
  have hF : ∀ d, (env.CalcTimingReg d).2.FilterIdx = d.FilterIdx := fun d => (hres d).2
  have h1 : ∀ j, (s.DevData j).FilterIdx % 2 = 0 := fun j => (h j).1
  have h2 : ∀ j, (s.DevData j).FilterIdx ≤ 12 := fun j => (h j).2
  simp only [IoCtlSwitch, tripleSat_ite, tripleSat_mk, cursorInv]
  simp [apply_ite State.DevData, f4_forLoop_DevData, upd_FilterIdx, hF, h1, h2,
    ite_index_same s.DevData STM32F4XX_CAN_DATA.FilterIdx]
  intros
  have a := h1 i
  have b := h2 i
  rename_i j
  have c := h1 j
  have d := h2 j
  split_ifs <;> simp [upd_FilterIdx] <;> split_ifs <;> omega

theorem f4_clr_FINIT (x : Nat) :
    clr32 x STM32F4XX_CAN_FMR_FINIT &&& STM32F4XX_CAN_FMR_FINIT = 0 := by
  unfold clr32 STM32F4XX_CAN_FMR_FINIT
  rw [Nat.and_assoc]
  have : (0xFFFFFFFF - 0x00000001) &&& 0x00000001 = 0 := by decide
  rw [this, Nat.and_zero]

theorem f4_modCan_mem_same (s : State) (b : Nat) (f : STM32F4XX_CAN_t → STM32F4XX_CAN_t) :
    (modCan s b f).mem b = f (s.mem b) := by
  simp [modCan, setCan, upd]

/-- A property of the device records and the register blocks that the switch of
`STM32F4XXCANIoCtl` keeps is kept by `STM32F4XXCANIoCtl`. -/
theorem f4_ioctl_sat (env : Env) (P : State → Prop)
    (hP : ∀ s s2 : State, s2.DevData = s.DevData → s2.mem = s.mem → P s → P s2)
    (hsw : ∀ s i can func argp, P s → tripleSat P (IoCtlSwitch env s i can func argp))
    (s : State) (paraId : Int) (func : Nat) (argp : Nat → Nat) (hs : P s) :
    tripleSat P (STM32F4XXCANIoCtl env s paraId func argp) := by
  have hr := hsw (CPU_CRITICAL_ENTER s) paraId.toNat (s.DevData paraId.toNat).Base func argp
    (hP s _ rfl rfl hs)
  simp only [STM32F4XXCANIoCtl, tripleSat_ite, tripleSat_mk]
  refine ⟨fun _ => hP s _ rfl rfl hs, fun _ => ⟨fun _ => hP s _ rfl rfl hs, fun _ => ⟨fun _ => ?_,
    fun _ => ?_⟩⟩⟩
  · exact hP (IoCtlSwitch env (CPU_CRITICAL_ENTER s) paraId.toNat
      (s.DevData paraId.toNat).Base func argp).2.1 _ rfl rfl hr
  · exact hP (IoCtlSwitch env (CPU_CRITICAL_ENTER s) paraId.toNat
      (s.DevData paraId.toNat).Base func argp).2.1 _ rfl rfl hr

theorem cursorInv_congr (s s2 : State) (h1 : s2.DevData = s.DevData) (_h2 : s2.mem = s.mem)
    (h : cursorInv s) : cursorInv s2 := by
  intro j; rw [h1]; exact h j

theorem f4_ioctl_cursor (env : Env) (hres : TimingOnly env) (s : State) (paraId : Int)
    (func : Nat) (argp : Nat → Nat) (h : cursorInv s) :
    cursorInv (STM32F4XXCANIoCtl env s paraId func argp).2.1 :=
  f4_ioctl_sat env cursorInv cursorInv_congr
    (fun s i can func argp hs => f4_switch_cursor env hres s i can func argp hs)
    s paraId func argp h

end STM32F4XX
namespace STM32F4XX

/-- The body of `STM32F4XXCANInit` for a bus selector in range, as the sequence of its
four parts. -/
theorem f4_init_parts (env : Env) (s : State) (arg : Nat) (h : ¬ arg ≥ STM32F4XX_CAN_N_DEV) :
    STM32F4XXCANInit env s arg =
      (Int.ofNat STM32F4XX_CAN_NO_ERR,
        initLeave env
          (initFilters
            (initTiming env (initBase env s arg) arg ((initBase env s arg).DevData arg).Base)
            arg
            ((initTiming env (initBase env s arg) arg
              ((initBase env s arg).DevData arg).Base).DevData STM32F4XX_CAN_BUS_0).Base)
          arg ((initBase env s arg).DevData arg).Base) := by
  unfold STM32F4XXCANInit
  rw [if_neg h]
  rfl

theorem f4_initBase_FilterIdx (env : Env) (s : State) (arg j : Nat) :
    ((initBase env s arg).DevData j).FilterIdx = (s.DevData j).FilterIdx := by
  unfold initBase
  split_ifs <;> simp [upd_FilterIdx, upd_same] <;> (try split_ifs) <;> simp_all

theorem f4_initBase_Base (env : Env) (s : State) (arg : Nat) (h : arg < 2) :
    ((initBase env s arg).DevData STM32F4XX_CAN_BUS_0).Base = STM32F4XX_CAN1_BASE := by
  unfold initBase
  have hc : arg = 0 ∨ arg = 1 := by omega
  rcases hc with rfl | rfl <;> simp [STM32F4XX_CAN_BUS_0, upd_Base]

theorem f4_initTiming_DevData (env : Env) (hres : TimingOnly env) (s : State) (arg can j : Nat) :
    ((initTiming env s arg can).DevData j).FilterIdx = (s.DevData j).FilterIdx ∧
    ((initTiming env s arg can).DevData j).Base = (s.DevData j).Base := by
  unfold initTiming
  simp [upd_FilterIdx, upd_Base, upd_same, (hres _).1, (hres _).2]
  constructor <;> intros <;> subst_vars <;> rfl

theorem f4_initFilters_FilterIdx (s : State) (arg can0 j : Nat) :
    ((initFilters s arg can0).DevData j).FilterIdx
      = if j = arg then 2 else (s.DevData j).FilterIdx := by
  unfold initFilters
  simp [apply_ite State.DevData, f4_forLoop_DevData, upd_FilterIdx]

theorem f4_initFilters_Base (s : State) (arg can0 j : Nat) :
    ((initFilters s arg can0).DevData j).Base = (s.DevData j).Base := by
  unfold initFilters
  simp [apply_ite State.DevData, f4_forLoop_DevData, upd_Base]
  intros; subst_vars; rfl

theorem f4_initFilters_FMR (s : State) (arg can0 : Nat) :
    ((initFilters s arg can0).mem can0).FMR &&& STM32F4XX_CAN_FMR_FINIT = 0 := by
  unfold initFilters
  simp [f4_modCan_mem_same, f4_clr_FINIT]

theorem f4_initLeave_DevData (env : Env) (s : State) (arg can : Nat) :
    (initLeave env s arg can).DevData = s.DevData := rfl

theorem f4_initLeave_FMR (env : Env) (s : State) (arg can b : Nat) :
    ((initLeave env s arg can).mem b).FMR = (s.mem b).FMR := by
  unfold initLeave
  simp

theorem f4_init_cursor (env : Env) (hres : TimingOnly env) (s : State) (arg : Nat)
    (h : cursorInv s) : cursorInv (STM32F4XXCANInit env s arg).2 := by
  by_cases ha : arg ≥ STM32F4XX_CAN_N_DEV
  · simpa [STM32F4XXCANInit, ha, cursorInv] using h
  · rw [f4_init_parts env s arg ha]
    intro j
    simp only [f4_initLeave_DevData, f4_initFilters_FilterIdx,
      (f4_initTiming_DevData env hres _ _ _ _).1, f4_initBase_FilterIdx]
    have := h j
    split_ifs <;> omega

theorem f4_init_filterInv (env : Env) (hres : TimingOnly env) (s : State) (arg : Nat)
    (harg : arg < 2) : filterInv (STM32F4XXCANInit env s arg).2 := by
  have ha : ¬ arg ≥ STM32F4XX_CAN_N_DEV := by simp [STM32F4XX_CAN_N_DEV]; omega
  rw [f4_init_parts env s arg ha]
  have hb : ((initTiming env (initBase env s arg) arg
      ((initBase env s arg).DevData arg).Base).DevData STM32F4XX_CAN_BUS_0).Base
      = STM32F4XX_CAN1_BASE := by
    rw [(f4_initTiming_DevData env hres _ _ _ _).2, f4_initBase_Base env s arg harg]
  constructor
  · simp only [f4_initLeave_DevData, f4_initFilters_Base]
    exact hb
  · simp only [f4_initLeave_FMR, hb]
    exact f4_initFilters_FMR _ _ _

theorem cursorInv_of_devFrame (s s2 : State) (hf : devFrame s s2) (h : cursorInv s) :
    cursorInv s2 := by
  intro j
  rw [(hf j).1]
  exact h j

theorem devFrame_of_eq (s s2 : State) (h : s2.DevData = s.DevData) : devFrame s s2 := by
  intro j; rw [h]; exact ⟨rfl, rfl⟩

/-- Every call keeps the cursor invariant. -/
theorem cursorInv_step (env : Env) (hres : TimingOnly env) (s : State) (c : Call)
    (h : cursorInv s) : cursorInv (step env s c) := by
  cases c with
  | Init arg => exact f4_init_cursor env hres s arg h
  | Open devId devName mode =>
    exact cursorInv_of_devFrame s _ (f4_open_devFrame env s devId devName mode) h
  | Close paraId => exact cursorInv_of_devFrame s _ (f4_close_devFrame s paraId) h
  | IoCtl paraId func argp => exact f4_ioctl_cursor env hres s paraId func argp h
  | Read paraId buffer size =>
    exact cursorInv_of_devFrame s _ (f4_read_devFrame s paraId buffer size) h
  | Write paraId buffer size =>
    exact cursorInv_of_devFrame s _
      (devFrame_of_eq s _ (f4_write_DevData s paraId buffer size)) h

theorem cursorInv_run (env : Env) (hres : TimingOnly env) (calls : List Call) (s : State)
    (h : cursorInv s) : cursorInv (run env s calls) := by
  induction calls generalizing s with
  | nil => exact h
  | cons c cs ih => exact ih (step env s c) (cursorInv_step env hres s c h)

theorem cursorInv_start (mem : Nat → STM32F4XX_CAN_t) (rcc board : Nat) (nest : Int) :
    cursorInv (startState mem rcc board nest) := by
  intro j
  simp [startState]

theorem programPair_other (c : STM32F4XX_CAN_t) (i j mask canId k : Nat) (hi : k ≠ i)
    (hj : k ≠ j) : (programPair c i j mask canId).FilterRegister k = c.FilterRegister k := by
  unfold programPair
  split_ifs <;> simp [setFilter, upd, hi, hj]

theorem f4_modCan_FilterRegister (s : State) (b : Nat)
    (f : STM32F4XX_CAN_t → STM32F4XX_CAN_t) (k : Nat)
    (hf : ∀ c, (f c).FilterRegister k = c.FilterRegister k) (b2 : Nat) :
    ((modCan s b f).mem b2).FilterRegister k = (s.mem b2).FilterRegister k := by
  by_cases h : b2 = b
  · subst h; simp [modCan, setCan, upd, hf]
  · simp [modCan, setCan, upd, h]

/-- With an open device and a handle in range, `STM32F4XXCANIoCtl` hands on the result,
the device records, the register blocks and the argument memory of its switch. -/
theorem f4_ioctl_open (env : Env) (s : State) (h : Int) (h0 : 0 ≤ h) (h2 : h < 2)
    (hU : (s.DevData h.toNat).Use = 1) (func : Nat) (argp : Nat → Nat) :
    (STM32F4XXCANIoCtl env s h func argp).1
      = (IoCtlSwitch env (CPU_CRITICAL_ENTER s) h.toNat (s.DevData h.toNat).Base func argp).1 ∧
    (STM32F4XXCANIoCtl env s h func argp).2.1.DevData
      = (IoCtlSwitch env (CPU_CRITICAL_ENTER s) h.toNat (s.DevData h.toNat).Base func
          argp).2.1.DevData ∧
    (STM32F4XXCANIoCtl env s h func argp).2.1.mem
      = (IoCtlSwitch env (CPU_CRITICAL_ENTER s) h.toNat (s.DevData h.toNat).Base func
          argp).2.1.mem ∧
    (STM32F4XXCANIoCtl env s h func argp).2.2
      = (IoCtlSwitch env (CPU_CRITICAL_ENTER s) h.toNat (s.DevData h.toNat).Base func
          argp).2.2 := by
  simp only [STM32F4XXCANIoCtl, f4_not_out_of_range h h0 h2, if_false, hU, ne_eq,
    not_true_eq_false]
  split_ifs <;> exact ⟨rfl, rfl, rfl, rfl⟩

/-- The case `SET_RX_FILTER_2` of the switch: result 0, the cursor of device `i` moved on,
every filter entry other than the pair at the cursor as before. -/
theorem f4_switch_filter2 (env : Env) (s : State) (i can : Nat) (argp : Nat → Nat) :
    (IoCtlSwitch env s i can IO_STM32F4XX_CAN_SET_RX_FILTER_2 argp).1 = 0 ∧
    (∀ j, ((IoCtlSwitch env s i can IO_STM32F4XX_CAN_SET_RX_FILTER_2 argp).2.1.DevData
        j).FilterIdx =
      if j = i then (if (s.DevData i).FilterIdx < 12 then (s.DevData i).FilterIdx + 2 else 0)
      else (s.DevData j).FilterIdx) ∧
    (∀ b k, k ≠ (s.DevData i).FilterIdx + (if i = STM32F4XX_CAN_BUS_0 then 0 else 14) →
      k ≠ (s.DevData i).FilterIdx + (if i = STM32F4XX_CAN_BUS_0 then 0 else 14) + 1 →
      ((IoCtlSwitch env s i can IO_STM32F4XX_CAN_SET_RX_FILTER_2 argp).2.1.mem
        b).FilterRegister k = (s.mem b).FilterRegister k) := by
  have e : IoCtlSwitch env s i can IO_STM32F4XX_CAN_SET_RX_FILTER_2 argp =
      (let mask := read32 argp 0
       let canId := read32 argp 4
       let can0 := (s.DevData STM32F4XX_CAN_BUS_0).Base
       let s := modCan s can0 (fun c => { c with FMR := c.FMR ||| STM32F4XX_CAN_FMR_FINIT })
       let idx := (s.DevData i).FilterIdx
       let s :=
         if i = STM32F4XX_CAN_BUS_0 then
           modCan s can0 (fun c => programPair c idx (idx + 1) mask canId)
         else modCan s can0 (fun c => programPair c (idx + 14) (idx + 15) mask canId)
       let s :=
         if (s.DevData i).FilterIdx < 12 then
           setDev s i { s.DevData i with FilterIdx := (s.DevData i).FilterIdx + 2 }
         else setDev s i { s.DevData i with FilterIdx := 0 }
       let s := modCan s can0 (fun c => { c with FMR := clr32 c.FMR STM32F4XX_CAN_FMR_FINIT })
       (Int.ofNat STM32F4XX_CAN_NO_ERR, s, argp)) := by
    unfold IoCtlSwitch
    simp only [IO_STM32F4XX_CAN_SET_RX_FILTER_2, IO_STM32F4XX_CAN_SET_RX_FILTER_1,
      IO_STM32F4XX_CAN_GET_NODE_STATUS, IO_STM32F4XX_CAN_GET_IDENT,
      IO_STM32F4XX_CAN_GET_ERRNO, IO_STM32F4XX_CAN_GET_DRVNAME,
      IO_STM32F4XX_CAN_SET_BAUDRATE, IO_STM32F4XX_CAN_TX_READY,
      IO_STM32F4XX_CAN_START, IO_STM32F4XX_CAN_STOP,
      IO_STM32F4XX_CAN_RX_STANDARD, IO_STM32F4XX_CAN_RX_EXTENDED]
    rfl
  rw [e]
  refine ⟨rfl, ?_, ?_⟩
  · intro j
    by_cases h1 : (s.DevData i).FilterIdx < 12
    · simp only [apply_ite State.DevData, f4_modCan_DevData, f4_setDev_DevData, ite_self, h1,
        if_true, upd_FilterIdx]
    · simp only [apply_ite State.DevData, f4_modCan_DevData, f4_setDev_DevData, ite_self, h1,
        if_false, upd_FilterIdx]
  · intro b k hk1 hk2
    by_cases h1 : (s.DevData i).FilterIdx < 12 <;>
    by_cases h0 : i = STM32F4XX_CAN_BUS_0
    all_goals
      first
        | rw [if_pos h0] at hk1 hk2
        | rw [if_neg h0] at hk1 hk2
      simp only [apply_ite State.DevData, f4_modCan_DevData, ite_self, h1, if_true, if_false]
      rw [f4_modCan_FilterRegister]
      · simp only [f4_setDev_mem]
        first
          | rw [if_pos h0]
          | rw [if_neg h0]
        rw [f4_modCan_FilterRegister]
        · rw [f4_modCan_FilterRegister]
          intro c; rfl
        · intro c
          exact programPair_other c _ _ _ _ k (by omega) (by omega)
      · intro c; rfl

theorem f4_modCan_mem_other (s : State) (b : Nat) (f : STM32F4XX_CAN_t → STM32F4XX_CAN_t)
    (b2 : Nat) (h : b2 ≠ b) : (modCan s b f).mem b2 = s.mem b2 := by
  simp [modCan, setCan, upd, h]

theorem sampleEnv_timingOnly : TimingOnly sampleEnv := by
  intro d
  simp only [sampleEnv]
  split_ifs <;> exact ⟨rfl, rfl⟩

end STM32F4XX

/-- C15: filter cursor of the STM32F4 driver. In every state reached from program start
(zeroed `DevData`, any hardware content) by any sequence of entry-point calls, hence in
every state reached from Init, the cursor `FilterIdx` of each device is even and at most
12. In such a state `SET_RX_FILTER_2` on an open device `h` returns 0 and writes no filter
entry other than the pair at `14 * h + FilterIdx`, which lies in the half of `h`
(`14 * h .. 14 * h + 13`); the cursor then is 0 if it was 12 and two more otherwise. The
timing resolver of the board support is taken not to touch `Base` and `FilterIdx`. -/
theorem C15_filter_cursor (env : STM32F4XX.Env) (hres : STM32F4XX.TimingOnly env)
    (mem : Nat → STM32F4XX.STM32F4XX_CAN_t) (rcc board : Nat) (nest : Int)
    (calls : List STM32F4XX.Call) (s : STM32F4XX.State)
    (hs : s = STM32F4XX.run env (STM32F4XX.startState mem rcc board nest) calls) :
    (∀ j, (s.DevData j).FilterIdx % 2 = 0 ∧ (s.DevData j).FilterIdx ≤ 12) ∧
    (∀ (h : Int) (argp : Nat → Nat), 0 ≤ h → h < 2 → (s.DevData h.toNat).Use = 1 →
      (STM32F4XX.STM32F4XXCANIoCtl env s h STM32F4XX.IO_STM32F4XX_CAN_SET_RX_FILTER_2
        argp).1 = 0 ∧
      (14 * h.toNat ≤ 14 * h.toNat + (s.DevData h.toNat).FilterIdx ∧
        14 * h.toNat + (s.DevData h.toNat).FilterIdx + 1 ≤ 14 * h.toNat + 13) ∧
      (∀ b k, k ≠ 14 * h.toNat + (s.DevData h.toNat).FilterIdx →
        k ≠ 14 * h.toNat + (s.DevData h.toNat).FilterIdx + 1 →
        ((STM32F4XX.STM32F4XXCANIoCtl env s h STM32F4XX.IO_STM32F4XX_CAN_SET_RX_FILTER_2
          argp).2.1.mem b).FilterRegister k = (s.mem b).FilterRegister k) ∧
      ((STM32F4XX.STM32F4XXCANIoCtl env s h STM32F4XX.IO_STM32F4XX_CAN_SET_RX_FILTER_2
        argp).2.1.DevData h.toNat).FilterIdx =
        if (s.DevData h.toNat).FilterIdx = 12 then 0
        else (s.DevData h.toNat).FilterIdx + 2) := by
  have hinv : STM32F4XX.cursorInv s := by
    rw [hs]
    exact STM32F4XX.cursorInv_run env hres calls _
      (STM32F4XX.cursorInv_start mem rcc board nest)
  refine ⟨hinv, ?_⟩
  intro h argp h0 h2 hU
  obtain ⟨e1, e2, e3, _⟩ := STM32F4XX.f4_ioctl_open env s h h0 h2 hU
    STM32F4XX.IO_STM32F4XX_CAN_SET_RX_FILTER_2 argp
  obtain ⟨r1, r2, r3⟩ := STM32F4XX.f4_switch_filter2 env (STM32F4XX.CPU_CRITICAL_ENTER s)
    h.toNat (s.DevData h.toNat).Base argp
  simp only [STM32F4XX.f4_enter_DevData, STM32F4XX.f4_enter_mem] at r2 r3
  have hi := hinv h.toNat
  have hc : h.toNat = 0 ∨ h.toNat = 1 := by omega
  refine ⟨e1.trans r1, ⟨by omega, by omega⟩, ?_, ?_⟩
  · intro b k hk1 hk2
    rw [e3]
    apply r3 b k
    · rcases hc with hc | hc <;> rw [hc] at hk1 hk2 ⊢ <;>
        simp [STM32F4XX.STM32F4XX_CAN_BUS_0] <;> omega
    · rcases hc with hc | hc <;> rw [hc] at hk1 hk2 ⊢ <;>
        simp [STM32F4XX.STM32F4XX_CAN_BUS_0] <;> omega
  · rw [e2, r2 h.toNat, if_pos rfl]
    split_ifs <;> omega

/-- Witness of C15: after `Init (0)`, `Open (0, 0, DEV_RW)` and five filter additions the
cursor of bus 0 is 12, and the sixth addition wraps it to 0. -/
theorem C15_filter_cursor_witness :
    ((STM32F4XX.STM32F4XXCANIoCtl STM32F4XX.sampleEnv (STM32F4XX.afterFilters 5) 0
      STM32F4XX.IO_STM32F4XX_CAN_SET_RX_FILTER_2
      (STM32F4XX.filterArg 0x7FF 0x123)).2.1.DevData 0).FilterIdx = 0 :=
  ((C15_filter_cursor STM32F4XX.sampleEnv STM32F4XX.sampleEnv_timingOnly
    (fun _ => STM32F4XX.resetCan) 0 0 0 _ (STM32F4XX.afterFilters 5) rfl).2 0
    (STM32F4XX.filterArg 0x7FF 0x123) (by decide) (by decide) (by decide)).2.2.2.trans
    (by decide)

/-- C16 (evaluation at the failing input): from the reset state, after `Init (0)` and
`Open (0, 0, DEV_RW)` the cursor of bus 0 is 2; six calls of `SET_RX_FILTER_2` bring it to
0 with the default pair, entries 0 and 1, still zero; the seventh call returns 0 and
programs entries 0 and 1. -/
theorem C16_seventh_filter_evaluation :
    ((STM32F4XX.afterFilters 0).DevData 0).FilterIdx = 2 ∧
    ((STM32F4XX.afterFilters 6).DevData 0).FilterIdx = 0 ∧
    ((STM32F4XX.afterFilters 6).DevData 0).Use = 1 ∧
    ((STM32F4XX.afterFilters 6).mem STM32F4XX.STM32F4XX_CAN1_BASE).FilterRegister 0
      = ⟨0, 0⟩ ∧
    ((STM32F4XX.afterFilters 6).mem STM32F4XX.STM32F4XX_CAN1_BASE).FilterRegister 1
      = ⟨0, 0⟩ ∧
    (STM32F4XX.STM32F4XXCANIoCtl STM32F4XX.sampleEnv (STM32F4XX.afterFilters 6) 0
      STM32F4XX.IO_STM32F4XX_CAN_SET_RX_FILTER_2 (STM32F4XX.filterArg 0x7FF 0x123)).1 = 0 ∧
    ((STM32F4XX.STM32F4XXCANIoCtl STM32F4XX.sampleEnv (STM32F4XX.afterFilters 6) 0
      STM32F4XX.IO_STM32F4XX_CAN_SET_RX_FILTER_2
      (STM32F4XX.filterArg 0x7FF 0x123)).2.1.mem
        STM32F4XX.STM32F4XX_CAN1_BASE).FilterRegister 0
      = ⟨0x123 <<< 21, 0x7FF <<< 21⟩ ∧
    ((STM32F4XX.STM32F4XXCANIoCtl STM32F4XX.sampleEnv (STM32F4XX.afterFilters 6) 0
      STM32F4XX.IO_STM32F4XX_CAN_SET_RX_FILTER_2
      (STM32F4XX.filterArg 0x7FF 0x123)).2.1.mem
        STM32F4XX.STM32F4XX_CAN1_BASE).FilterRegister 1
      = ⟨0x123 <<< 21, 0x7FF <<< 21⟩ := by
  decide

namespace STM32F4XX

theorem and_pow_eq_self_iff (x i : Nat) : x &&& 2 ^ i = 2 ^ i ↔ x &&& 2 ^ i ≠ 0 := by
  rw [and_two_pow_eq]
  have hp : 0 < 2 ^ i := Nat.two_pow_pos i
  rcases Nat.mod_two_eq_zero_or_one (x / 2 ^ i) with h | h
  · rw [h, Nat.zero_mul]
    exact ⟨fun e => absurd e.symm (Nat.ne_of_gt hp), fun e => absurd rfl e⟩
  · rw [h, Nat.one_mul]
    exact ⟨fun _ => Nat.ne_of_gt hp, fun _ => rfl⟩

theorem TME0_iff (x : Nat) :
    x &&& STM32F4XX_CAN_TSR_TME0 = STM32F4XX_CAN_TSR_TME0 ↔ x &&& STM32F4XX_CAN_TSR_TME0 ≠ 0 :=
  and_pow_eq_self_iff x 26

theorem TME1_iff (x : Nat) :
    x &&& STM32F4XX_CAN_TSR_TME1 = STM32F4XX_CAN_TSR_TME1 ↔ x &&& STM32F4XX_CAN_TSR_TME1 ≠ 0 :=
  and_pow_eq_self_iff x 27

theorem TME2_iff (x : Nat) :
    x &&& STM32F4XX_CAN_TSR_TME2 = STM32F4XX_CAN_TSR_TME2 ↔ x &&& STM32F4XX_CAN_TSR_TME2 ≠ 0 :=
  and_pow_eq_self_iff x 28

/-- The mailbox selection in terms of the three `TME` bits of `TSR`. -/
theorem TransmitMailbox_eq (x : Nat) :
    TransmitMailbox x =
      if x &&& STM32F4XX_CAN_TSR_TME0 ≠ 0 then 0
      else if x &&& STM32F4XX_CAN_TSR_TME1 ≠ 0 then 1
      else if x &&& STM32F4XX_CAN_TSR_TME2 ≠ 0 then 2
      else -1 := by
  unfold TransmitMailbox
  simp only [TME0_iff, TME1_iff, TME2_iff]

end STM32F4XX

namespace LPC22XX

end LPC22XX

namespace STM32F4XX

/-- The identifier register a write leaves in the chosen mailbox: the encoded identifier
with the transmit request bit, whatever the register held before. -/
theorem txImage_TIR (m : TxMailBox_t) (frm : STM32F4XX_CANFRM) :
    (txImage m frm).TIR = idWord frm.Identifier ||| STM32F4XX_CAN_TIxR_TXRQ := by
  simp only [txImage, STM32F4XX_CAN_TIxR_TXRQ, Nat.and_one_is_mod]
  rw [Nat.or_comm (m.TIR % 2), Nat.or_assoc, mod_two_or_one]

/-- A write on an open device whose selection yields mailbox `k`: result, chosen mailbox,
the other mailboxes. -/
theorem write_mailbox (s : State) (h : Int) (frm : STM32F4XX_CANFRM) (h0 : 0 ≤ h)
    (h2 : h < 2) (hU : (s.DevData h.toNat).Use = 1) (k : Nat)
    (hk : TransmitMailbox (s.mem (s.DevData h.toNat).Base).TSR = Int.ofNat k) :
    (STM32F4XXCANWrite s h (some frm) sizeof_CANFRM).1 = 16 ∧
    (((STM32F4XXCANWrite s h (some frm) sizeof_CANFRM).2.mem
        (s.DevData h.toNat).Base).TxMailBox k)
      = txImage ((s.mem (s.DevData h.toNat).Base).TxMailBox k) frm ∧
    (∀ j, j ≠ k →
      ((STM32F4XXCANWrite s h (some frm) sizeof_CANFRM).2.mem
        (s.DevData h.toNat).Base).TxMailBox j = (s.mem (s.DevData h.toNat).Base).TxMailBox j) := by
  have hk0 : 0 ≤ TransmitMailbox (s.mem (s.DevData h.toNat).Base).TSR := by
    rw [hk]; exact Int.ofNat_nonneg k
  rw [write_free s h frm h0 h2 hU hk0, hk]
  refine ⟨rfl, ?_, ?_⟩
  · simp [setCan, setTxMailBox]
  · intro j hj
    simp [setCan, setTxMailBox, upd, hj]

end STM32F4XX

/-- C22: `STM32F4XXCANWrite` on an open device uses the lowest-numbered mailbox `k` among
0, 1, 2 whose bit `TME` (`TME0 << k`) is set in `TSR`: it returns the frame size, leaves
the registers of the two other mailboxes unchanged, and the register `TIR` of mailbox `k`
ends as the encoded identifier (`Identifier << 21`, or
`((Identifier & 0x1FFFFFFF) << 3) | 0x04` above `0x7FF`) or-ed with `TXRQ`, whatever `TIR`
held before the call. -/
theorem C22_first_free_mailbox (s : STM32F4XX.State) (h : Int) (h0 : 0 ≤ h) (h2 : h < 2)
    (frm : STM32F4XX.STM32F4XX_CANFRM) (hU : (s.DevData h.toNat).Use = 1)
    (k : Nat) (hk : k < 3)
    (hset : (s.mem (s.DevData h.toNat).Base).TSR &&& (STM32F4XX.STM32F4XX_CAN_TSR_TME0 <<< k)
      ≠ 0)
    (hlow : ∀ j, j < k →
      (s.mem (s.DevData h.toNat).Base).TSR &&& (STM32F4XX.STM32F4XX_CAN_TSR_TME0 <<< j) = 0) :
    (STM32F4XX.STM32F4XXCANWrite s h (some frm) STM32F4XX.sizeof_CANFRM).1
      = Int.ofNat STM32F4XX.sizeof_CANFRM ∧
    (((STM32F4XX.STM32F4XXCANWrite s h (some frm) STM32F4XX.sizeof_CANFRM).2.mem
        (s.DevData h.toNat).Base).TxMailBox k).TIR
      = STM32F4XX.idWord frm.Identifier ||| STM32F4XX.STM32F4XX_CAN_TIxR_TXRQ ∧
    (∀ j, j ≠ k →
      ((STM32F4XX.STM32F4XXCANWrite s h (some frm) STM32F4XX.sizeof_CANFRM).2.mem
        (s.DevData h.toNat).Base).TxMailBox j
        = (s.mem (s.DevData h.toNat).Base).TxMailBox j) := by
  have hsel : STM32F4XX.TransmitMailbox (s.mem (s.DevData h.toNat).Base).TSR = Int.ofNat k := by
    rw [STM32F4XX.TransmitMailbox_eq]
    have hc : k = 0 ∨ k = 1 ∨ k = 2 := by omega
    rcases hc with rfl | rfl | rfl
    · have a : (s.mem (s.DevData h.toNat).Base).TSR &&& STM32F4XX.STM32F4XX_CAN_TSR_TME0 ≠ 0 :=
        hset
      rw [if_pos a]; rfl
    · have a : (s.mem (s.DevData h.toNat).Base).TSR &&& STM32F4XX.STM32F4XX_CAN_TSR_TME0 = 0 :=
        hlow 0 (by decide)
      have b : (s.mem (s.DevData h.toNat).Base).TSR &&& STM32F4XX.STM32F4XX_CAN_TSR_TME1 ≠ 0 :=
        hset
      rw [if_neg (by rw [a]; simp), if_pos b]; rfl
    · have a : (s.mem (s.DevData h.toNat).Base).TSR &&& STM32F4XX.STM32F4XX_CAN_TSR_TME0 = 0 :=
        hlow 0 (by decide)
      have b : (s.mem (s.DevData h.toNat).Base).TSR &&& STM32F4XX.STM32F4XX_CAN_TSR_TME1 = 0 :=
        hlow 1 (by decide)
      have c : (s.mem (s.DevData h.toNat).Base).TSR &&& STM32F4XX.STM32F4XX_CAN_TSR_TME2 ≠ 0 :=
        hset
      rw [if_neg (by rw [a]; simp), if_neg (by rw [b]; simp), if_pos c]; rfl
  obtain ⟨r1, r2, r3⟩ := STM32F4XX.write_mailbox s h frm h0 h2 hU k hsel
  refine ⟨r1, ?_, r3⟩
  rw [r2, STM32F4XX.txImage_TIR]

/-- Witness of C22: on the open sample state with `TSR = 0x18000000` (mailbox 0 occupied,
mailboxes 1 and 2 empty) the write of identifier `0x123` uses mailbox 1. -/
theorem C22_first_free_mailbox_witness :
    (((STM32F4XX.STM32F4XXCANWrite STM32F4XX.partBusyState 0
        (some (STM32F4XX.sampleFrm 0x123)) STM32F4XX.sizeof_CANFRM).2.mem
        (STM32F4XX.partBusyState.DevData 0).Base).TxMailBox 1).TIR
      = STM32F4XX.idWord 0x123 ||| STM32F4XX.STM32F4XX_CAN_TIxR_TXRQ :=
  (C22_first_free_mailbox STM32F4XX.partBusyState 0 (by decide) (by decide)
    (STM32F4XX.sampleFrm 0x123) (by decide) 1 (by decide) (by decide)
    (by intro j hj; have : j = 0 := by omega
        subst this; decide)).2.1

namespace STM32F4XX

theorem FIFONumber_zero (a b : Nat) (h : a &&& 0x03 ≥ 1) : FIFONumber a b = 0 := by
  unfold FIFONumber; rw [if_pos h]

theorem FIFONumber_one (a b : Nat) (h : a &&& 0x03 = 0) (h1 : b &&& 0x03 ≥ 1) :
    FIFONumber a b = 1 := by
  unfold FIFONumber; rw [if_neg (by omega), if_pos h1]

theorem FIFONumber_none (a b : Nat) (h : a &&& 0x03 = 0) (h1 : b &&& 0x03 = 0) :
    FIFONumber a b = -1 := by
  unfold FIFONumber; rw [if_neg (by omega), if_neg (by omega)]

end STM32F4XX

/-- The fields of the frame `STM32F4XXCANRead` delivers from the FIFO mailbox `mb`:
identifier from `RIR` (shifted by 21, or by 3 with the extended flag when `IDE` is set,
and the remote flag when `RTR` is set), DLC from the low four bits of `RDTR`, data bytes
0..3 from `RDLR` and 4..7 from `RDHR`, low byte first. -/
theorem rxFrame_fields (mb : STM32F4XX.FIFOMailBox_t) (buf : STM32F4XX.STM32F4XX_CANFRM) :
    (some (STM32F4XX.rxFrame mb buf)).map STM32F4XX.STM32F4XX_CANFRM.Identifier
      = some (if mb.RIR &&& 0x02 ≠ 0 then
          (if mb.RIR &&& 0x04 = 0 then mb.RIR >>> 21
            else mb.RIR >>> 3 ||| STM32F4XX.STM32F4XX_FF_FRAME_BIT)
            ||| STM32F4XX.STM32F4XX_RTR_FRAME_BIT
        else
          (if mb.RIR &&& 0x04 = 0 then mb.RIR >>> 21
            else mb.RIR >>> 3 ||| STM32F4XX.STM32F4XX_FF_FRAME_BIT)) ∧
    (some (STM32F4XX.rxFrame mb buf)).map STM32F4XX.STM32F4XX_CANFRM.DLC
      = some ((mb.RDTR &&& 0x0F) % 256) ∧
    (∀ i, i < 4 → (some (STM32F4XX.rxFrame mb buf)).map (fun f => f.Data i)
      = some ((mb.RDLR >>> (8 * i)) % 256)) ∧
    (∀ i, i < 4 → (some (STM32F4XX.rxFrame mb buf)).map (fun f => f.Data (4 + i))
      = some ((mb.RDHR >>> (8 * i)) % 256)) := by
  obtain ⟨a0, a1, a2, a3, a4, a5, a6, a7⟩ := STM32F4XX.rxFrame_Data mb buf
  refine ⟨?_, ?_, ?_, ?_⟩
  · simp only [Option.map_some', STM32F4XX.rxFrame_Identifier]
  · simp only [Option.map_some', STM32F4XX.rxFrame_DLC]
  · intro i hi
    simp only [Option.map_some']
    interval_cases i
    · rw [a0]; rfl
    · rw [a1]
    · rw [a2]
    · rw [a3]
  · intro i hi
    simp only [Option.map_some']
    interval_cases i
    · rw [a4]; rfl
    · rw [a5]
    · rw [a6]
    · rw [a7]

/-- The choice of the receive FIFO by `STM32F4XXCANRead` on an open device, with the
frame given by the decoding block `rxFrame`. -/
theorem read_fifo_choice (s : STM32F4XX.State) (h : Int) (h0 : 0 ≤ h) (h2 : h < 2)
    (buf : STM32F4XX.STM32F4XX_CANFRM) (hU : (s.DevData h.toNat).Use = 1) :
    ((s.mem (s.DevData h.toNat).Base).RF0R &&& 0x03 ≥ 1 →
      STM32F4XX.STM32F4XXCANRead s h (some buf) STM32F4XX.sizeof_CANFRM
        = (16, s, some (STM32F4XX.rxFrame
            ((s.mem (s.DevData h.toNat).Base).FIFOMailBox 0) buf)) ∧
      ∀ s2 : STM32F4XX.State, s2.DevData h.toNat = s.DevData h.toNat →
        (s2.mem (s.DevData h.toNat).Base).RF0R = (s.mem (s.DevData h.toNat).Base).RF0R →
        (s2.mem (s.DevData h.toNat).Base).FIFOMailBox 0
          = (s.mem (s.DevData h.toNat).Base).FIFOMailBox 0 →
        (STM32F4XX.STM32F4XXCANRead s2 h (some buf) STM32F4XX.sizeof_CANFRM).2.2
          = some (STM32F4XX.rxFrame ((s.mem (s.DevData h.toNat).Base).FIFOMailBox 0) buf)) ∧
    ((s.mem (s.DevData h.toNat).Base).RF0R &&& 0x03 = 0 →
      (s.mem (s.DevData h.toNat).Base).RF1R &&& 0x03 ≥ 1 →
      STM32F4XX.STM32F4XXCANRead s h (some buf) STM32F4XX.sizeof_CANFRM
        = (16, s, some (STM32F4XX.rxFrame
            ((s.mem (s.DevData h.toNat).Base).FIFOMailBox 1) buf))) ∧
    ((s.mem (s.DevData h.toNat).Base).RF0R &&& 0x03 = 0 →
      (s.mem (s.DevData h.toNat).Base).RF1R &&& 0x03 = 0 →
      (STM32F4XX.STM32F4XXCANRead s h (some buf) STM32F4XX.sizeof_CANFRM).1 = -1) ∧
    (STM32F4XX.FIFONumber (s.mem (s.DevData h.toNat).Base).RF0R
        (s.mem (s.DevData h.toNat).Base).RF1R = 1 ↔
      ((s.mem (s.DevData h.toNat).Base).RF0R &&& 0x03 = 0 ∧
        (s.mem (s.DevData h.toNat).Base).RF1R &&& 0x03 ≥ 1)) := by
  refine ⟨fun hp => ⟨?_, ?_⟩, fun hz hp => ?_, fun hz hz1 => ?_, ?_⟩
  · have e := STM32F4XX.FIFONumber_zero _ (s.mem (s.DevData h.toNat).Base).RF1R hp
    have r := STM32F4XX.read_pending s h buf h0 h2 hU (by rw [e])
    rw [e] at r
    exact r
  · intro s2 hd hr hm
    have hU2 : (s2.DevData h.toNat).Use = 1 := by rw [hd]; exact hU
    have e : STM32F4XX.FIFONumber (s2.mem (s2.DevData h.toNat).Base).RF0R
        (s2.mem (s2.DevData h.toNat).Base).RF1R = 0 := by
      apply STM32F4XX.FIFONumber_zero
      rw [hd, hr]; exact hp
    have r := STM32F4XX.read_pending s2 h buf h0 h2 hU2 (by rw [e])
    rw [e] at r
    rw [r, hd]
    show some _ = some _
    rw [show ((0 : Int).toNat) = 0 from rfl, hm]
  · have e := STM32F4XX.FIFONumber_one _ _ hz hp
    have r := STM32F4XX.read_pending s h buf h0 h2 hU (by rw [e]; decide)
    rw [e] at r
    exact r
  · have e := STM32F4XX.FIFONumber_none _ _ hz hz1
    simp [STM32F4XX.STM32F4XXCANRead, STM32F4XX.f4_not_out_of_range h h0 h2, hU, e,
      STM32F4XX.CPU_CRITICAL_ENTER, STM32F4XX.CPU_CRITICAL_EXIT]
  · unfold STM32F4XX.FIFONumber
    by_cases a : (s.mem (s.DevData h.toNat).Base).RF0R &&& 0x03 ≥ 1 <;>
    by_cases b : (s.mem (s.DevData h.toNat).Base).RF1R &&& 0x03 ≥ 1 <;>
    simp [a, b] <;> omega

/-- C23: `STM32F4XXCANRead` on an open device gives receive FIFO 0 priority. Whenever
`(RF0R & 3) ≥ 1` the call succeeds and every field of the frame is decoded from the
registers of FIFO mailbox 0 (identifier from `RIR`, DLC from `RDTR`, data bytes from `RDLR`
and `RDHR`), the same frame in every other state that agrees on the device record, `RF0R`
and FIFO mailbox 0 (whatever `RF1R` and FIFO mailbox 1 hold); the registers of FIFO
mailbox 1 are decoded when `(RF0R & 3) = 0` and `(RF1R & 3) ≥ 1`; with both fields 0 the
call returns -1. The selection yields FIFO 1 exactly in the second case. -/
theorem C23_fifo_priority (s : STM32F4XX.State) (h : Int) (h0 : 0 ≤ h) (h2 : h < 2)
    (buf : STM32F4XX.STM32F4XX_CANFRM) (hU : (s.DevData h.toNat).Use = 1) :
    ((s.mem (s.DevData h.toNat).Base).RF0R &&& 0x03 ≥ 1 →
      STM32F4XX.STM32F4XXCANRead s h (some buf) STM32F4XX.sizeof_CANFRM
        = (16, s, some (STM32F4XX.rxFrame
            ((s.mem (s.DevData h.toNat).Base).FIFOMailBox 0) buf)) ∧
      (STM32F4XX.STM32F4XXCANRead s h (some buf) STM32F4XX.sizeof_CANFRM).2.2.map
          STM32F4XX.STM32F4XX_CANFRM.Identifier
        = some (if ((s.mem (s.DevData h.toNat).Base).FIFOMailBox 0).RIR &&& 0x02 ≠ 0 then
            (if ((s.mem (s.DevData h.toNat).Base).FIFOMailBox 0).RIR &&& 0x04 = 0 then
                ((s.mem (s.DevData h.toNat).Base).FIFOMailBox 0).RIR >>> 21
              else ((s.mem (s.DevData h.toNat).Base).FIFOMailBox 0).RIR >>> 3
                ||| STM32F4XX.STM32F4XX_FF_FRAME_BIT) ||| STM32F4XX.STM32F4XX_RTR_FRAME_BIT
          else
            (if ((s.mem (s.DevData h.toNat).Base).FIFOMailBox 0).RIR &&& 0x04 = 0 then
                ((s.mem (s.DevData h.toNat).Base).FIFOMailBox 0).RIR >>> 21
              else ((s.mem (s.DevData h.toNat).Base).FIFOMailBox 0).RIR >>> 3
                ||| STM32F4XX.STM32F4XX_FF_FRAME_BIT)) ∧
      (STM32F4XX.STM32F4XXCANRead s h (some buf) STM32F4XX.sizeof_CANFRM).2.2.map
          STM32F4XX.STM32F4XX_CANFRM.DLC
        = some ((((s.mem (s.DevData h.toNat).Base).FIFOMailBox 0).RDTR &&& 0x0F) % 256) ∧
      (∀ i, i < 4 →
        (STM32F4XX.STM32F4XXCANRead s h (some buf) STM32F4XX.sizeof_CANFRM).2.2.map
            (fun f => f.Data i)
          = some ((((s.mem (s.DevData h.toNat).Base).FIFOMailBox 0).RDLR >>> (8 * i)) % 256)) ∧
      (∀ i, i < 4 →
        (STM32F4XX.STM32F4XXCANRead s h (some buf) STM32F4XX.sizeof_CANFRM).2.2.map
            (fun f => f.Data (4 + i))
          = some ((((s.mem (s.DevData h.toNat).Base).FIFOMailBox 0).RDHR >>> (8 * i)) % 256)) ∧
      ∀ s2 : STM32F4XX.State, s2.DevData h.toNat = s.DevData h.toNat →
        (s2.mem (s.DevData h.toNat).Base).RF0R = (s.mem (s.DevData h.toNat).Base).RF0R →
        (s2.mem (s.DevData h.toNat).Base).FIFOMailBox 0
          = (s.mem (s.DevData h.toNat).Base).FIFOMailBox 0 →
        (STM32F4XX.STM32F4XXCANRead s2 h (some buf) STM32F4XX.sizeof_CANFRM).2.2
          = some (STM32F4XX.rxFrame ((s.mem (s.DevData h.toNat).Base).FIFOMailBox 0) buf)) ∧
    ((s.mem (s.DevData h.toNat).Base).RF0R &&& 0x03 = 0 →
      (s.mem (s.DevData h.toNat).Base).RF1R &&& 0x03 ≥ 1 →
      STM32F4XX.STM32F4XXCANRead s h (some buf) STM32F4XX.sizeof_CANFRM
        = (16, s, some (STM32F4XX.rxFrame
            ((s.mem (s.DevData h.toNat).Base).FIFOMailBox 1) buf)) ∧
      (STM32F4XX.STM32F4XXCANRead s h (some buf) STM32F4XX.sizeof_CANFRM).2.2.map
          STM32F4XX.STM32F4XX_CANFRM.Identifier
        = some (if ((s.mem (s.DevData h.toNat).Base).FIFOMailBox 1).RIR &&& 0x02 ≠ 0 then
            (if ((s.mem (s.DevData h.toNat).Base).FIFOMailBox 1).RIR &&& 0x04 = 0 then
                ((s.mem (s.DevData h.toNat).Base).FIFOMailBox 1).RIR >>> 21
              else ((s.mem (s.DevData h.toNat).Base).FIFOMailBox 1).RIR >>> 3
                ||| STM32F4XX.STM32F4XX_FF_FRAME_BIT) ||| STM32F4XX.STM32F4XX_RTR_FRAME_BIT
          else
            (if ((s.mem (s.DevData h.toNat).Base).FIFOMailBox 1).RIR &&& 0x04 = 0 then
                ((s.mem (s.DevData h.toNat).Base).FIFOMailBox 1).RIR >>> 21
              else ((s.mem (s.DevData h.toNat).Base).FIFOMailBox 1).RIR >>> 3
                ||| STM32F4XX.STM32F4XX_FF_FRAME_BIT)) ∧
      (STM32F4XX.STM32F4XXCANRead s h (some buf) STM32F4XX.sizeof_CANFRM).2.2.map
          STM32F4XX.STM32F4XX_CANFRM.DLC
        = some ((((s.mem (s.DevData h.toNat).Base).FIFOMailBox 1).RDTR &&& 0x0F) % 256) ∧
      (∀ i, i < 4 →
        (STM32F4XX.STM32F4XXCANRead s h (some buf) STM32F4XX.sizeof_CANFRM).2.2.map
            (fun f => f.Data i)
          = some ((((s.mem (s.DevData h.toNat).Base).FIFOMailBox 1).RDLR >>> (8 * i)) % 256)) ∧
      (∀ i, i < 4 →
        (STM32F4XX.STM32F4XXCANRead s h (some buf) STM32F4XX.sizeof_CANFRM).2.2.map
            (fun f => f.Data (4 + i))
          = some ((((s.mem (s.DevData h.toNat).Base).FIFOMailBox 1).RDHR >>> (8 * i)) % 256))) ∧
    ((s.mem (s.DevData h.toNat).Base).RF0R &&& 0x03 = 0 →
      (s.mem (s.DevData h.toNat).Base).RF1R &&& 0x03 = 0 →
      (STM32F4XX.STM32F4XXCANRead s h (some buf) STM32F4XX.sizeof_CANFRM).1 = -1) ∧
    (STM32F4XX.FIFONumber (s.mem (s.DevData h.toNat).Base).RF0R
        (s.mem (s.DevData h.toNat).Base).RF1R = 1 ↔
      ((s.mem (s.DevData h.toNat).Base).RF0R &&& 0x03 = 0 ∧
        (s.mem (s.DevData h.toNat).Base).RF1R &&& 0x03 ≥ 1)) := by
  obtain ⟨c0, c1, c2, c3⟩ := read_fifo_choice s h h0 h2 buf hU
  refine ⟨fun hp => ?_, fun hz hp => ?_, c2, c3⟩
  · obtain ⟨r, ind⟩ := c0 hp
    obtain ⟨f1, f2, f3, f4⟩ := rxFrame_fields ((s.mem (s.DevData h.toNat).Base).FIFOMailBox 0) buf
    refine ⟨r, ?_, ?_, ?_, ?_, ind⟩
    · rw [r]; exact f1
    · rw [r]; exact f2
    · intro i hi; rw [r]; exact f3 i hi
    · intro i hi; rw [r]; exact f4 i hi
  · have r := c1 hz hp
    obtain ⟨f1, f2, f3, f4⟩ := rxFrame_fields ((s.mem (s.DevData h.toNat).Base).FIFOMailBox 1) buf
    refine ⟨r, ?_, ?_, ?_, ?_⟩
    · rw [r]; exact f1
    · rw [r]; exact f2
    · intro i hi; rw [r]; exact f3 i hi
    · intro i hi; rw [r]; exact f4 i hi

/-- Witness of C23: the pending sample state, whose entry in FIFO 0 is the looped-back
frame with identifier `0x123`, DLC 8 and first data byte `0x10`: the read into a zeroed
buffer delivers these values. -/
theorem C23_fifo_priority_witness :
    (STM32F4XX.STM32F4XXCANRead STM32F4XX.pendingState 0 (some STM32F4XX.zeroFrm)
      STM32F4XX.sizeof_CANFRM).2.2.map STM32F4XX.STM32F4XX_CANFRM.Identifier = some 0x123 ∧
    (STM32F4XX.STM32F4XXCANRead STM32F4XX.pendingState 0 (some STM32F4XX.zeroFrm)
      STM32F4XX.sizeof_CANFRM).2.2.map STM32F4XX.STM32F4XX_CANFRM.DLC = some 8 ∧
    (STM32F4XX.STM32F4XXCANRead STM32F4XX.pendingState 0 (some STM32F4XX.zeroFrm)
      STM32F4XX.sizeof_CANFRM).2.2.map (fun f => f.Data 0) = some 0x10 :=
  ⟨((C23_fifo_priority STM32F4XX.pendingState 0 (by decide) (by decide) STM32F4XX.zeroFrm
      (by decide)).1 (by decide)).2.1.trans (by decide),
    ((C23_fifo_priority STM32F4XX.pendingState 0 (by decide) (by decide) STM32F4XX.zeroFrm
      (by decide)).1 (by decide)).2.2.1.trans (by decide),
    (((C23_fifo_priority STM32F4XX.pendingState 0 (by decide) (by decide) STM32F4XX.zeroFrm
      (by decide)).1 (by decide)).2.2.2.1 0 (by decide)).trans (by decide)⟩

/-- Counterexample to C24 as stated: with the length code 15 in `RDTR` of the pending
FIFO 0 entry, the read on bus 0 succeeds and delivers a frame with DLC 15, which is not in
the range 0..8. -/
theorem C24_dlc_range_counterexample :
    (STM32F4XX.STM32F4XXCANRead STM32F4XX.dlc15State 0 (some STM32F4XX.zeroFrm)
      STM32F4XX.sizeof_CANFRM).1 = 16 ∧
    (STM32F4XX.STM32F4XXCANRead STM32F4XX.dlc15State 0 (some STM32F4XX.zeroFrm)
      STM32F4XX.sizeof_CANFRM).2.2.map STM32F4XX.STM32F4XX_CANFRM.DLC = some 15 ∧
    ¬ (15 ≤ 8) := by
  decide

/-- C24 (amended): every frame delivered by a successful `STM32F4XXCANRead` has a DLC field
in the range 0..15, the four-bit length code `RDTR & 0x0F` of the receive mailbox, for
every content of the receive mailbox registers. -/
theorem C24_dlc_range_amended (s : STM32F4XX.State) (paraId : Int)
    (buffer : Option STM32F4XX.STM32F4XX_CANFRM) (size : Nat)
    (f : STM32F4XX.STM32F4XX_CANFRM)
    (hok : (STM32F4XX.STM32F4XXCANRead s paraId buffer size).1 ≠ -1)
    (hf : (STM32F4XX.STM32F4XXCANRead s paraId buffer size).2.2 = some f) :
    f.DLC ≤ 15 := by
  by_cases h1 : paraId ≥ STM32F4XX.STM32F4XX_CAN_N_DEV ∨ paraId < 0
  · simp [STM32F4XX.STM32F4XXCANRead, h1] at hok
  · by_cases h2 : size ≠ STM32F4XX.sizeof_CANFRM
    · simp [STM32F4XX.STM32F4XXCANRead, h1, h2] at hok
    · cases buffer with
      | none => simp [STM32F4XX.STM32F4XXCANRead, h1, h2] at hok
      | some frm =>
        by_cases h3 : (s.DevData paraId.toNat).Use ≠ 1
        · simp [STM32F4XX.STM32F4XXCANRead, h1, h2, h3] at hok
        · by_cases h4 : STM32F4XX.FIFONumber (s.mem (s.DevData paraId.toNat).Base).RF0R
              (s.mem (s.DevData paraId.toNat).Base).RF1R ≥ 0
          · simp only [STM32F4XX.STM32F4XXCANRead, h1, h2, h3, h4, if_true, if_false,
              STM32F4XX.CPU_CRITICAL_ENTER, STM32F4XX.CPU_CRITICAL_EXIT] at hf
            have e := Option.some.inj hf
            rw [← e, STM32F4XX.rxFrame_DLC, and_0F]
            omega
          · simp [STM32F4XX.STM32F4XXCANRead, h1, h2, h3, h4,
              STM32F4XX.CPU_CRITICAL_ENTER, STM32F4XX.CPU_CRITICAL_EXIT] at hok

/-- Witness of C24 (amended): the frame read from the pending sample state. -/
theorem C24_dlc_range_amended_witness :
    (STM32F4XX.rxFrame
      ((STM32F4XX.pendingState.mem STM32F4XX.STM32F4XX_CAN1_BASE).FIFOMailBox 0)
      STM32F4XX.zeroFrm).DLC ≤ 15 :=
  C24_dlc_range_amended STM32F4XX.pendingState 0 (some STM32F4XX.zeroFrm)
    STM32F4XX.sizeof_CANFRM _ (by decide)
    (congrArg (fun r => r.2.2) (STM32F4XX.read_pending STM32F4XX.pendingState 0
      STM32F4XX.zeroFrm (by decide) (by decide) (by decide) (by decide)))

/-- C25 (evaluation at the failing input): on the open sample state the write of a frame
with DLC 8 returns 16, the frame size, and the read of the frame looped back into FIFO 0
returns 16 as well while the frame read has DLC 8. -/
theorem C25_return_value_evaluation :
    (STM32F4XX.sampleFrm 0x123).DLC = 8 ∧
    (STM32F4XX.STM32F4XXCANWrite STM32F4XX.openState 0 (some (STM32F4XX.sampleFrm 0x123))
      STM32F4XX.sizeof_CANFRM).1 = 16 ∧
    (STM32F4XX.STM32F4XXCANRead STM32F4XX.pendingState 0 (some STM32F4XX.zeroFrm)
      STM32F4XX.sizeof_CANFRM).1 = 16 ∧
    (STM32F4XX.STM32F4XXCANRead STM32F4XX.pendingState 0 (some STM32F4XX.zeroFrm)
      STM32F4XX.sizeof_CANFRM).2.2.map STM32F4XX.STM32F4XX_CANFRM.DLC = some 8 := by
  decide

namespace LPC22XX

/-- A read on an open device with a frame in the receive buffer: result, state, frame. -/
theorem lpc_read_pending (s : State) (h : Int) (buf : LPC22XX_CANFRM) (h0 : 0 ≤ h)
    (h2 : h < 2) (hU : (s.DevData h.toNat).Use = 1)
    (hG : (if h = 0 then s.C1GSR else s.C2GSR) &&& 1 = 1) :
    LPC22XXCANRead s h (some buf) sizeof_CANFRM =
      (16, s, some (readBus s buf sizeof_CANFRM
        (if h = 0 then s.C1GSR else s.C2GSR) (if h = 0 then s.C1RID else s.C2RID)
        (if h = 0 then s.C1RFS else s.C2RFS) (if h = 0 then s.C1RDA else s.C2RDA)
        (if h = 0 then s.C1RDB else s.C2RDB)).2.2) := by
  have hc : h = 0 ∨ h = 1 := by omega
  rcases hc with rfl | rfl
  · simp at hG hU
    simp only [LPC22XXCANRead, lpc_not_out_of_range 0 h0 h2, if_false, ne_eq,
      not_true_eq_false, readBus, CPU_CRITICAL_ENTER, CPU_CRITICAL_EXIT]
    simp [hU, hG, LPC22XX_CAN_BUS_0, sizeof_CANFRM]
  · simp at hG hU
    simp only [LPC22XXCANRead, lpc_not_out_of_range 1 h0 h2, if_false, ne_eq,
      not_true_eq_false, readBus, CPU_CRITICAL_ENTER, CPU_CRITICAL_EXIT]
    simp [hU, hG, LPC22XX_CAN_BUS_0, LPC22XX_CAN_BUS_1, sizeof_CANFRM]

/-- The frame a read delivers does not depend on what the buffer held before, as far as
identifier, DLC and the eight data bytes go. -/
theorem readBus_content (s : State) (b1 b2 : LPC22XX_CANFRM) (size GSR RID RFS RDA RDB : Nat)
    (hG : GSR &&& 1 = 1) :
    (readBus s b2 size GSR RID RFS RDA RDB).2.2.Identifier
      = (readBus s b1 size GSR RID RFS RDA RDB).2.2.Identifier ∧
    (readBus s b2 size GSR RID RFS RDA RDB).2.2.DLC
      = (readBus s b1 size GSR RID RFS RDA RDB).2.2.DLC ∧
    ∀ i, i < 8 → (readBus s b2 size GSR RID RFS RDA RDB).2.2.Data i
      = (readBus s b1 size GSR RID RFS RDA RDB).2.2.Data i := by
  unfold readBus
  rw [if_pos hG, if_pos hG]
  refine ⟨?_, ?_, ?_⟩
  · by_cases a : RFS &&& LPC22XX_CAN_RTR_MASK ≠ 0 <;>
    by_cases b : RFS &&& LPC22XX_CAN_FF_MASK ≠ 0 <;> simp [a, b]
  · simp
  · intro i hi
    interval_cases i <;> simp [write32, upd]

end LPC22XX

namespace STM32F4XX

/-- The frame a read delivers does not depend on what the buffer held before, as far as
identifier, DLC and the eight data bytes go. -/
theorem rxFrame_content (mb : FIFOMailBox_t) (b1 b2 : STM32F4XX_CANFRM) :
    (rxFrame mb b2).Identifier = (rxFrame mb b1).Identifier ∧
    (rxFrame mb b2).DLC = (rxFrame mb b1).DLC ∧
    ∀ i, i < 8 → (rxFrame mb b2).Data i = (rxFrame mb b1).Data i := by
  refine ⟨?_, ?_, ?_⟩
  · rw [rxFrame_Identifier, rxFrame_Identifier]
  · rw [rxFrame_DLC, rxFrame_DLC]
  · intro i hi
    obtain ⟨a0, a1, a2, a3, a4, a5, a6, a7⟩ := rxFrame_Data mb b1
    obtain ⟨c0, c1, c2, c3, c4, c5, c6, c7⟩ := rxFrame_Data mb b2
    interval_cases i
    · rw [a0, c0]
    · rw [a1, c1]
    · rw [a2, c2]
    · rw [a3, c3]
    · rw [a4, c4]
    · rw [a5, c5]
    · rw [a6, c6]
    · rw [a7, c7]

end STM32F4XX

/-- C28: a successful read of either driver changes no state at all (no register, in
particular not `RF0R`, `RF1R` or a command register), so a second read in the resulting
state succeeds as well, and its frame has the same identifier, DLC and eight data bytes
as the first, whatever the two buffers held before. -/
theorem C28_read_keeps_entry (sS : STM32F4XX.State) (sL : LPC22XX.State) (h : Int)
    (h0 : 0 ≤ h) (h2 : h < 2) (bufS buf2S : STM32F4XX.STM32F4XX_CANFRM)
    (bufL buf2L : LPC22XX.LPC22XX_CANFRM)
    (hUS : (sS.DevData h.toNat).Use = 1) (hUL : (sL.DevData h.toNat).Use = 1)
    (hP : (sS.mem (sS.DevData h.toNat).Base).RF0R &&& 0x03 ≥ 1 ∨
      (sS.mem (sS.DevData h.toNat).Base).RF1R &&& 0x03 ≥ 1)
    (hG : (if h = 0 then sL.C1GSR else sL.C2GSR) &&& 1 = 1) :
    ((STM32F4XX.STM32F4XXCANRead sS h (some bufS) STM32F4XX.sizeof_CANFRM).1
        = Int.ofNat STM32F4XX.sizeof_CANFRM ∧
      (STM32F4XX.STM32F4XXCANRead sS h (some bufS) STM32F4XX.sizeof_CANFRM).2.1 = sS ∧
      (STM32F4XX.STM32F4XXCANRead
        (STM32F4XX.STM32F4XXCANRead sS h (some bufS) STM32F4XX.sizeof_CANFRM).2.1
        h (some buf2S) STM32F4XX.sizeof_CANFRM).1 = Int.ofNat STM32F4XX.sizeof_CANFRM ∧
      ∃ f1 f2,
        (STM32F4XX.STM32F4XXCANRead sS h (some bufS) STM32F4XX.sizeof_CANFRM).2.2 = some f1 ∧
        (STM32F4XX.STM32F4XXCANRead
          (STM32F4XX.STM32F4XXCANRead sS h (some bufS) STM32F4XX.sizeof_CANFRM).2.1
          h (some buf2S) STM32F4XX.sizeof_CANFRM).2.2 = some f2 ∧
        f2.Identifier = f1.Identifier ∧ f2.DLC = f1.DLC ∧
        ∀ i, i < 8 → f2.Data i = f1.Data i) ∧
    ((LPC22XX.LPC22XXCANRead sL h (some bufL) LPC22XX.sizeof_CANFRM).1
        = Int.ofNat LPC22XX.sizeof_CANFRM ∧
      (LPC22XX.LPC22XXCANRead sL h (some bufL) LPC22XX.sizeof_CANFRM).2.1 = sL ∧
      (LPC22XX.LPC22XXCANRead
        (LPC22XX.LPC22XXCANRead sL h (some bufL) LPC22XX.sizeof_CANFRM).2.1
        h (some buf2L) LPC22XX.sizeof_CANFRM).1 = Int.ofNat LPC22XX.sizeof_CANFRM ∧
      ∃ f1 f2,
        (LPC22XX.LPC22XXCANRead sL h (some bufL) LPC22XX.sizeof_CANFRM).2.2 = some f1 ∧
        (LPC22XX.LPC22XXCANRead
          (LPC22XX.LPC22XXCANRead sL h (some bufL) LPC22XX.sizeof_CANFRM).2.1
          h (some buf2L) LPC22XX.sizeof_CANFRM).2.2 = some f2 ∧
        f2.Identifier = f1.Identifier ∧ f2.DLC = f1.DLC ∧
        ∀ i, i < 8 → f2.Data i = f1.Data i) := by
  constructor
  · have hk : 0 ≤ STM32F4XX.FIFONumber (sS.mem (sS.DevData h.toNat).Base).RF0R
        (sS.mem (sS.DevData h.toNat).Base).RF1R := by
      unfold STM32F4XX.FIFONumber
      split_ifs <;> omega
    have r1 := STM32F4XX.read_pending sS h bufS h0 h2 hUS hk
    have r2 := STM32F4XX.read_pending sS h buf2S h0 h2 hUS hk
    rw [r1]
    refine ⟨rfl, rfl, ?_, ?_⟩
    · show (STM32F4XX.STM32F4XXCANRead sS h (some buf2S) STM32F4XX.sizeof_CANFRM).1 = _
      rw [r2]; rfl
    · refine ⟨_, STM32F4XX.rxFrame ((sS.mem (sS.DevData h.toNat).Base).FIFOMailBox
          (STM32F4XX.FIFONumber (sS.mem (sS.DevData h.toNat).Base).RF0R
            (sS.mem (sS.DevData h.toNat).Base).RF1R).toNat) buf2S, rfl, ?_, ?_⟩
      · show (STM32F4XX.STM32F4XXCANRead sS h (some buf2S) STM32F4XX.sizeof_CANFRM).2.2 = _
        rw [r2]
      · exact STM32F4XX.rxFrame_content _ bufS buf2S
  · have r1 := LPC22XX.lpc_read_pending sL h bufL h0 h2 hUL hG
    have r2 := LPC22XX.lpc_read_pending sL h buf2L h0 h2 hUL hG
    rw [r1]
    refine ⟨rfl, rfl, ?_, ?_⟩
    · show (LPC22XX.LPC22XXCANRead sL h (some buf2L) LPC22XX.sizeof_CANFRM).1 = _
      rw [r2]; rfl
    · refine ⟨_, (LPC22XX.readBus sL buf2L LPC22XX.sizeof_CANFRM
          (if h = 0 then sL.C1GSR else sL.C2GSR) (if h = 0 then sL.C1RID else sL.C2RID)
          (if h = 0 then sL.C1RFS else sL.C2RFS) (if h = 0 then sL.C1RDA else sL.C2RDA)
          (if h = 0 then sL.C1RDB else sL.C2RDB)).2.2, rfl, ?_, ?_⟩
      · show (LPC22XX.LPC22XXCANRead sL h (some buf2L) LPC22XX.sizeof_CANFRM).2.2 = _
        rw [r2]
      · exact LPC22XX.readBus_content sL bufL buf2L _ _ _ _ _ _ hG

/-- Witness of C28: bus 0 of the pending sample states of both drivers. -/
theorem C28_read_keeps_entry_witness :
    (STM32F4XX.STM32F4XXCANRead STM32F4XX.pendingState 0 (some STM32F4XX.zeroFrm)
      STM32F4XX.sizeof_CANFRM).2.1 = STM32F4XX.pendingState ∧
    (LPC22XX.LPC22XXCANRead LPC22XX.pendingState 0 (some LPC22XX.zeroFrm)
      LPC22XX.sizeof_CANFRM).2.1 = LPC22XX.pendingState :=
  ⟨(C28_read_keeps_entry STM32F4XX.pendingState LPC22XX.pendingState 0 (by decide)
      (by decide) STM32F4XX.zeroFrm (STM32F4XX.sampleFrm 0) LPC22XX.zeroFrm
      LPC22XX.sampleFrm (by decide) (by decide) (by decide) (by decide)).1.2.1,
    (C28_read_keeps_entry STM32F4XX.pendingState LPC22XX.pendingState 0 (by decide)
      (by decide) STM32F4XX.zeroFrm (STM32F4XX.sampleFrm 0) LPC22XX.zeroFrm
      LPC22XX.sampleFrm (by decide) (by decide) (by decide) (by decide)).2.2.1⟩

/-- The frame information word of `LPC22XXCANWrite` for a DLC of one byte: format bit
(bit 31) set exactly above `0x7FF`, remote bit (bit 30) clear. -/
theorem lpc_frame_info_bits (Identifier DLC : Nat) (hD : DLC < 256) :
    ((if Identifier > 0x7FF then 0x80000000 else 0x00000000) ||| ((DLC <<< 16) % 2 ^ 32)
      = (if Identifier > 0x7FF then 0x80000000 else 0) ||| (DLC <<< 16)) ∧
    (((if Identifier > 0x7FF then 0x80000000 else 0) ||| (DLC <<< 16)) &&& 0x80000000 ≠ 0
      ↔ Identifier > 0x7FF) ∧
    ((if Identifier > 0x7FF then 0x80000000 else 0) ||| (DLC <<< 16)) &&& 0x40000000 = 0 := by
  have hs : DLC <<< 16 = DLC * 65536 := by rw [Nat.shiftLeft_eq]
  have hm : (DLC <<< 16) % 2 ^ 32 = DLC <<< 16 := by
    rw [hs]; omega
  have e31 := and_two_pow_eq ((if Identifier > 0x7FF then 0x80000000 else 0) ||| (DLC <<< 16)) 31
  have e30 := and_two_pow_eq ((if Identifier > 0x7FF then 0x80000000 else 0) ||| (DLC <<< 16)) 30
  have h31 : (2 : Nat) ^ 31 = 0x80000000 := by norm_num
  have h30 : (2 : Nat) ^ 30 = 0x40000000 := by norm_num
  rw [h31] at e31
  rw [h30] at e30
  refine ⟨by rw [hm], ?_, ?_⟩
  · rw [e31]
    by_cases hi : Identifier > 0x7FF
    · have o := or_eq_add 31 1 (DLC <<< 16) (by rw [hs]; omega)
      simp only [hi, if_true]
      rw [h31, Nat.mul_one] at o
      rw [o, hs]
      constructor
      · intro _; trivial
      · intro _; omega
    · simp only [hi, if_false, Nat.zero_or]
      rw [hs]
      constructor
      · intro e; omega
      · intro e; exact absurd e (by trivial)
  · rw [e30]
    by_cases hi : Identifier > 0x7FF
    · have o := or_eq_add 31 1 (DLC <<< 16) (by rw [hs]; omega)
      simp only [hi, if_true]
      rw [h31, Nat.mul_one] at o
      rw [o, hs]
      omega
    · simp only [hi, if_false, Nat.zero_or]
      rw [hs]
      omega

/-- C29: a write on an open LPC22XX device whose transmit buffer is free (bit 2 of `SR`
set) returns the frame size and changes exactly the transmit buffer 1 and command
registers of the addressed controller: `TFI1 = (0x80000000 if Identifier > 0x7FF else 0) |
(DLC << 16)`, whose format bit is set exactly when the identifier exceeds `0x7FF` and whose
remote bit is clear; `TID1 = Identifier`; `TDA1`, `TDB1` hold the data bytes 0..3 and 4..7
little endian; the command register holds `0x30`. Every other part of the state,
the registers of the other controller among them, is unchanged. -/
theorem C29_lpc_write_registers (s : LPC22XX.State) (h : Int) (h0 : 0 ≤ h) (h2 : h < 2)
    (frm : LPC22XX.LPC22XX_CANFRM) (hU : (s.DevData h.toNat).Use = 1)
    (hD : frm.DLC < 256) (hB : ∀ i, i < 8 → frm.Data i < 256)
    (hSR : (if h = 0 then s.C1SR else s.C2SR) &&& 0x04 ≠ 0) :
    (h = 0 → LPC22XX.LPC22XXCANWrite s h (some frm) LPC22XX.sizeof_CANFRM
      = (Int.ofNat LPC22XX.sizeof_CANFRM,
          { s with
            C1TFI1 := (if frm.Identifier > 0x7FF then 0x80000000 else 0) ||| (frm.DLC <<< 16)
            C1TID1 := frm.Identifier
            C1TDA1 := frm.Data 0 + 256 * frm.Data 1 + 65536 * frm.Data 2
              + 16777216 * frm.Data 3
            C1TDB1 := frm.Data 4 + 256 * frm.Data 5 + 65536 * frm.Data 6
              + 16777216 * frm.Data 7
            C1CMR := 0x30 })) ∧
    (h = 1 → LPC22XX.LPC22XXCANWrite s h (some frm) LPC22XX.sizeof_CANFRM
      = (Int.ofNat LPC22XX.sizeof_CANFRM,
          { s with
            C2TFI1 := (if frm.Identifier > 0x7FF then 0x80000000 else 0) ||| (frm.DLC <<< 16)
            C2TID1 := frm.Identifier
            C2TDA1 := frm.Data 0 + 256 * frm.Data 1 + 65536 * frm.Data 2
              + 16777216 * frm.Data 3
            C2TDB1 := frm.Data 4 + 256 * frm.Data 5 + 65536 * frm.Data 6
              + 16777216 * frm.Data 7
            C2CMR := 0x30 })) ∧
    (((if frm.Identifier > 0x7FF then 0x80000000 else 0) ||| (frm.DLC <<< 16)) &&& 0x80000000
      ≠ 0 ↔ frm.Identifier > 0x7FF) ∧
    ((if frm.Identifier > 0x7FF then 0x80000000 else 0) ||| (frm.DLC <<< 16)) &&& 0x40000000
      = 0 := by
  obtain ⟨b1, b2, b3⟩ := lpc_frame_info_bits frm.Identifier frm.DLC hD
  have d0 := hB 0 (by decide)
  have d1 := hB 1 (by decide)
  have d2 := hB 2 (by decide)
  have d3 := hB 3 (by decide)
  have d4 := hB 4 (by decide)
  have d5 := hB 5 (by decide)
  have d6 := hB 6 (by decide)
  have d7 := hB 7 (by decide)
  have ra : read32 frm.Data 0 = frm.Data 0 + 256 * frm.Data 1 + 65536 * frm.Data 2
      + 16777216 * frm.Data 3 := by
    simp only [read32, Nat.zero_add]
    rw [Nat.mod_eq_of_lt d0, Nat.mod_eq_of_lt d1, Nat.mod_eq_of_lt d2, Nat.mod_eq_of_lt d3]
  have rb : read32 frm.Data 4 = frm.Data 4 + 256 * frm.Data 5 + 65536 * frm.Data 6
      + 16777216 * frm.Data 7 := by
    simp only [read32]
    rw [Nat.mod_eq_of_lt d4, Nat.mod_eq_of_lt d5, Nat.mod_eq_of_lt d6, Nat.mod_eq_of_lt d7]
  refine ⟨?_, ?_, b2, b3⟩
  · rintro rfl
    simp at hSR hU
    rw [← b1, ← ra, ← rb]
    simp [LPC22XX.LPC22XXCANWrite, LPC22XX.LPC22XX_CAN_N_DEV, hU, hSR,
      LPC22XX.LPC22XX_CAN_BUS_0, LPC22XX.CPU_CRITICAL_ENTER, LPC22XX.CPU_CRITICAL_EXIT,
      LPC22XX.sizeof_CANFRM]
  · rintro rfl
    simp at hSR hU
    rw [← b1, ← ra, ← rb]
    simp [LPC22XX.LPC22XXCANWrite, LPC22XX.LPC22XX_CAN_N_DEV, hU, hSR,
      LPC22XX.LPC22XX_CAN_BUS_0, LPC22XX.LPC22XX_CAN_BUS_1, LPC22XX.CPU_CRITICAL_ENTER,
      LPC22XX.CPU_CRITICAL_EXIT, LPC22XX.sizeof_CANFRM]

/-- Witness of C29: the sample frame written on bus 0 of the open sample state. -/
theorem C29_lpc_write_registers_witness :
    (LPC22XX.LPC22XXCANWrite LPC22XX.openState 0 (some LPC22XX.sampleFrm)
      LPC22XX.sizeof_CANFRM).1 = Int.ofNat LPC22XX.sizeof_CANFRM :=
  congrArg Prod.fst ((C29_lpc_write_registers LPC22XX.openState 0 (by decide) (by decide)
    LPC22XX.sampleFrm (by decide) (by decide)
    (by intro i hi; simp only [LPC22XX.sampleFrm]; rw [if_pos hi]; omega)
    (by decide)).1 rfl)

/-- C30 (evaluation at the failing input): a write on bus 0 of the open LPC22XX sample
state with the transmit buffer occupied returns -1 and leaves the nesting level of the
critical section one above its value at entry; the same call on the STM32F4 driver with
all mailboxes occupied returns -1 with the nesting level as at entry. -/
theorem C30_busy_write_evaluation :
    (LPC22XX.LPC22XXCANWrite LPC22XX.busyState 0 (some LPC22XX.sampleFrm)
      LPC22XX.sizeof_CANFRM).1 = -1 ∧
    (LPC22XX.LPC22XXCANWrite LPC22XX.busyState 0 (some LPC22XX.sampleFrm)
      LPC22XX.sizeof_CANFRM).2.IntNest = LPC22XX.busyState.IntNest + 1 ∧
    (STM32F4XX.STM32F4XXCANWrite STM32F4XX.busyState 0 (some (STM32F4XX.sampleFrm 0x123))
      STM32F4XX.sizeof_CANFRM).1 = -1 ∧
    (STM32F4XX.STM32F4XXCANWrite STM32F4XX.busyState 0 (some (STM32F4XX.sampleFrm 0x123))
      STM32F4XX.sizeof_CANFRM).2.IntNest = STM32F4XX.busyState.IntNest := by
  decide

/-! ## The filter bank after `STM32F4XXCANInit` -/

namespace STM32F4XX

/-- The CAN 2 start bank field of `FMR` after the four stores of `STM32F4XXCANInit`. -/
theorem startBank_field (F : Nat) :
    (clr32 ((clr32 (F ||| STM32F4XX_CAN_FMR_FINIT) 0x00003F00) ||| (14 <<< 8))
      STM32F4XX_CAN_FMR_FINIT >>> 8) &&& 0x3F = 14 := by
  apply Nat.eq_of_testBit_eq
  intro i
  simp only [clr32, STM32F4XX_CAN_FMR_FINIT, Nat.testBit_and, Nat.testBit_shiftRight,
    Nat.testBit_or]
  by_cases hi : i < 6
  · interval_cases i <;> (generalize F.testBit _ = b; revert b; decide)
  · have h6 : (0x3F : Nat).testBit i = false :=
      Nat.testBit_lt_two_pow (lt_of_lt_of_le (by norm_num) (Nat.pow_le_pow_right (by norm_num)
        (Nat.le_of_not_lt hi)))
    have h14 : (14 : Nat).testBit i = false :=
      Nat.testBit_lt_two_pow (lt_of_lt_of_le (by norm_num) (Nat.pow_le_pow_right (by norm_num)
        (Nat.le_of_not_lt hi)))
    rw [h6, h14]
    simp

/-- The register blocks after the loop of `STM32F4XXCANInit` that resets the filter entries
with the indices in `l` of the block at `can0`. -/
theorem zeroLoop_mem (can0 : Nat) (l : List Nat) (s : State) (b : Nat) :
    ((l.foldl (fun acc i => modCan acc can0 (fun c =>
        let c := setFilter c i { c.FilterRegister i with FR1 := 0 }
        setFilter c i { c.FilterRegister i with FR2 := 0 })) s).mem b)
      = if b = can0 then
          { s.mem can0 with
            FilterRegister := fun k =>
              if k ∈ l then ⟨0, 0⟩ else (s.mem can0).FilterRegister k }
        else s.mem b := by
  induction l generalizing s with
  | nil =>
    by_cases hb : b = can0
    · subst hb; simp
    · simp [hb]
  | cons x xs ih =>
    rw [List.foldl_cons, ih]
    by_cases hb : b = can0
    · subst hb
      simp only [if_true, f4_modCan_mem_same, setFilter]
      congr 1
      funext k
      by_cases hx : k = x
      · subst hx
        by_cases hk : k ∈ xs <;> simp [hk, upd]
      · by_cases hk : k ∈ xs <;> simp [hk, hx, upd]
    · simp [hb, f4_modCan_mem_other _ _ _ b hb]

theorem zeroLoop_forLoop (can0 lo hi : Nat) (s : State) (b : Nat) :
    ((forLoop lo hi (fun i s => modCan s can0 (fun c =>
        let c := setFilter c i { c.FilterRegister i with FR1 := 0 }
        setFilter c i { c.FilterRegister i with FR2 := 0 })) s).mem b)
      = if b = can0 then
          { s.mem can0 with
            FilterRegister := fun k =>
              if lo ≤ k ∧ k < hi then ⟨0, 0⟩ else (s.mem can0).FilterRegister k }
        else s.mem b := by
  unfold forLoop
  rw [zeroLoop_mem]
  by_cases hb : b = can0
  · simp only [hb, if_true]
    congr 1
    funext k
    have e : k ∈ List.range' lo (hi - lo) ↔ (lo ≤ k ∧ k < hi) := by
      rw [List.mem_range'_1]
      constructor <;> intro h <;> omega
    by_cases hk : lo ≤ k ∧ k < hi
    · rw [if_pos (e.mpr hk), if_pos hk]
    · rw [if_neg (fun h => hk (e.mp h)), if_neg hk]
  · simp only [hb, if_false]

/-- The register blocks after the filter part of `STM32F4XXCANInit`. -/
theorem f4_initFilters_mem (s : State) (arg can0 b : Nat) :
    (initFilters s arg can0).mem b =
      if b = can0 then
        { s.mem can0 with
          FMR := clr32 ((clr32 ((s.mem can0).FMR ||| STM32F4XX_CAN_FMR_FINIT) 0x00003F00)
            ||| (14 <<< 8)) STM32F4XX_CAN_FMR_FINIT
          FM1R := 0
          FS1R := 0x0FFFFFFF
          FFA1R := 0x0AAAAAAA
          FA1R := 0x00000003 ||| 0x0000C000
          FilterRegister := fun k =>
            if (if arg = STM32F4XX_CAN_BUS_0 then 0 else 14) ≤ k ∧
                k < (if arg = STM32F4XX_CAN_BUS_0 then 14 else 28) then ⟨0, 0⟩
            else (s.mem can0).FilterRegister k }
      else s.mem b := by
  unfold initFilters
  by_cases h0 : arg = STM32F4XX_CAN_BUS_0
  · by_cases hb : b = can0
    · subst hb
      simp only [h0, if_true, f4_modCan_mem_same, zeroLoop_forLoop, f4_setDev_mem]
    · simp only [h0, hb, if_true, if_false, f4_modCan_mem_other _ _ _ b hb, zeroLoop_forLoop,
        f4_setDev_mem]
  · by_cases hb : b = can0
    · subst hb
      simp only [h0, if_true, if_false, f4_modCan_mem_same, zeroLoop_forLoop, f4_setDev_mem]
    · simp only [h0, hb, if_false, f4_modCan_mem_other _ _ _ b hb, zeroLoop_forLoop,
        f4_setDev_mem]

theorem f4_modCan_bank (s : State) (b : Nat) (f : STM32F4XX_CAN_t → STM32F4XX_CAN_t)
    (hf : ∀ c, bankOf (f c) = bankOf c) (b2 : Nat) :
    bankOf ((modCan s b f).mem b2) = bankOf (s.mem b2) := by
  by_cases h : b2 = b
  · subst h; rw [f4_modCan_mem_same, hf]
  · rw [f4_modCan_mem_other _ _ _ b2 h]

theorem f4_initBase_mem (env : Env) (s : State) (arg : Nat) :
    (initBase env s arg).mem = s.mem := by
  unfold initBase
  split_ifs <;> rfl

theorem upd_Use (d : Nat → STM32F4XX_CAN_DATA) (i j : Nat) (v : STM32F4XX_CAN_DATA) :
    ((upd d i v) j).Use = if j = i then v.Use else (d j).Use := by
  by_cases h : j = i <;> simp [upd, h]

theorem f4_initBase_Use (env : Env) (s : State) (arg j : Nat) :
    ((initBase env s arg).DevData j).Use = if j = arg then 0 else (s.DevData j).Use := by
  unfold initBase
  split_ifs <;> simp [upd_Use, upd_same] <;> (try split_ifs) <;> simp_all

theorem f4_initTiming_bank (env : Env) (s : State) (arg can b : Nat) :
    bankOf ((initTiming env s arg can).mem b) = bankOf (s.mem b) := by
  unfold initTiming
  repeat (first | rw [f4_setDev_mem] | rw [f4_modCan_bank])
  all_goals (intro c; rfl)

theorem f4_initTiming_Use (env : Env) (huse : TimingKeepsUse env) (s : State)
    (arg can j : Nat) :
    ((initTiming env s arg can).DevData j).Use = (s.DevData j).Use := by
  unfold initTiming
  simp [upd_Use, upd_same, huse _]
  intros; subst_vars; rfl

theorem f4_initFilters_Use (s : State) (arg can0 j : Nat) :
    ((initFilters s arg can0).DevData j).Use = (s.DevData j).Use := by
  unfold initFilters
  simp [apply_ite State.DevData, f4_forLoop_DevData, upd_Use]
  intros; subst_vars; rfl

theorem f4_initLeave_bank (env : Env) (s : State) (arg can b : Nat) :
    bankOf ((initLeave env s arg can).mem b) = bankOf (s.mem b) := by
  unfold initLeave
  show bankOf ((modCan _ can waitNormalMode).mem b) = _
  repeat (rw [f4_modCan_bank])
  all_goals (intro c; rfl)

/-- The filter bank registers of the block of CAN 1 after a successful
`STM32F4XXCANInit`. -/
theorem f4_init_can1 (env : Env) (hres : TimingOnly env) (s : State) (arg : Nat)
    (harg : arg < 2) :
    bankOf ((STM32F4XXCANInit env s arg).2.mem STM32F4XX_CAN1_BASE) =
      (clr32 ((clr32 ((s.mem STM32F4XX_CAN1_BASE).FMR ||| STM32F4XX_CAN_FMR_FINIT) 0x00003F00)
          ||| (14 <<< 8)) STM32F4XX_CAN_FMR_FINIT,
        0, 0x0FFFFFFF, 0x0AAAAAAA, 0x00000003 ||| 0x0000C000,
        fun k =>
          if (if arg = STM32F4XX_CAN_BUS_0 then 0 else 14) ≤ k ∧
              k < (if arg = STM32F4XX_CAN_BUS_0 then 14 else 28) then ⟨0, 0⟩
          else (s.mem STM32F4XX_CAN1_BASE).FilterRegister k) := by
  have ha : ¬ arg ≥ STM32F4XX_CAN_N_DEV := by simp [STM32F4XX_CAN_N_DEV]; omega
  rw [f4_init_parts env s arg ha]
  have hb : ((initTiming env (initBase env s arg) arg
      ((initBase env s arg).DevData arg).Base).DevData STM32F4XX_CAN_BUS_0).Base
      = STM32F4XX_CAN1_BASE := by
    rw [(f4_initTiming_DevData env hres _ _ _ _).2, f4_initBase_Base env s arg harg]
  have hT := f4_initTiming_bank env (initBase env s arg) arg
    ((initBase env s arg).DevData arg).Base STM32F4XX_CAN1_BASE
  rw [f4_initBase_mem] at hT
  simp only [bankOf, Prod.mk.injEq] at hT
  obtain ⟨e1, _, _, _, _, e6⟩ := hT
  show bankOf ((initLeave env _ arg _).mem STM32F4XX_CAN1_BASE) = _
  rw [f4_initLeave_bank, hb, f4_initFilters_mem, if_pos rfl]
  simp only [bankOf, e1, e6]

/-- The filter bank registers of every other block after `STM32F4XXCANInit`. -/
theorem f4_init_other (env : Env) (hres : TimingOnly env) (s : State) (arg : Nat)
    (harg : arg < 2) (b : Nat) (hne : b ≠ STM32F4XX_CAN1_BASE) :
    bankOf ((STM32F4XXCANInit env s arg).2.mem b) = bankOf (s.mem b) := by
  have ha : ¬ arg ≥ STM32F4XX_CAN_N_DEV := by simp [STM32F4XX_CAN_N_DEV]; omega
  rw [f4_init_parts env s arg ha]
  have hb : ((initTiming env (initBase env s arg) arg
      ((initBase env s arg).DevData arg).Base).DevData STM32F4XX_CAN_BUS_0).Base
      = STM32F4XX_CAN1_BASE := by
    rw [(f4_initTiming_DevData env hres _ _ _ _).2, f4_initBase_Base env s arg harg]
  show bankOf ((initLeave env _ arg _).mem b) = _
  rw [f4_initLeave_bank, hb, f4_initFilters_mem, if_neg hne, f4_initTiming_bank,
    f4_initBase_mem]

/-- Use flag and filter cursor of the device records after a successful
`STM32F4XXCANInit`. -/
theorem f4_init_records (env : Env) (hres : TimingOnly env) (huse : TimingKeepsUse env)
    (s : State) (arg : Nat) (harg : arg < 2) (j : Nat) :
    ((STM32F4XXCANInit env s arg).2.DevData j).Use
      = (if j = arg then 0 else (s.DevData j).Use) ∧
    ((STM32F4XXCANInit env s arg).2.DevData j).FilterIdx
      = (if j = arg then 2 else (s.DevData j).FilterIdx) := by
  have ha : ¬ arg ≥ STM32F4XX_CAN_N_DEV := by simp [STM32F4XX_CAN_N_DEV]; omega
  rw [f4_init_parts env s arg ha]
  constructor
  · show ((initLeave env _ arg _).DevData j).Use = _
    rw [f4_initLeave_DevData, f4_initFilters_Use, f4_initTiming_Use env huse,
      f4_initBase_Use]
  · show ((initLeave env _ arg _).DevData j).FilterIdx = _
    rw [f4_initLeave_DevData, f4_initFilters_FilterIdx,
      (f4_initTiming_DevData env hres _ _ _ _).1, f4_initBase_FilterIdx]

theorem sampleEnv_timingKeepsUse : TimingKeepsUse sampleEnv := by
  intro d
  simp only [sampleEnv]
  split_ifs <;> rfl

end STM32F4XX

/-- Counterexample to C26 as stated: from the reset state (filter registers at their reset
value 0) `STM32F4XXCANInit (BUS_1)` succeeds and changes `FS1R`, `FFA1R` and `FA1R` of the
filter bank. -/
theorem C26_bank_partition_counterexample :
    (STM32F4XX.STM32F4XXCANInit STM32F4XX.sampleEnv STM32F4XX.resetState
      STM32F4XX.STM32F4XX_CAN_BUS_1).1 = 0 ∧
    (STM32F4XX.resetState.mem STM32F4XX.STM32F4XX_CAN1_BASE).FS1R = 0 ∧
    ((STM32F4XX.STM32F4XXCANInit STM32F4XX.sampleEnv STM32F4XX.resetState
      STM32F4XX.STM32F4XX_CAN_BUS_1).2.mem STM32F4XX.STM32F4XX_CAN1_BASE).FS1R = 0x0FFFFFFF ∧
    (STM32F4XX.resetState.mem STM32F4XX.STM32F4XX_CAN1_BASE).FFA1R = 0 ∧
    ((STM32F4XX.STM32F4XXCANInit STM32F4XX.sampleEnv STM32F4XX.resetState
      STM32F4XX.STM32F4XX_CAN_BUS_1).2.mem STM32F4XX.STM32F4XX_CAN1_BASE).FFA1R = 0x0AAAAAAA ∧
    (STM32F4XX.resetState.mem STM32F4XX.STM32F4XX_CAN1_BASE).FA1R = 0 ∧
    ((STM32F4XX.STM32F4XXCANInit STM32F4XX.sampleEnv STM32F4XX.resetState
      STM32F4XX.STM32F4XX_CAN_BUS_1).2.mem STM32F4XX.STM32F4XX_CAN1_BASE).FA1R = 0x0000C003 := by
  decide

/-- C26 (amended): `STM32F4XXCANInit` configures the partition of the shared filter bank
for either bus selector, with the same constants. For every prior state, after a
successful call the block of CAN 1 holds the CAN 2 start bank 14 in `FMR`, `FM1R = 0`,
`FS1R = 0x0FFFFFFF`, `FFA1R = 0x0AAAAAAA` and `FA1R = 0x0000C003`; hence
`STM32F4XXCANInit (BUS_1)` leaves these registers unchanged when it follows
`STM32F4XXCANInit (BUS_0)`. The timing resolver of the board support is taken not to touch
`Base` and `FilterIdx`. -/
theorem C26_bank_partition_amended (env : STM32F4XX.Env) (hres : STM32F4XX.TimingOnly env)
    (s : STM32F4XX.State) (arg : Nat) (harg : arg < 2) :
    ((((STM32F4XX.STM32F4XXCANInit env s arg).2.mem STM32F4XX.STM32F4XX_CAN1_BASE).FMR >>> 8)
        &&& 0x3F = 14 ∧
      ((STM32F4XX.STM32F4XXCANInit env s arg).2.mem STM32F4XX.STM32F4XX_CAN1_BASE).FM1R = 0 ∧
      ((STM32F4XX.STM32F4XXCANInit env s arg).2.mem STM32F4XX.STM32F4XX_CAN1_BASE).FS1R
        = 0x0FFFFFFF ∧
      ((STM32F4XX.STM32F4XXCANInit env s arg).2.mem STM32F4XX.STM32F4XX_CAN1_BASE).FFA1R
        = 0x0AAAAAAA ∧
      ((STM32F4XX.STM32F4XXCANInit env s arg).2.mem STM32F4XX.STM32F4XX_CAN1_BASE).FA1R
        = 0x0000C003) ∧
    ((((STM32F4XX.STM32F4XXCANInit env
          (STM32F4XX.STM32F4XXCANInit env s STM32F4XX.STM32F4XX_CAN_BUS_0).2
          STM32F4XX.STM32F4XX_CAN_BUS_1).2.mem STM32F4XX.STM32F4XX_CAN1_BASE).FMR >>> 8)
        &&& 0x3F
        = ((((STM32F4XX.STM32F4XXCANInit env s STM32F4XX.STM32F4XX_CAN_BUS_0).2.mem
            STM32F4XX.STM32F4XX_CAN1_BASE).FMR >>> 8) &&& 0x3F) ∧
      ((STM32F4XX.STM32F4XXCANInit env
          (STM32F4XX.STM32F4XXCANInit env s STM32F4XX.STM32F4XX_CAN_BUS_0).2
          STM32F4XX.STM32F4XX_CAN_BUS_1).2.mem STM32F4XX.STM32F4XX_CAN1_BASE).FM1R
        = ((STM32F4XX.STM32F4XXCANInit env s STM32F4XX.STM32F4XX_CAN_BUS_0).2.mem
            STM32F4XX.STM32F4XX_CAN1_BASE).FM1R ∧
      ((STM32F4XX.STM32F4XXCANInit env
          (STM32F4XX.STM32F4XXCANInit env s STM32F4XX.STM32F4XX_CAN_BUS_0).2
          STM32F4XX.STM32F4XX_CAN_BUS_1).2.mem STM32F4XX.STM32F4XX_CAN1_BASE).FS1R
        = ((STM32F4XX.STM32F4XXCANInit env s STM32F4XX.STM32F4XX_CAN_BUS_0).2.mem
            STM32F4XX.STM32F4XX_CAN1_BASE).FS1R ∧
      ((STM32F4XX.STM32F4XXCANInit env
          (STM32F4XX.STM32F4XXCANInit env s STM32F4XX.STM32F4XX_CAN_BUS_0).2
          STM32F4XX.STM32F4XX_CAN_BUS_1).2.mem STM32F4XX.STM32F4XX_CAN1_BASE).FFA1R
        = ((STM32F4XX.STM32F4XXCANInit env s STM32F4XX.STM32F4XX_CAN_BUS_0).2.mem
            STM32F4XX.STM32F4XX_CAN1_BASE).FFA1R ∧
      ((STM32F4XX.STM32F4XXCANInit env
          (STM32F4XX.STM32F4XXCANInit env s STM32F4XX.STM32F4XX_CAN_BUS_0).2
          STM32F4XX.STM32F4XX_CAN_BUS_1).2.mem STM32F4XX.STM32F4XX_CAN1_BASE).FA1R
        = ((STM32F4XX.STM32F4XXCANInit env s STM32F4XX.STM32F4XX_CAN_BUS_0).2.mem
            STM32F4XX.STM32F4XX_CAN1_BASE).FA1R) := by
  have key : ∀ (t : STM32F4XX.State) (a : Nat), a < 2 →
      ((((STM32F4XX.STM32F4XXCANInit env t a).2.mem STM32F4XX.STM32F4XX_CAN1_BASE).FMR >>> 8)
        &&& 0x3F = 14 ∧
      ((STM32F4XX.STM32F4XXCANInit env t a).2.mem STM32F4XX.STM32F4XX_CAN1_BASE).FM1R = 0 ∧
      ((STM32F4XX.STM32F4XXCANInit env t a).2.mem STM32F4XX.STM32F4XX_CAN1_BASE).FS1R
        = 0x0FFFFFFF ∧
      ((STM32F4XX.STM32F4XXCANInit env t a).2.mem STM32F4XX.STM32F4XX_CAN1_BASE).FFA1R
        = 0x0AAAAAAA ∧
      ((STM32F4XX.STM32F4XXCANInit env t a).2.mem STM32F4XX.STM32F4XX_CAN1_BASE).FA1R
        = 0x0000C003) := by
    intro t a hlt
    have hb := STM32F4XX.f4_init_can1 env hres t a hlt
    simp only [STM32F4XX.bankOf, Prod.mk.injEq] at hb
    obtain ⟨e1, e2, e3, e4, e5, _⟩ := hb
    refine ⟨?_, e2, e3, e4, ?_⟩
    · rw [e1]; exact STM32F4XX.startBank_field _
    · rw [e5]; decide
  refine ⟨key s arg harg, ?_⟩
  obtain ⟨a1, a2, a3, a4, a5⟩ := key s STM32F4XX.STM32F4XX_CAN_BUS_0 (by decide)
  obtain ⟨b1, b2, b3, b4, b5⟩ := key
    (STM32F4XX.STM32F4XXCANInit env s STM32F4XX.STM32F4XX_CAN_BUS_0).2
    STM32F4XX.STM32F4XX_CAN_BUS_1 (by decide)
  exact ⟨b1.trans a1.symm, b2.trans a2.symm, b3.trans a3.symm, b4.trans a4.symm,
    b5.trans a5.symm⟩

/-- Witness of C26 (amended): `STM32F4XXCANInit (BUS_1)` from the reset state. -/
theorem C26_bank_partition_amended_witness :
    ((STM32F4XX.STM32F4XXCANInit STM32F4XX.sampleEnv STM32F4XX.resetState 1).2.mem
      STM32F4XX.STM32F4XX_CAN1_BASE).FA1R = 0x0000C003 :=
  (C26_bank_partition_amended STM32F4XX.sampleEnv STM32F4XX.sampleEnv_timingOnly
    STM32F4XX.resetState 1 (by decide)).1.2.2.2.2

/-- C27: after a successful `STM32F4XXCANInit (arg)` the call has returned 0, every filter
entry of the half of the initialised instance (entries `14 * arg .. 14 * arg + 13` of the
bank in the block of CAN 1) is zero in `FR1` and `FR2`, every other filter entry is
unchanged, `FINIT` of `FMR` is clear, the `Use` flag of the instance is 0 and its
`FilterIdx` is 2, and `Use` and `FilterIdx` of every other device record are unchanged.
The timing resolver of the board support is taken not to touch `Base`, `FilterIdx` and
`Use`. -/
theorem C27_init_filter_state (env : STM32F4XX.Env) (hres : STM32F4XX.TimingOnly env)
    (huse : STM32F4XX.TimingKeepsUse env) (s : STM32F4XX.State) (arg : Nat)
    (harg : arg < 2) :
    (STM32F4XX.STM32F4XXCANInit env s arg).1 = 0 ∧
    (∀ k, 14 * arg ≤ k → k < 14 * arg + 14 →
      ((STM32F4XX.STM32F4XXCANInit env s arg).2.mem
        STM32F4XX.STM32F4XX_CAN1_BASE).FilterRegister k = ⟨0, 0⟩) ∧
    (∀ b k, ¬ (b = STM32F4XX.STM32F4XX_CAN1_BASE ∧ 14 * arg ≤ k ∧ k < 14 * arg + 14) →
      ((STM32F4XX.STM32F4XXCANInit env s arg).2.mem b).FilterRegister k
        = (s.mem b).FilterRegister k) ∧
    ((STM32F4XX.STM32F4XXCANInit env s arg).2.mem STM32F4XX.STM32F4XX_CAN1_BASE).FMR
      &&& STM32F4XX.STM32F4XX_CAN_FMR_FINIT = 0 ∧
    ((STM32F4XX.STM32F4XXCANInit env s arg).2.DevData arg).Use = 0 ∧
    ((STM32F4XX.STM32F4XXCANInit env s arg).2.DevData arg).FilterIdx = 2 ∧
    (∀ j, j ≠ arg →
      ((STM32F4XX.STM32F4XXCANInit env s arg).2.DevData j).Use = (s.DevData j).Use ∧
      ((STM32F4XX.STM32F4XXCANInit env s arg).2.DevData j).FilterIdx
        = (s.DevData j).FilterIdx) := by
  have hb := STM32F4XX.f4_init_can1 env hres s arg harg
  simp only [STM32F4XX.bankOf, Prod.mk.injEq] at hb
  obtain ⟨_, _, _, _, _, e6⟩ := hb
  have hc : arg = 0 ∨ arg = 1 := by omega
  have hlo : (if arg = STM32F4XX.STM32F4XX_CAN_BUS_0 then 0 else 14) = 14 * arg := by
    rcases hc with hc | hc <;> rw [hc] <;> simp [STM32F4XX.STM32F4XX_CAN_BUS_0]
  have hhi : (if arg = STM32F4XX.STM32F4XX_CAN_BUS_0 then 14 else 28) = 14 * arg + 14 := by
    rcases hc with hc | hc <;> rw [hc] <;> simp [STM32F4XX.STM32F4XX_CAN_BUS_0]
  rw [hlo, hhi] at e6
  have hrec := STM32F4XX.f4_init_records env hres huse s arg harg
  refine ⟨(STM32F4XX.f4_init_ok env s arg harg).1, ?_, ?_,
    (STM32F4XX.f4_init_filterInv env hres s arg harg).2, ?_, ?_, ?_⟩
  · intro k h1 h2
    rw [e6]
    simp only [h1, h2, and_self, if_true]
  · intro b k hk
    by_cases hbe : b = STM32F4XX.STM32F4XX_CAN1_BASE
    · subst hbe
      rw [e6]
      have : ¬ (14 * arg ≤ k ∧ k < 14 * arg + 14) := fun h => hk ⟨rfl, h⟩
      simp only [this, if_false]
    · have ho := STM32F4XX.f4_init_other env hres s arg harg b hbe
      simp only [STM32F4XX.bankOf, Prod.mk.injEq] at ho
      rw [ho.2.2.2.2.2]
  · rw [(hrec arg).1, if_pos rfl]
  · rw [(hrec arg).2, if_pos rfl]
  · intro j hj
    rw [(hrec j).1, (hrec j).2, if_neg hj, if_neg hj]
    exact ⟨rfl, rfl⟩

/-- Witness of C27: `STM32F4XXCANInit (0)` from the reset state. -/
theorem C27_init_filter_state_witness :
    ((STM32F4XX.STM32F4XXCANInit STM32F4XX.sampleEnv STM32F4XX.resetState 0).2.DevData
      0).FilterIdx = 2 :=
  (C27_init_filter_state STM32F4XX.sampleEnv STM32F4XX.sampleEnv_timingOnly
    STM32F4XX.sampleEnv_timingKeepsUse STM32F4XX.resetState 0 (by decide)).2.2.2.2.2.1
